import Mathlib

/-!
Hospital management API: partial update and validation of patients.

A shallow embedding of the patient routes of `patients.js` (the patients router)
and `server.js` (the top-level handlers), of the EMR aggregate of `emr.js` and of
the appointments router of `appointments.js`.

* Request bodies and store rows are JavaScript objects: association lists from
  key to value, a key that is absent reading as `undefined`.
* A body value ranges over `undefined`, `null`, booleans, integer numbers and
  strings; nested objects, arrays and fractional numbers are outside the model.
  Strings are sequences of Unicode code points; the two regular expressions of
  the source consume one or more non-space characters or exactly ten decimal
  digits, so reading a character outside the basic plane as one unit instead
  of two does not change a verdict.
* A regular expression is matched by derivatives; `Regex.matchChars_iff` shows
  that this decides membership in the language the expression denotes, which
  is what an anchored `test` without captures answers.
* `db.execute` is an oracle: `Db.query` answers a `SELECT` with rows, `Db.exec`
  answers a data-modifying statement with its result header; both may throw.
  A handler returns its response together with the statements it issued.
-/

namespace HMS

/-! ## JavaScript values -/

mutual
/-- A JavaScript value as `express.json()` delivers it in a parsed body: a scalar, an array
or an object; `undefined` is what reading a missing key gives. -/
inductive JsVal where
  | undefined
  | null
  | bool (b : Bool)
  | num (n : Int)
  | str (s : String)
  | arr (items : JsItems)
  | obj (fields : JsFields)
  deriving DecidableEq, Repr
/-- The elements of an array, in order. -/
inductive JsItems where
  | nil
  | cons (head : JsVal) (tail : JsItems)
  deriving DecidableEq, Repr
/-- The own properties of an object inside a value, in insertion order. -/
inductive JsFields where
  | nil
  | cons (key : String) (value : JsVal) (tail : JsFields)
  deriving DecidableEq, Repr
end

/-- A result that is either a value or the message of a thrown exception can be compared. -/
instance exceptDecEq {ε α : Type} [DecidableEq ε] [DecidableEq α] : DecidableEq (Except ε α)
  | .ok a, .ok b =>
    if h : a = b then isTrue (by rw [h]) else isFalse (fun h2 => h (Except.ok.inj h2))
  | .error a, .error b =>
    if h : a = b then isTrue (by rw [h]) else isFalse (fun h2 => h (Except.error.inj h2))
  | .ok _, .error _ => isFalse (fun h => Except.noConfusion h)
  | .error _, .ok _ => isFalse (fun h => Except.noConfusion h)

/-- The request body `req.body`, a parsed JSON object: its keys in insertion order. -/
abbrev JsObject := List (String × JsVal)

/-- Whether an object has the own property `key`. -/
def JsFields.hasKey : JsFields → String → Bool
  | .nil, _ => false
  | .cons k _ rest, key => k == key || rest.hasKey key

/-- The message of the `TypeError` raised when neither `toString` nor `valueOf` of an object
yields a primitive; its wording is the engine's. -/
def cannotConvert : String := "Cannot convert object to primitive value"

/-- Property read `o.k`: the value under `k`, `undefined` when the key is absent. -/
def JsObject.get (o : JsObject) (k : String) : JsVal :=
  match o.lookup k with
  | some v => v
  | none => JsVal.undefined

/-- The keys of an object, `Object.keys(o)`. -/
def JsObject.keys (o : JsObject) : List String := o.map Prod.fst

/-- The values of an object, `Object.values(o)`. -/
def JsObject.values (o : JsObject) : List JsVal := o.map Prod.snd

namespace JsVal

/-- ToBoolean: what `if (v)`, `!v` and `v && ...` test; every array and object is truthy. -/
def truthy : JsVal → Bool
  | undefined => false
  | null => false
  | bool b => b
  | num n => n != 0
  | str s => s != ""
  | arr _ => true
  | obj _ => true

/-- The operator `a || b`. -/
def orElse (a b : JsVal) : JsVal := if a.truthy then a else b

end JsVal

mutual
/-- ToString, as applied by `RegExp.prototype.test` to its argument. An array is joined:
its elements converted in order and separated by `,`. An object of a parsed body inherits
`Object.prototype.toString`, which gives `[object Object]`, unless it has an own property
`toString`: that property holds a JSON value, never a function, `valueOf` then returns the
object itself, and the conversion throws a `TypeError`. -/
def JsVal.toJsString : JsVal → Except String String
  | .undefined => .ok "undefined"
  | .null => .ok "null"
  | .bool true => .ok "true"
  | .bool false => .ok "false"
  | .num n => .ok (toString n)
  | .str s => .ok s
  | .arr items =>
    match items.strings with
    | .error thrown => .error thrown
    | .ok parts => .ok (",".intercalate parts)
  | .obj fields => if fields.hasKey "toString" then .error cannotConvert else .ok "[object Object]"
/-- The strings `Array.prototype.join` puts between the separators: the empty string for an
element that is `undefined` or `null`, the conversion of any other element; the first
conversion that throws ends the join. -/
def JsItems.strings : JsItems → Except String (List String)
  | .nil => .ok []
  | .cons v rest =>
    match (match v with
      | .undefined => Except.ok ""
      | .null => Except.ok ""
      | w => w.toJsString : Except String String) with
    | .error thrown => .error thrown
    | .ok s =>
      match rest.strings with
      | .error thrown => .error thrown
      | .ok parts => .ok (s :: parts)
end

/-- The call `re.test(v)` of a pattern on a value: the value is converted to a string, which
may throw, and the string is matched. -/
def testValue (accepts : String → Bool) (v : JsVal) : Except String Bool :=
  match v.toJsString with
  | .error thrown => .error thrown
  | .ok s => .ok (accepts s)

/-! ## Scalars: what the store, the query string and the headers hold -/

/-- A scalar JavaScript value: what a column of a store row, a parameter of the parsed
query string or a request header holds; `undefined` is what reading a missing key gives. -/
inductive Scalar where
  | undefined
  | null
  | bool (b : Bool)
  | num (n : Int)
  | str (s : String)
  deriving DecidableEq, Repr

/-- An object whose values are scalars, keys in insertion order: a row of the store, the
parsed query string, the request headers. -/
abbrev Record := List (String × Scalar)

/-- Property read `o.k`: the value under `k`, `undefined` when the key is absent. -/
def Record.get (o : Record) (k : String) : Scalar :=
  match o.lookup k with
  | some v => v
  | none => Scalar.undefined

namespace Scalar

/-- ToBoolean: what `if (v)`, `!v` and `v || ...` test. -/
def truthy : Scalar → Bool
  | undefined => false
  | null => false
  | bool b => b
  | num n => n != 0
  | str s => s != ""

/-- ToString, as applied by a template literal and by `+` with a string. -/
def toJsString : Scalar → String
  | undefined => "undefined"
  | null => "null"
  | bool true => "true"
  | bool false => "false"
  | num n => toString n
  | str s => s

/-- The operator `a || b`. -/
def orElse (a b : Scalar) : Scalar := if a.truthy then a else b

/-- A scalar as a JavaScript value. -/
def toJs : Scalar → JsVal
  | undefined => .undefined
  | null => .null
  | bool b => .bool b
  | num n => .num n
  | str s => .str s

end Scalar

/-! ## Regular expressions -/

/-- The fragment of regular expressions the validators use. -/
inductive Regex where
  | none
  | eps
  | cls (p : Char → Bool)
  | seq (r s : Regex)
  | alt (r s : Regex)
  | star (r : Regex)

namespace Regex

/-- One or more repetitions, `r+`. -/
def plus (r : Regex) : Regex := seq r (star r)

/-- Exactly `n` repetitions, `r` with the count `n` in braces. -/
def times (r : Regex) : Nat → Regex
  | 0 => eps
  | n + 1 => seq r (times r n)

/-- Whether the expression accepts the empty word. -/
def nullable : Regex → Bool
  | none => false
  | eps => true
  | cls _ => false
  | seq r s => nullable r && nullable s
  | alt r s => nullable r || nullable s
  | star _ => true

/-- The derivative of the expression with respect to one character. -/
def deriv : Regex → Char → Regex
  | none, _ => none
  | eps, _ => none
  | cls p, c => if p c then eps else none
  | seq r s, c =>
    if nullable r then alt (seq (deriv r c) s) (deriv s c) else seq (deriv r c) s
  | alt r s, c => alt (deriv r c) (deriv s c)
  | star r, c => seq (deriv r c) (star r)

/-- Whole-word match, the meaning of `/^r$/.test`. -/
def matchChars : Regex → List Char → Bool
  | r, [] => nullable r
  | r, c :: cs => matchChars (deriv r c) cs

/-- The call `/^r$/.test(s)` for a string `s`. -/
def test (r : Regex) (s : String) : Bool := matchChars r s.toList

/-- The words an expression denotes. -/
def Lang : Regex → List Char → Prop
  | none, _ => False
  | eps, w => w = []
  | cls p, w => ∃ c, p c = true ∧ w = [c]
  | seq r s, w => ∃ x y, w = x ++ y ∧ Lang r x ∧ Lang s y
  | alt r s, w => Lang r w ∨ Lang s w
  | star r, w => ∃ L : List (List Char), w = L.flatten ∧ ∀ x ∈ L, x ≠ [] ∧ Lang r x

end Regex

/-- The class `\s`: white space and line terminators of ECMAScript. -/
def isJsSpace (c : Char) : Bool :=
  c.toNat = 0x09 || c.toNat = 0x0A || c.toNat = 0x0B || c.toNat = 0x0C || c.toNat = 0x0D ||
  c.toNat = 0x20 || c.toNat = 0xA0 || c.toNat = 0x1680 ||
  (0x2000 ≤ c.toNat && c.toNat ≤ 0x200A) ||
  c.toNat = 0x2028 || c.toNat = 0x2029 || c.toNat = 0x202F || c.toNat = 0x205F ||
  c.toNat = 0x3000 || c.toNat = 0xFEFF

/-- The class `[^\s@]`. -/
def notSpaceAt (c : Char) : Bool := !isJsSpace c && c != '@'

/-- The class `\d`. -/
def isDigit (c : Char) : Bool := '0'.toNat ≤ c.toNat && c.toNat ≤ '9'.toNat

/-- The pattern `/^[^\s@]+@[^\s@]+\.[^\s@]+$/`. -/
def emailRe : Regex :=
  .seq (.plus (.cls notSpaceAt))
    (.seq (.cls (· == '@'))
      (.seq (.plus (.cls notSpaceAt))
        (.seq (.cls (· == '.')) (.plus (.cls notSpaceAt)))))

/-- The pattern `/^\d{10}$/`. -/
def phoneRe : Regex := .times (.cls isDigit) 10

/-- The call `/^[^\s@]+@[^\s@]+\.[^\s@]+$/.test(v)`. -/
def emailTest (v : JsVal) : Except String Bool := testValue emailRe.test v

/-- The call `/^\d{10}$/.test(v)`. -/
def phoneTest (v : JsVal) : Except String Bool := testValue phoneRe.test v

/-- The data model's wording of a well-formed email: a non-empty run without white space
or `@`, then `@`, then such a run, then `.`, then such a run. -/
def EmailForm (s : String) : Prop :=
  ∃ a b c : List Char, a ≠ [] ∧ b ≠ [] ∧ c ≠ [] ∧
    (∀ ch ∈ a, isJsSpace ch = false ∧ ch ≠ '@') ∧
    (∀ ch ∈ b, isJsSpace ch = false ∧ ch ≠ '@') ∧
    (∀ ch ∈ c, isJsSpace ch = false ∧ ch ≠ '@') ∧
    s.toList = a ++ '@' :: (b ++ '.' :: c)

/-- The data model's wording of a well-formed phone: exactly ten ASCII digits. -/
def TenDigits (s : String) : Prop :=
  s.length = 10 ∧ ∀ ch ∈ s.toList, '0'.toNat ≤ ch.toNat ∧ ch.toNat ≤ '9'.toNat

/-! ## Store, statements and responses -/

/-- The kind of an SQL statement, read off its first keyword. -/
inductive SqlVerb where
  | select
  | insert
  | update
  | delete
  deriving DecidableEq, Repr

/-- A statement handed to `db.execute`: its kind, its text and its bound parameters. -/
structure Query where
  verb : SqlVerb
  sql : String
  params : List JsVal
  deriving DecidableEq, Repr

/-- The result header of a data-modifying statement. -/
structure ResultHeader where
  affectedRows : Nat
  insertId : Int
  deriving DecidableEq, Repr

/-- The store as seen by one request: `query` answers a `SELECT` with its rows, `exec`
answers an `INSERT`, `UPDATE` or `DELETE` with its header; either may throw an error
carrying a message. -/
structure Db where
  query : String → List JsVal → Except String (List Record)
  exec : String → List JsVal → Except String ResultHeader

/-- A value of a response object: a scalar, an object of scalars, an array of rows, or an
object built from values of the request body. -/
inductive RespVal where
  | val (v : JsVal)
  | obj (o : Record)
  | arr (rows : List Record)
  | echo (o : JsObject)
  deriving DecidableEq, Repr

/-- What a handler sends: `res.status(code).json(body)`, a status code with a JSON object; or
nothing at all, when an exception escapes the `async` handler before it has answered (its
promise rejects with the exception, whose message is kept). -/
inductive Response where
  | sent (status : Nat) (body : List (String × RespVal))
  | unsent (thrown : String)
  deriving DecidableEq, Repr

/-- The status code of the response a handler sent; 0, which no handler sends, when it sent
none. -/
@[simp] def Response.status : Response → Nat
  | .sent status _ => status
  | .unsent _ => 0

/-- The JSON object of the response a handler sent; no key at all when it sent none. -/
@[simp] def Response.body : Response → List (String × RespVal)
  | .sent _ body => body
  | .unsent _ => []

/-- What a handler did: the response it sent and the statements it issued, in order. -/
structure Outcome where
  response : Response
  issued : List Query
  deriving DecidableEq, Repr

/-- The error envelope: `res.status(code).json` of an object with the one key `error`. -/
def errorResp (code : Nat) (msg : String) : Response :=
  .sent code [("error", .val (.str msg))]

/-- The error envelope of a `catch` block: the keys `error` and `details`, the latter
holding `err.message`. -/
def errorDetails (code : Nat) (msg details : String) : Response :=
  .sent code [("error", .val (.str msg)), ("details", .val (.str details))]

/-- The success envelope: `res.status(code).json` of an object with the one key `message`. -/
def messageResp (code : Nat) (msg : String) : Response :=
  .sent code [("message", .val (.str msg))]

/-- Whether the handler issued an `UPDATE`. -/
def Outcome.issuesUpdate (o : Outcome) : Prop := ∃ q ∈ o.issued, q.verb = SqlVerb.update

/-- Whether the handler issued an `INSERT`. -/
def Outcome.issuesInsert (o : Outcome) : Prop := ∃ q ∈ o.issued, q.verb = SqlVerb.insert

/-! ## Shared pieces of the patient handlers -/

/-- The call `['Not Attended', 'Attended'].includes(v)`. -/
def statusIncludes (v : JsVal) : Bool :=
  [JsVal.str "Not Attended", JsVal.str "Attended"].contains v

/-- The complement computed for the toggle token:
`s === 'Attended' ? 'Not Attended' : 'Attended'`. -/
def toggle (s : JsVal) : JsVal :=
  if s = JsVal.str "Attended" then JsVal.str "Not Attended" else JsVal.str "Attended"

/-- The new status written for an incoming `status`:
`status === 'toggle' ? toggle(existing[0].status) : status`. -/
def resolveStatus (existing0 : Record) (status : JsVal) : JsVal :=
  if status = JsVal.str "toggle" then toggle (existing0.get "status").toJs else status

/-- The text `Object.keys(updates).map(key => key + ' = ?').join(', ')`. -/
def setClause (updates : JsObject) : String :=
  ", ".intercalate (updates.keys.map (· ++ " = ?"))

/-- Assignment `updates.k = v` guarded by `cond`, on an object that has no key `k` yet. -/
def assignIf (cond : Bool) (k : String) (v : JsVal) (updates : JsObject) : JsObject :=
  if cond then updates ++ [(k, v)] else updates

/-! ## `patients.js`: the patients router -/

namespace Patients

/-- Function `validatePatientData` of `patients.js`: the error message, or `none` for `null`;
a pattern test that throws ends the function with its exception. -/
def validatePatientData (name email phone dob : JsVal) : Except String (Option String) :=
  if !name.truthy || !email.truthy || !phone.truthy || !dob.truthy then
    .ok (some "Missing required fields")
  else
    match emailTest email with
    | .error thrown => .error thrown
    | .ok false => .ok (some "Invalid email format")
    | .ok true =>
      match phoneTest phone with
      | .error thrown => .error thrown
      | .ok false => .ok (some "Phone number must be 10 digits")
      | .ok true => .ok none

/-- The statement text of the create handler. -/
def insertSql : String :=
  "INSERT INTO patients (name, email, phone, dob, address, notes, status, created_at) VALUES (?, ?, ?, ?, ?, ?, ?, NOW())"

/-- Handler `router.post('/')`. The validation runs before the `try` block: an exception it
throws escapes the handler. -/
def post (db : Db) (body : JsObject) : Outcome :=
  let name := body.get "name"
  let email := body.get "email"
  let phone := body.get "phone"
  let dob := body.get "dob"
  let address := body.get "address"
  let notes := body.get "notes"
  match validatePatientData name email phone dob with
  | .error thrown => ⟨.unsent thrown, []⟩
  | .ok (some validationError) => ⟨errorResp 400 validationError, []⟩
  | .ok none =>
    let ins : Query := ⟨.insert, insertSql,
      [name, email, phone, dob, address.orElse .null, notes.orElse .null, .str "Not Attended"]⟩
    match db.exec ins.sql ins.params with
    | .error msg => ⟨errorDetails 500 "Failed to add patient" msg, [ins]⟩
    | .ok result =>
      ⟨.sent 201 [("message", .val (.str "Patient added successfully")),
              ("patientId", .val (.num result.insertId))], [ins]⟩

/-- The checks at the head of `router.patch('/:id')`: the message of the first check
that answers 400, or `none` when all pass. In `email && !re.test(email)` the pattern is
tested on a truthy email only, and likewise for the phone; a test that throws ends the
checks with its exception. -/
def patchValidate (name email phone dob address notes status : JsVal) :
    Except String (Option String) :=
  if !name.truthy && !email.truthy && !phone.truthy && !dob.truthy &&
      address == .undefined && notes == .undefined && status == .undefined then
    .ok (some "At least one field must be provided")
  else
    match (if email.truthy then emailTest email else .ok true) with
    | .error thrown => .error thrown
    | .ok false => .ok (some "Invalid email format")
    | .ok true =>
      match (if phone.truthy then phoneTest phone else .ok true) with
      | .error thrown => .error thrown
      | .ok false => .ok (some "Phone must be 10 digits")
      | .ok true =>
        if status.truthy && !statusIncludes status then .ok (some "Invalid status")
        else .ok none

/-- The object `updates` built by `router.patch('/:id')` from the first existing row. -/
def buildUpdates (existing0 : Record) (name email phone dob address notes status : JsVal) :
    JsObject :=
  let updates : JsObject := []
  let updates := assignIf (name != .undefined) "name" name updates
  let updates := assignIf (email != .undefined) "email" email updates
  let updates := assignIf (phone != .undefined) "phone" phone updates
  let updates := assignIf (dob != .undefined) "dob" dob updates
  let updates := assignIf (address != .undefined) "address" address updates
  let updates := assignIf (notes != .undefined) "notes" notes updates
  let updates := assignIf (status != .undefined) "status" (resolveStatus existing0 status) updates
  updates

/-- The fields `router.patch('/:id')` reads from the body, in the order it assigns them. -/
def patchFields : List String :=
  ["name", "email", "phone", "dob", "address", "notes", "status"]

/-- The existence check of the patch handler. -/
def selectQuery (id : String) : Query :=
  ⟨.select, "SELECT * FROM patients WHERE id = ?", [.str id]⟩

/-- The `UPDATE` of the patch handler for a given `updates` object. -/
def updateQuery (updates : JsObject) (id : String) : Query :=
  ⟨.update, "UPDATE patients SET " ++ setClause updates ++ ", updated_at = NOW() WHERE id = ?",
    updates.values ++ [.str id]⟩

/-- Handler `router.patch('/:id')`. The checks run before the `try` block: an exception
they throw escapes the handler, which then sends nothing. -/
def patch (db : Db) (id : String) (body : JsObject) : Outcome :=
  let name := body.get "name"
  let email := body.get "email"
  let phone := body.get "phone"
  let dob := body.get "dob"
  let address := body.get "address"
  let notes := body.get "notes"
  let status := body.get "status"
  match patchValidate name email phone dob address notes status with
  | .error thrown => ⟨.unsent thrown, []⟩
  | .ok (some msg) => ⟨errorResp 400 msg, []⟩
  | .ok none =>
    let sel := selectQuery id
    match db.query sel.sql sel.params with
    | .error msg => ⟨errorDetails 500 "Failed to update patient" msg, [sel]⟩
    | .ok [] => ⟨errorResp 404 "Patient not found", [sel]⟩
    | .ok (existing0 :: _) =>
      let updates := buildUpdates existing0 name email phone dob address notes status
      if updates.keys.length = 0 then
        ⟨errorResp 400 "No valid updates", [sel]⟩
      else
        let upd := updateQuery updates id
        match db.exec upd.sql upd.params with
        | .error msg => ⟨errorDetails 500 "Failed to update patient" msg, [sel, upd]⟩
        | .ok result =>
          if result.affectedRows = 0 then
            ⟨errorResp 400 "No changes applied", [sel, upd]⟩
          else
            ⟨messageResp 200 "Patient updated successfully", [sel, upd]⟩

end Patients

/-! ## `server.js`: the top-level handlers -/

namespace Server

/-- Function `validatePatientData` of `server.js`: the error message, or `none` for `null`;
a pattern test that throws ends the function with its exception. -/
def validatePatientData (name email phone dob : JsVal) : Except String (Option String) :=
  if !name.truthy || !email.truthy || !phone.truthy || !dob.truthy then
    .ok (some "Missing required fields")
  else
    match emailTest email with
    | .error thrown => .error thrown
    | .ok false => .ok (some "Invalid email format")
    | .ok true =>
      match phoneTest phone with
      | .error thrown => .error thrown
      | .ok false => .ok (some "Phone number must be 10 digits")
      | .ok true => .ok none

/-- The statement text of the create handler. -/
def insertSql : String :=
  "INSERT INTO patients (name, email, phone, dob, notes, status) VALUES (?, ?, ?, ?, ?, ?)"

/-- Handler `app.post('/api/patients')`. The validation runs before the `try` block: an
exception it throws escapes the handler. -/
def post (db : Db) (body : JsObject) : Outcome :=
  let name := body.get "name"
  let email := body.get "email"
  let phone := body.get "phone"
  let dob := body.get "dob"
  let notes := body.get "notes"
  match validatePatientData name email phone dob with
  | .error thrown => ⟨.unsent thrown, []⟩
  | .ok (some validationError) => ⟨errorResp 400 validationError, []⟩
  | .ok none =>
    let ins : Query := ⟨.insert, insertSql,
      [name, email, phone, dob, notes.orElse .null, .str "Not Attended"]⟩
    match db.exec ins.sql ins.params with
    | .error _ => ⟨errorResp 500 "Database error adding patient", [ins]⟩
    | .ok result =>
      ⟨.sent 201 [("message", .val (.str "Patient added successfully")),
              ("patientId", .val (.num result.insertId))], [ins]⟩

/-- The checks at the head of `app.patch('/api/patients/:id')`; a pattern is tested on a
truthy value only, and a test that throws ends the checks with its exception. -/
def patchValidate (name email phone dob notes status : JsVal) :
    Except String (Option String) :=
  if !name.truthy && !email.truthy && !phone.truthy && !dob.truthy &&
      notes == .undefined && !status.truthy then
    .ok (some "At least one field must be provided to update")
  else
    match (if email.truthy then emailTest email else .ok true) with
    | .error thrown => .error thrown
    | .ok false => .ok (some "Invalid email format")
    | .ok true =>
      match (if phone.truthy then phoneTest phone else .ok true) with
      | .error thrown => .error thrown
      | .ok false => .ok (some "Phone number must be 10 digits")
      | .ok true =>
        if status.truthy && !statusIncludes status then .ok (some "Invalid status value")
        else .ok none

/-- The object `updates` built by `app.patch('/api/patients/:id')`. -/
def buildUpdates (existing0 : Record) (name email phone dob notes status : JsVal) : JsObject :=
  let updates : JsObject := []
  let updates := assignIf name.truthy "name" name updates
  let updates := assignIf email.truthy "email" email updates
  let updates := assignIf phone.truthy "phone" phone updates
  let updates := assignIf dob.truthy "dob" dob updates
  let updates := assignIf (notes != .undefined) "notes" notes updates
  let updates := assignIf status.truthy "status" (resolveStatus existing0 status) updates
  updates

/-- The existence check of the patch handler. -/
def selectQuery (id : String) : Query :=
  ⟨.select, "SELECT id FROM patients WHERE id = ?", [.str id]⟩

/-- The `UPDATE` of the patch handler for a given `updates` object. -/
def updateQuery (updates : JsObject) (id : String) : Query :=
  ⟨.update, "UPDATE patients SET " ++ setClause updates ++ " WHERE id = ?",
    updates.values ++ [.str id]⟩

/-- Handler `app.patch('/api/patients/:id')`. The checks run before the `try` block: an
exception they throw escapes the handler, which then sends nothing. -/
def patch (db : Db) (id : String) (body : JsObject) : Outcome :=
  let name := body.get "name"
  let email := body.get "email"
  let phone := body.get "phone"
  let dob := body.get "dob"
  let notes := body.get "notes"
  let status := body.get "status"
  match patchValidate name email phone dob notes status with
  | .error thrown => ⟨.unsent thrown, []⟩
  | .ok (some msg) => ⟨errorResp 400 msg, []⟩
  | .ok none =>
    let sel := selectQuery id
    match db.query sel.sql sel.params with
    | .error msg => ⟨errorDetails 500 "Server error" msg, [sel]⟩
    | .ok [] => ⟨errorResp 404 "Patient not found", [sel]⟩
    | .ok (existing0 :: _) =>
      let updates := buildUpdates existing0 name email phone dob notes status
      if updates.keys.length = 0 then
        ⟨errorResp 400 "No valid fields to update", [sel]⟩
      else
        let upd := updateQuery updates id
        match db.exec upd.sql upd.params with
        | .error msg => ⟨errorDetails 500 "Server error" msg, [sel, upd]⟩
        | .ok result =>
          if result.affectedRows = 0 then
            ⟨errorResp 400 "No changes applied to patient", [sel, upd]⟩
          else
            ⟨.sent 200 [("message", .val (.str "Patient updated successfully")),
                    ("updatedFields", .echo updates)], [sel, upd]⟩

end Server

/-! ## `emr.js`: the EMR aggregate -/

/-- A response object under construction, keys in insertion order. -/
abbrev RespObject := List (String × RespVal)

/-- Assignment `o[k] = v`: an existing key keeps its place, a new key goes last. -/
def RespObject.set : RespObject → String → RespVal → RespObject
  | [], k, v => [(k, v)]
  | (k0, v0) :: o, k, v => if k0 = k then (k, v) :: o else (k0, v0) :: RespObject.set o k v

/-- The array read by `o.k`; a key that holds no array reads as no rows. -/
def RespObject.rows (o : RespObject) (k : String) : List Record :=
  match o.lookup k with
  | some (.arr rs) => rs
  | _ => []

/-- The lower-casing of `String.prototype.toLowerCase`, taken on ASCII letters: the only
code points outside ASCII whose lower case contains an ASCII letter are U+0130 and U+212A,
which give `i` and `k`, so the search for `abnormal` below is not affected. -/
def toLowerCase (s : List Char) : List Char := s.map Char.toLower

/-- Whether `sub` starts `s`. -/
def startsWith : List Char → List Char → Bool
  | _, [] => true
  | [], _ :: _ => false
  | c :: s, d :: sub => c == d && startsWith s sub

/-- The search of `String.prototype.includes`: `sub` occurs in `s` as a contiguous run. -/
def includes : List Char → List Char → Bool
  | [], sub => startsWith [] sub
  | c :: s, sub => startsWith (c :: s) sub || includes s sub

namespace Emr

/-- The text of the patient query, a template literal spanning six lines. -/
def patientSql : String :=
  "\n      SELECT *, \n        TIMESTAMPDIFF(YEAR, dob, CURDATE()) as age  -- Calc age from dob\n      FROM patients \n      WHERE id = ?\n    "

/-- The patient query. -/
def patientQuery (patientId : String) : Query :=
  ⟨.select, patientSql, [.str patientId]⟩

/-- The object `emr` as declared at the head of the handler. -/
def initial : RespObject :=
  [("patient", .val .null),
   ("overview", .obj [("vitals", .str "No vitals"), ("allergies", .str "No allergies")]),
   ("family_history", .val (.str "No family history")),
   ("history", .arr []), ("visits", .arr []), ("progress_notes", .arr []),
   ("soap_notes", .arr []), ("labs", .arr []), ("medications", .arr []), ("alerts", .arr [])]

/-- The object assigned to `emr.patient` from the first patient row. -/
def patientView (patient : Record) : Record :=
  [("id", patient.get "id"), ("name", patient.get "name"), ("email", patient.get "email"),
   ("phone", patient.get "phone"), ("dob", patient.get "dob"), ("age", patient.get "age"),
   ("gender", (patient.get "gender").orElse (.str "N/A")),
   ("address", patient.get "address"),
   ("insurance", (patient.get "insurance").orElse (.str "N/A")),
   ("insurance_provider", (patient.get "insurance_provider").orElse (.str "N/A")),
   ("insurance_policy", (patient.get "insurance_policy").orElse (.str "N/A")),
   ("family_history",
     ((patient.get "family_history").orElse (patient.get "notes")).orElse
       (.str "No family history")),
   ("status", patient.get "status")]

/-- An entry of the array `optional`: the key it fills, its statement and its fallback. -/
structure OptionalQuery where
  key : String
  sql : String
  fallback : List Record
  deriving DecidableEq, Repr

/-- The statement of the labs entry. -/
def labsSql : String :=
  "SELECT * FROM lab_imaging WHERE patient_id = ? ORDER BY test_date DESC"

/-- The statement of the medications entry. -/
def medicationsSql : String :=
  "SELECT * FROM medications WHERE patient_id = ? ORDER BY id DESC"

/-- The array `optional` of child queries. -/
def optional : List OptionalQuery :=
  [⟨"labs", labsSql, []⟩, ⟨"medications", medicationsSql, []⟩]

/-- The statement issued for one entry of `optional`. -/
def childQuery (patientId : String) (q : OptionalQuery) : Query :=
  ⟨.select, q.sql, [.str patientId]⟩

/-- The loop `for (const q of optional)`: each statement is tried in turn; its rows are
assigned to `emr[q.key]`, a throw is caught and leaves `emr` as it was. -/
def runOptional (db : Db) (patientId : String) :
    List OptionalQuery → RespObject → List Query → RespObject × List Query
  | [], emr, issued => (emr, issued)
  | q :: qs, emr, issued =>
    match db.query (childQuery patientId q).sql (childQuery patientId q).params with
    | .ok rows =>
      runOptional db patientId qs (emr.set q.key (.arr rows)) (issued ++ [childQuery patientId q])
    | .error _ => runOptional db patientId qs emr (issued ++ [childQuery patientId q])

/-- The message of the `TypeError` raised when `toLowerCase` is called on a value that is
neither nullish nor a string; its wording is the engine's. -/
def notAFunction : String := "l.result?.toLowerCase is not a function"

/-- The callback `l => l.result?.toLowerCase().includes('abnormal')`, as a truth value:
a nullish result short-circuits the chain to `undefined`. -/
def isAbnormal (l : Record) : Except String Bool :=
  match l.get "result" with
  | .undefined => .ok false
  | .null => .ok false
  | .str s => .ok (includes (toLowerCase s.toList) "abnormal".toList)
  | _ => .error notAFunction

/-- The call `emr.labs.filter(...)` with the callback above, rows visited in order. -/
def filterAbnormal : List Record → Except String (List Record)
  | [] => .ok []
  | l :: ls =>
    match isAbnormal l with
    | .error e => .error e
    | .ok keep =>
      match filterAbnormal ls with
      | .error e => .error e
      | .ok kept => .ok (if keep then l :: kept else kept)

/-- The alert record built from an abnormal lab row. -/
def alertOf (l : Record) : Record :=
  [("message", .str ("Abnormal lab: " ++ (l.get "test_type").toJsString)),
   ("timestamp", l.get "test_date")]

/-- The placeholder alert, `now` standing for `new Date().toISOString()`. -/
def placeholder (now : String) : Record :=
  [("message", .str "No alerts"), ("timestamp", .str now)]

/-- The operator `a || b` on an array `a`: every array is truthy, the empty one too, so the
left operand is the value and `b` is not evaluated. -/
def arrayOr (a _b : List Record) : List Record := a

/-- Handler `router.get('/:patientId')`. -/
def get (db : Db) (now : String) (patientId : String) : Outcome :=
  let q0 := patientQuery patientId
  match db.query q0.sql q0.params with
  | .error msg => ⟨errorResp 500 ("EMR fetch failed: " ++ msg), [q0]⟩
  | .ok [] => ⟨errorResp 404 "Patient not found", [q0]⟩
  | .ok (patient :: _) =>
    let emr := RespObject.set initial "patient" (.obj (patientView patient))
    let looped := runOptional db patientId optional emr [q0]
    match filterAbnormal (RespObject.rows looped.1 "labs") with
    | .error msg => ⟨errorResp 500 ("EMR fetch failed: " ++ msg), looped.2⟩
    | .ok abnormal =>
      ⟨.sent 200 (RespObject.set looped.1 "alerts"
          (.arr (arrayOr (abnormal.map alertOf) [placeholder now]))), looped.2⟩

end Emr

/-! ## `appointments.js`: the appointments router -/

/-- A response body: a JSON object, a JSON array of rows, or the page that `res.send` writes
as the `pre` element around `JSON.stringify(rows, null, 2)`. -/
inductive Payload where
  | object (fields : List (String × RespVal))
  | array (rows : List Record)
  | html (rows : List Record)
  deriving DecidableEq, Repr

/-- What a handler that may answer with an array did: status, body and issued statements. -/
structure ListOutcome where
  status : Nat
  payload : Payload
  issued : List Query
  deriving DecidableEq, Repr

/-- The parts `s.split(sep)` of a string. -/
def splitChars (sep : Char) : List Char → List (List Char)
  | [] => [[]]
  | c :: cs =>
    if c = sep then [] :: splitChars sep cs
    else
      match splitChars sep cs with
      | [] => [[c]]
      | part :: parts => (c :: part) :: parts

/-- The call `s.slice(0, -k)`: the string without its last `k` characters. -/
def sliceEnd (s : String) (k : Nat) : String :=
  String.mk (s.toList.take (s.toList.length - k))

namespace Appointments

/-- The pattern `/^\d{4}-\d{2}-\d{2}$/`. -/
def dateRe : Regex :=
  .seq (.times (.cls isDigit) 4)
    (.seq (.cls (· == '-'))
      (.seq (.times (.cls isDigit) 2)
        (.seq (.cls (· == '-')) (.times (.cls isDigit) 2))))

/-- The pattern `/^(\d{2}:\d{2}(:\d{2})?)$/`. -/
def timeRe : Regex :=
  .seq (.times (.cls isDigit) 2)
    (.seq (.cls (· == ':'))
      (.seq (.times (.cls isDigit) 2)
        (.alt (.seq (.cls (· == ':')) (.times (.cls isDigit) 2)) .eps)))

/-- The call `/^\d{4}-\d{2}-\d{2}$/.test(v)`. -/
def dateTest (v : JsVal) : Except String Bool := testValue dateRe.test v

/-- The call `/^(\d{2}:\d{2}(:\d{2})?)$/.test(v)`. -/
def timeTest (v : JsVal) : Except String Bool := testValue timeRe.test v

/-- The message of the `TypeError` raised when `split` is called on a value that is not a
string; its wording is the engine's. -/
def notAFunction : String := "time.split is not a function"

/-- The normalisation `time.split(':').length === 2 ? time + ':00' : time`. -/
def fullTime (time : JsVal) : Except String JsVal :=
  match time with
  | .str s => .ok (.str (if (splitChars ':' s.toList).length = 2 then s ++ ":00" else s))
  | _ => .error notAFunction

/-- The statement text of the list handler before any filter. -/
def listSql : String :=
  "SELECT id, patientName, doctorName, DATE(date) AS date, time, reason, status, createdAt, updatedAt FROM appointments"

/-- One step `if (cond) whereClause.push(clause); params.push(param)` of the list
handler. -/
def pushFilter (cond : Bool) (clause : String) (param : JsVal)
    (acc : List String × List JsVal) : List String × List JsVal :=
  if cond then (acc.1 ++ [clause], acc.2 ++ [param]) else acc

/-- The arrays `whereClause` and `params` of the list handler after its three tests. -/
def listFilters (query : Record) : List String × List JsVal :=
  let acc : List String × List JsVal := ([], [])
  let acc := pushFilter (query.get "patientName").truthy "patientName LIKE ?"
    (.str ("%" ++ (query.get "patientName").toJsString ++ "%")) acc
  let acc := pushFilter (query.get "date").truthy "DATE(date) = ?" (query.get "date").toJs acc
  let acc := pushFilter (query.get "status").truthy "status = ?" (query.get "status").toJs acc
  acc

/-- The statement of the list handler for a query string. -/
def listQuery (query : Record) : Query :=
  let filters := listFilters query
  let sql := listSql
  let sql := if filters.1.length > 0 then sql ++ (" WHERE " ++ " AND ".intercalate filters.1)
    else sql
  ⟨.select, sql ++ " ORDER BY date ASC, time ASC", filters.2⟩

/-- Handler `router.get('/')`. -/
def list (db : Db) (query : Record) : ListOutcome :=
  let q := listQuery query
  match db.query q.sql q.params with
  | .ok results => ⟨200, .array results, [q]⟩
  | .error msg => ⟨500, .object [("error", .val (.str msg))], [q]⟩

/-- The statement text of the create handler. -/
def insertSql : String :=
  "INSERT INTO appointments (patientName, doctorName, date, time, reason, status) VALUES (?, ?, ?, ?, ?, ?)"

/-- Handler `router.post('/')`. -/
def post (db : Db) (body : JsObject) : Outcome :=
  let patientName := body.get "patientName"
  let doctorName := body.get "doctorName"
  let date := body.get "date"
  let time := body.get "time"
  let reason := body.get "reason"
  if !patientName.truthy || !doctorName.truthy || !date.truthy || !time.truthy ||
      !reason.truthy then
    ⟨errorResp 400 "Missing required fields: patientName, doctorName, date, time, reason", []⟩
  else
    match dateTest date with
    | .error msg => ⟨errorResp 500 msg, []⟩
    | .ok false => ⟨errorResp 400 "Invalid date format (use YYYY-MM-DD)", []⟩
    | .ok true =>
      match timeTest time with
      | .error msg => ⟨errorResp 500 msg, []⟩
      | .ok false => ⟨errorResp 400 "Invalid time format (use HH:MM or HH:MM:SS)", []⟩
      | .ok true =>
        match fullTime time with
        | .error msg => ⟨errorResp 500 msg, []⟩
        | .ok full =>
          let status := (body.get "status").orElse (.str "scheduled")
          let ins : Query :=
            ⟨.insert, insertSql, [patientName, doctorName, date, full, reason, status]⟩
          match db.exec ins.sql ins.params with
          | .error msg => ⟨errorResp 500 msg, [ins]⟩
          | .ok result =>
            ⟨.sent 201 [("id", .val (.num result.insertId)),
                    ("message", .val (.str "Appointment created successfully"))], [ins]⟩

/-- One step `sql += clause; params.push(param); updates++` of the update handler,
guarded by `cond`. -/
def pushField (cond : Bool) (clause : String) (param : JsVal)
    (acc : String × List JsVal × Nat) : String × List JsVal × Nat :=
  if cond then (acc.1 ++ clause, acc.2.1 ++ [param], acc.2.2 + 1) else acc

/-- The variables `sql`, `params` and `updates` of the update handler after the tests on
status, reason and date. -/
def putFields (status reason date : JsVal) : String × List JsVal × Nat :=
  let acc : String × List JsVal × Nat := ("UPDATE appointments SET ", [], 0)
  let acc := pushField (status != .undefined) "status = ?, " status acc
  let acc := pushField (reason != .undefined) "reason = ?, " reason acc
  let acc := pushField date.truthy "date = ?, " date acc
  acc

/-- The test on time of the update handler: a truthy time is normalised and pushed, and the
normalisation may throw. -/
def putTime (time : JsVal) (acc : String × List JsVal × Nat) :
    Except String (String × List JsVal × Nat) :=
  if time.truthy then
    match fullTime time with
    | .error msg => .error msg
    | .ok full => .ok (pushField true "time = ?, " full acc)
  else .ok acc

/-- Handler `router.put('/:id')`. -/
def put (db : Db) (id : String) (body : JsObject) : Outcome :=
  let status := body.get "status"
  let reason := body.get "reason"
  let date := body.get "date"
  let time := body.get "time"
  match putTime time (putFields status reason date) with
  | .error msg => ⟨errorResp 500 msg, []⟩
  | .ok acc =>
    if acc.2.2 = 0 then ⟨errorResp 400 "No fields to update", []⟩
    else
      let upd : Query := ⟨.update, sliceEnd acc.1 2 ++ " WHERE id = ?", acc.2.1 ++ [.str id]⟩
      match db.exec upd.sql upd.params with
      | .error msg => ⟨errorResp 500 msg, [upd]⟩
      | .ok result =>
        if result.affectedRows = 0 then ⟨errorResp 404 "Appointment not found", [upd]⟩
        else ⟨messageResp 200 "Appointment updated", [upd]⟩

end Appointments

/-! ## Deleting by id -/

/-- The common shape of the delete handlers: one `DELETE` by id inside `try`; 404 with the
message `notFound` when `affectedRows` is 0, the message `success` otherwise; the response
`caught` of the `catch` block when the statement throws. -/
def deleteById (db : Db) (sql id notFound success : String) (caught : String → Response) :
    Outcome :=
  match db.exec sql [.str id] with
  | .error msg => ⟨caught msg, [⟨.delete, sql, [.str id]⟩]⟩
  | .ok result =>
    if result.affectedRows = 0 then ⟨errorResp 404 notFound, [⟨.delete, sql, [.str id]⟩]⟩
    else ⟨messageResp 200 success, [⟨.delete, sql, [.str id]⟩]⟩

/-- Handler `router.delete('/:id')` of `patients.js`. -/
def Patients.delete (db : Db) (id : String) : Outcome :=
  deleteById db "DELETE FROM patients WHERE id = ?" id "Patient not found"
    "Patient deleted successfully" (errorDetails 500 "Failed to delete patient")

/-- Handler `app.delete('/api/patients/:id')` of `server.js`. -/
def Server.delete (db : Db) (id : String) : Outcome :=
  deleteById db "DELETE FROM patients WHERE id = ?" id "Patient not found"
    "Patient deleted successfully" (fun _ => errorResp 500 "Database error deleting patient")

/-- Handler `router.delete('/:id')` of `appointments.js`. -/
def Appointments.delete (db : Db) (id : String) : Outcome :=
  deleteById db "DELETE FROM appointments WHERE id = ?" id "Appointment not found"
    "Appointment deleted" (errorResp 500)

/-- Handler `router.delete('/:id')` of `lab.js`. -/
def Lab.delete (db : Db) (id : String) : Outcome :=
  deleteById db "DELETE FROM lab_imaging WHERE id = ?" id "Lab record not found"
    "Lab record deleted successfully" (fun _ => errorResp 500 "Failed to delete lab record")

/-- Handler `router.delete('/appointments/:id')` of `telemedicine.js`. -/
def Telemedicine.delete (db : Db) (id : String) : Outcome :=
  deleteById db "DELETE FROM telemedicine_appointments WHERE id = ?" id "Appointment not found"
    "Appointment cancelled" (fun _ => errorResp 500 "Failed to cancel")

/-! ## More of the appointments router -/

/-- The normalisation of a time string shared by create and update:
`time.split(':').length === 2 ? time + ':00' : time`. -/
def Appointments.norm (t : String) : String :=
  if (splitChars ':' t.toList).length = 2 then t ++ ":00" else t

/-- The time the browser client submits for the value of its time input:
`document.getElementById('time').value + ':00'`. -/
def clientTime (value : String) : String := value ++ ":00"

/-- The columns the update handler sets for a body, by its four tests in their order. -/
def Appointments.putColumns (body : JsObject) : List String :=
  (if body.get "status" != .undefined then ["status"] else []) ++
  (if body.get "reason" != .undefined then ["reason"] else []) ++
  (if (body.get "date").truthy then ["date"] else []) ++
  (if (body.get "time").truthy then ["time"] else [])

/-- The number of `?` placeholders in a statement text. -/
def placeholders (sql : String) : Nat := sql.toList.count '?'

/-! ## `server.js`: listing patients -/

/-- The call `s.trim()`. -/
def jsTrim (s : String) : String :=
  String.mk ((s.toList.dropWhile isJsSpace).reverse.dropWhile isJsSpace).reverse

/-- The expression `req.query.search?.trim() || ''`: a nullish value short-circuits to the
empty string, a string is trimmed, and any other value has no `trim` to call. -/
def Server.searchOf (v : Scalar) : Except String String :=
  match v with
  | .undefined => .ok ""
  | .null => .ok ""
  | .str s => .ok (jsTrim s)
  | _ => .error "req.query.search?.trim is not a function"

/-- The statement of the list handler for a search text. -/
def Server.listQuery (search : String) : Query :=
  if search ≠ "" then
    ⟨.select,
      "SELECT * FROM patients WHERE name LIKE ? OR email LIKE ? ORDER BY created_at DESC",
      [.str ("%" ++ search ++ "%"), .str ("%" ++ search ++ "%")]⟩
  else ⟨.select, "SELECT * FROM patients ORDER BY created_at DESC", []⟩

/-- The response of the `catch` block of the list handler. -/
def Server.listFailed (issued : List Query) : ListOutcome :=
  ⟨500, .object [("error", .val (.str "Server error fetching patients"))], issued⟩

/-- Handler `app.get('/api/patients')`: `headers` is `req.headers`, whose `accept` is read
without a presence check after the query has returned. -/
def Server.list (db : Db) (query headers : Record) : ListOutcome :=
  match Server.searchOf (query.get "search") with
  | .error _ => Server.listFailed []
  | .ok search =>
    match db.query (Server.listQuery search).sql (Server.listQuery search).params with
    | .error _ => Server.listFailed [Server.listQuery search]
    | .ok results =>
      match headers.get "accept" with
      | .str accept =>
        if includes accept.toList "text/html".toList then
          ⟨200, .html results, [Server.listQuery search]⟩
        else ⟨200, .array results, [Server.listQuery search]⟩
      | _ => Server.listFailed [Server.listQuery search]

/-! ## `server.js`: the order of registration -/

namespace Server

/-- A segment of a route path: a literal, or a parameter such as `:id`, which stands for
any one non-empty segment. -/
inductive Segment where
  | lit (s : String)
  | param
  deriving DecidableEq, Repr

/-- A route registered with `get`, `post`, `put`, `patch` or `delete`: its method and the
segments of its path. -/
structure Route where
  method : String
  path : List Segment
  deriving DecidableEq, Repr

/-- A request as the dispatch sees it: the method, the segments of the path (the texts
between the slashes after the first one, so that a trailing slash leaves a last empty
segment), and whether the body parsers accept its body, as they do when there is none. -/
structure Request where
  method : String
  path : List String
  bodyAccepted : Bool
  deriving DecidableEq, Repr

/-- What a handler registered on the app reacts to. -/
inductive Matcher where
  | cors
  | bodyParser
  | static (files : List String)
  | router (base : List String) (routes : List Route)
  | route (r : Route)
  | all
  deriving DecidableEq, Repr

/-- A handler registered on the app. -/
structure Registration where
  name : String
  matcher : Matcher
  deriving DecidableEq, Repr

/-- Whether two segments are equal up to the case of ASCII letters: routes and mount paths
are matched by patterns with the flag `i`, under which a character outside ASCII is never
equated with an ASCII one. -/
def sameSegment (a b : String) : Bool :=
  a.toList.map Char.toLower == b.toList.map Char.toLower

/-- The segments that remain below the mount path `base`, when the path lies under it. -/
def underMount : List String → List String → Option (List String)
  | [], path => some path
  | _ :: _, [] => none
  | b :: base, p :: path => if sameSegment b p then underMount base path else none

/-- Whether the segments of a route path match those of a request path; one trailing slash
is tolerated, the routers not being strict. -/
def routeMatches : List Segment → List String → Bool
  | [], [] => true
  | [], [s] => s == ""
  | [], _ :: _ :: _ => false
  | _ :: _, [] => false
  | .lit s :: pattern, p :: path => sameSegment s p && routeMatches pattern path
  | .param :: pattern, p :: path => p != "" && routeMatches pattern path

/-- Whether a route registered for `routeMethod` handles a request method: its own, and for
a `get` route also `HEAD`. -/
def methodMatches (routeMethod method : String) : Bool :=
  routeMethod == method || (routeMethod == "GET" && method == "HEAD")

/-- Whether a route handles a request with the given method and path segments. -/
def Route.handles (r : Route) (method : String) (path : List String) : Bool :=
  methodMatches r.method method && routeMatches r.path path

/-- The test `req.method.toUpperCase() === 'OPTIONS'` of the `cors` middleware. -/
def isPreflight (method : String) : Bool :=
  method.toList.map Char.toUpper == "OPTIONS".toList

/-- Whether a registered handler ends the dispatch of a request. With its default options
`cors()` answers every `OPTIONS` request itself with 204 and passes any other request on; a
body parser ends the request with an error when it rejects the body and passes it on
otherwise; `express.static` answers a `GET` or `HEAD` whose path names one of its files
and passes any other request on; a mounted router answers a request under its mount path
that one of its routes handles and passes any other request on; a route answers what it
handles; the handler registered with `app.use(fn)` alone answers every request. -/
def Matcher.answers : Matcher → Request → Bool
  | .cors, req => isPreflight req.method
  | .bodyParser, req => !req.bodyAccepted
  | .static files, req =>
    (req.method == "GET" || req.method == "HEAD") &&
      (match req.path with
        | [f] => files.contains f
        | _ => false)
  | .router base routes, req =>
    match underMount base req.path with
    | none => false
    | some rest => routes.any fun r => r.handles req.method rest
  | .route r, req => r.handles req.method req.path
  | .all, _ => true

/-- The routes of `routes/telemedicine.js`, in order. -/
def telemedicineRoutes : List Route :=
  [⟨"GET", [.lit "appointments", .param]⟩, ⟨"POST", [.lit "appointments", .param]⟩,
   ⟨"DELETE", [.lit "appointments", .param]⟩, ⟨"POST", [.lit "prescriptions", .param]⟩,
   ⟨"GET", [.lit "patients", .param, .lit "emr"]⟩, ⟨"POST", [.lit "messages", .param]⟩]

/-- The one route of `emr.js`. -/
def emrRoutes : List Route := [⟨"GET", [.param]⟩]

/-- The routes of `lab.js`, in order. -/
def labRoutes : List Route :=
  [⟨"GET", []⟩, ⟨"GET", [.param]⟩, ⟨"POST", [.param]⟩, ⟨"PUT", [.param]⟩,
   ⟨"DELETE", [.param]⟩]

/-- The routes of `appointments.js`, in order. -/
def appointmentsRoutes : List Route :=
  [⟨"GET", []⟩, ⟨"GET", [.param]⟩, ⟨"POST", []⟩, ⟨"PUT", [.param]⟩, ⟨"DELETE", [.param]⟩]

/-- The catch-all handler, registered with `app.use(fn)` and no path. -/
def catchAll : Registration := ⟨"catch-all 404", .all⟩

/-- The appointments router as mounted on `/api/appointments`. -/
def appointmentsMount : Registration :=
  ⟨"appointments router", .router ["api", "appointments"] appointmentsRoutes⟩

/-- The handlers of `server.js` in the order in which the file registers them; the files of
`express.static` are those of the directory `public`. -/
def registered : List Registration :=
  [⟨"cors", .cors⟩, ⟨"express.json", .bodyParser⟩,
   ⟨"express.urlencoded", .bodyParser⟩,
   ⟨"express.static", .static ["appointments.js", "emr.js", "lab.js"]⟩,
   ⟨"telemedicine router", .router ["api", "telemedicine"] telemedicineRoutes⟩,
   ⟨"emr router", .router ["api", "emr"] emrRoutes⟩,
   ⟨"lab router", .router ["api", "lab"] labRoutes⟩,
   ⟨"list patients", .route ⟨"GET", [.lit "api", .lit "patients"]⟩⟩,
   ⟨"get patient", .route ⟨"GET", [.lit "api", .lit "patients", .param]⟩⟩,
   ⟨"create patient", .route ⟨"POST", [.lit "api", .lit "patients"]⟩⟩,
   ⟨"patch patient", .route ⟨"PATCH", [.lit "api", .lit "patients", .param]⟩⟩,
   ⟨"delete patient", .route ⟨"DELETE", [.lit "api", .lit "patients", .param]⟩⟩,
   ⟨"register", .route ⟨"POST", [.lit "register"]⟩⟩,
   ⟨"login", .route ⟨"POST", [.lit "login"]⟩⟩,
   ⟨"forgot", .route ⟨"POST", [.lit "forgot"]⟩⟩,
   ⟨"reset", .route ⟨"POST", [.lit "reset"]⟩⟩,
   ⟨"reset page", .route ⟨"GET", [.lit "reset.html"]⟩⟩,
   ⟨"patient count", .route ⟨"GET", [.lit "metrics", .lit "patients"]⟩⟩,
   ⟨"appointments today", .route ⟨"GET", [.lit "metrics", .lit "appointments"]⟩⟩,
   ⟨"billing", .route ⟨"GET", [.lit "metrics", .lit "billing"]⟩⟩,
   ⟨"beds", .route ⟨"GET", [.lit "metrics", .lit "beds"]⟩⟩,
   ⟨"favicon", .route ⟨"GET", [.lit "favicon.ico"]⟩⟩,
   ⟨"debug", .route ⟨"GET", [.lit "debug"]⟩⟩,
   catchAll,
   appointmentsMount]

/-- First-match dispatch: the first registered handler that answers the request. -/
def dispatch (req : Request) : Option Registration :=
  registered.find? fun r => r.matcher.answers req

/-- The response of the catch-all handler. -/
def routeNotFound : Response := errorResp 404 "Route not found"

end Server

/-! ## Outcome classes of the store -/

/-- How an existence check ended. -/
inductive SelectKind where
  | throws
  | absent
  | present
  deriving DecidableEq, Repr

/-- The class of the result of an existence check. -/
def selectKind : Except String (List Record) → SelectKind
  | .error _ => .throws
  | .ok [] => .absent
  | .ok (_ :: _) => .present

/-- How a write ended. -/
inductive ExecKind where
  | throws
  | unchanged
  | changed
  deriving DecidableEq, Repr

/-- The class of the result of a write. -/
def execKind : Except String ResultHeader → ExecKind
  | .error _ => .throws
  | .ok hdr => if hdr.affectedRows = 0 then .unchanged else .changed

/-! ## `server.js`: the occupancy of `/metrics/beds` in double precision -/

/-- The number of binary digits of `n`, found by halving at most `fuel` times. -/
def bitsFuel : Nat → Nat → Nat
  | 0, _ => 0
  | fuel + 1, n => if n = 0 then 0 else bitsFuel fuel (n / 2) + 1

/-- The number of binary digits of `n`: 0 for 0, and `k + 1` when `2 ^ k ≤ n < 2 ^ (k + 1)`. -/
def bitLength (n : Nat) : Nat := bitsFuel n n

/-- The binary exponent of the positive quotient `n / d`: the `e` with
`2 ^ e ≤ n / d < 2 ^ (e + 1)`. The difference of the bit lengths is `e` or `e + 1`. -/
def binExponent (n d : Nat) : Int :=
  if d * 2 ^ ((bitLength n : Int) - (bitLength d : Int)).toNat ≤
      n * 2 ^ ((bitLength d : Int) - (bitLength n : Int)).toNat then
    (bitLength n : Int) - (bitLength d : Int)
  else (bitLength n : Int) - (bitLength d : Int) - 1

/-- The integer nearest to `n / d`, a tie going to the even one. -/
def roundHalfEven (n d : Nat) : Nat :=
  if 2 * (n % d) < d then n / d
  else if d < 2 * (n % d) then n / d + 1
  else if n / d % 2 = 0 then n / d
  else n / d + 1

/-- A finite JavaScript number: its sign and its magnitude `mant / 2 ^ scale`, where a
negative `scale` multiplies. -/
structure Double where
  neg : Bool
  mant : Nat
  scale : Int
  deriving DecidableEq, Repr

/-- The number nearest to the positive quotient `n / d` among those with 53 significant
binary digits, ties to even: the rounding every arithmetic operator of JavaScript applies
to its exact result (overflow and subnormal results do not arise for the operands used
here). -/
def roundToDouble (neg : Bool) (n d : Nat) : Double :=
  ⟨neg,
    roundHalfEven (n * 2 ^ (52 - binExponent n d).toNat) (d * 2 ^ (binExponent n d - 52).toNat),
    52 - binExponent n d⟩

/-- The operator `a / b` on two integers that are exact as numbers, `b` not zero. -/
def divide (a b : Int) : Double :=
  if a = 0 then ⟨false, 0, 0⟩
  else roundToDouble (decide (a < 0) != decide (b < 0)) a.natAbs b.natAbs

/-- The operator `x * 100`. -/
def times100 (x : Double) : Double :=
  if x.mant = 0 then x
  else roundToDouble x.neg (x.mant * 100 * 2 ^ (-x.scale).toNat) (2 ^ x.scale.toNat)

/-- The call `Math.round(x)`: the integer nearest to `x`, a tie going up. -/
def mathRound (x : Double) : Int :=
  (2 * ((if x.neg then -(x.mant : Int) else (x.mant : Int)) * 2 ^ (-x.scale).toNat) +
      2 ^ x.scale.toNat) / (2 * 2 ^ x.scale.toNat)

/-- The expression
`total_beds > 0 ? Math.round((occupied_beds / total_beds) * 100) : 0` of `/metrics/beds`. -/
def Server.occupancy (occupied_beds total_beds : Int) : Int :=
  if total_beds > 0 then mathRound (times100 (divide occupied_beds total_beds)) else 0

/-- The claim's wording of the occupancy: `occupied_beds * 100 / total_beds` rounded to the
nearest integer, a half going up, computed exactly. -/
def exactOccupancy (occupied_beds total_beds : Int) : Int :=
  (2 * (occupied_beds * 100) + total_beds) / (2 * total_beds)

/-- A value whose conversion to a string does not throw: every scalar, and every array or
object that holds no object with an own property `toString`. -/
def JsVal.Converts (v : JsVal) : Prop := ∃ s, v.toJsString = .ok s

/-- A body field that is absent or a non-empty string. -/
def AbsentOrText (v : JsVal) : Prop := v = .undefined ∨ ∃ s, v = .str s ∧ s ≠ ""

/-! ## The claims' wording of formats -/

/-- A run of exactly `n` ASCII digits. -/
def DigitRun (n : Nat) (w : List Char) : Prop :=
  w.length = n ∧ ∀ ch ∈ w, '0'.toNat ≤ ch.toNat ∧ ch.toNat ≤ '9'.toNat

/-- The wording of a well-formed date: four digits, `-`, two digits, `-`, two digits. -/
def DateForm (s : String) : Prop :=
  ∃ y m d : List Char, DigitRun 4 y ∧ DigitRun 2 m ∧ DigitRun 2 d ∧
    s.toList = y ++ '-' :: (m ++ '-' :: d)

/-- The wording of a time without seconds: two digits, `:`, two digits. -/
def TimeShort (s : String) : Prop :=
  ∃ h m : List Char, DigitRun 2 h ∧ DigitRun 2 m ∧ s.toList = h ++ ':' :: m

/-- The wording of a time with seconds: two digits, `:`, two digits, `:`, two digits. -/
def TimeLong (s : String) : Prop :=
  ∃ h m c : List Char, DigitRun 2 h ∧ DigitRun 2 m ∧ DigitRun 2 c ∧
    s.toList = h ++ ':' :: (m ++ ':' :: c)

/-- The wording of an abnormal result: some contiguous run of the text reads `abnormal`
once letter case is disregarded. -/
def ContainsAbnormal (s : String) : Prop :=
  ∃ pre mid post : List Char, s.toList = pre ++ mid ++ post ∧
    mid.map Char.toLower = "abnormal".toList

/-- A field that is missing or a string. -/
def StringField (v : JsVal) : Prop := v = .undefined ∨ ∃ s, v = .str s

/-- A field that is missing or the empty string. -/
def Blank (v : JsVal) : Prop := v = .undefined ∨ v = .str ""

/-- A lab row whose result is a string, `null` or absent. -/
def TextResult (l : Record) : Prop :=
  l.get "result" = .undefined ∨ l.get "result" = .null ∨ ∃ s, l.get "result" = .str s

/-- The rows a child query of the EMR handler contributes: its rows, or none when it
throws. -/
def Emr.collected (db : Db) (patientId : String) (sql : String) : List Record :=
  match db.query sql [.str patientId] with
  | .ok rows => rows
  | .error _ => []

/-- The verdict of the filter callback on a lab row whose result is text: only a string
that contains `abnormal` after lower-casing is kept. -/
def Emr.keeps (l : Record) : Bool :=
  match l.get "result" with
  | .str s => includes (toLowerCase s.toList) "abnormal".toList
  | _ => false

/-- The aggregate for a patient row and given labs, medications and alerts: the ten keys of
`emr` in their order of declaration. -/
def Emr.aggregate (patient : Record) (labs medications alerts : List Record) : RespObject :=
  [("patient", .obj (Emr.patientView patient)),
   ("overview", .obj [("vitals", .str "No vitals"), ("allergies", .str "No allergies")]),
   ("family_history", .val (.str "No family history")),
   ("history", .arr []), ("visits", .arr []), ("progress_notes", .arr []),
   ("soap_notes", .arr []), ("labs", .arr labs), ("medications", .arr medications),
   ("alerts", .arr alerts)]

/-- The statements the EMR handler issues for an existing patient. -/
def Emr.allQueries (patientId : String) : List Query :=
  [Emr.patientQuery patientId, ⟨.select, Emr.labsSql, [.str patientId]⟩,
   ⟨.select, Emr.medicationsSql, [.str patientId]⟩]

/-- The claims' table of list filters, in order: the query key, the condition it adds and
the parameter it binds for a supplied value. -/
def Appointments.filterTable : List (String × String × (Scalar → JsVal)) :=
  [("patientName", "patientName LIKE ?", fun v => .str ("%" ++ v.toJsString ++ "%")),
   ("date", "DATE(date) = ?", fun v => v.toJs),
   ("status", "status = ?", fun v => v.toJs)]

/-- The filters of the table that a query string supplies with a non-empty value. -/
def Appointments.supplied (query : Record) : List (String × String × (Scalar → JsVal)) :=
  Appointments.filterTable.filter fun f => (query.get f.1).truthy

/-- A body for the create handler that passes its three checks. -/
def validAppointment : JsObject :=
  [("patientName", .str "Ann"), ("doctorName", .str "Dr. Grey"), ("date", .str "2025-10-12"),
   ("time", .str "09:30"), ("reason", .str "checkup")]

/-! ## Sample stores -/

/-- A store holding patient 1, whose writes affect one row. -/
def sampleDb : Db :=
  ⟨fun _ _ => .ok [[("id", .num 1), ("name", .str "Ann"), ("email", .str "ann@hms.io"),
      ("phone", .str "0123456789"), ("status", .str "Attended")]],
   fun _ _ => .ok ⟨1, 0⟩⟩

/-- A store in which no patient row matches. -/
def emptyDb : Db :=
  ⟨fun _ _ => .ok [], fun _ _ => .ok ⟨0, 0⟩⟩

/-- A store that answers the existence check with `row :: rest` and every write with `hdr`. -/
def constDb (row : Record) (rest : List Record) (hdr : ResultHeader) : Db :=
  ⟨fun _ _ => .ok (row :: rest), fun _ _ => .ok hdr⟩

/-- A patient row of the sample EMR stores. -/
def emrPatient : Record :=
  [("id", .num 1), ("name", .str "Ann"), ("dob", .str "1990-01-01"), ("age", .num 35),
   ("status", .str "Attended")]

/-- A store for the EMR handler: patient 1 exists, two lab rows, no medications table. -/
def emrDb : Db :=
  ⟨fun sql _ =>
      if sql = Emr.patientSql then .ok [emrPatient]
      else if sql = Emr.labsSql then
        .ok [[("test_type", .str "CBC"), ("test_date", .str "2025-03-01"),
              ("result", .str "Abnormal WBC")],
             [("test_type", .str "X-ray"), ("test_date", .str "2025-02-01"),
              ("result", .null)]]
      else .error "no such table",
   fun _ _ => .ok ⟨1, 0⟩⟩

/-- A store for the EMR handler whose one lab row holds a numeric result. -/
def emrNumericDb : Db :=
  ⟨fun sql _ =>
      if sql = Emr.patientSql then .ok [emrPatient]
      else if sql = Emr.labsSql then
        .ok [[("test_type", .str "Glucose"), ("test_date", .str "2025-03-01"),
              ("result", .num 7)]]
      else .ok [],
   fun _ _ => .ok ⟨1, 0⟩⟩

/-- A store for the EMR handler: patient 1 exists and has no lab rows and no medications. -/
def emrNoLabsDb : Db :=
  ⟨fun sql _ => if sql = Emr.patientSql then .ok [emrPatient] else .ok [],
   fun _ _ => .ok ⟨1, 0⟩⟩

/-- A store whose every statement throws. -/
def throwingDb : Db :=
  ⟨fun _ _ => .error "connection lost", fun _ _ => .error "connection lost"⟩

/-! ## The regular-expression matcher decides the denoted language -/

namespace Regex

theorem nullable_iff (r : Regex) : r.nullable = true ↔ r.Lang [] := by
  induction r with
  | none => simp [nullable, Lang]
  | eps => simp [nullable, Lang]
  | cls p => simp [nullable, Lang]
  | seq r s ihr ihs =>
    simp only [nullable, Lang, Bool.and_eq_true, ihr, ihs]
    constructor
    · rintro ⟨hr, hs⟩
      exact ⟨[], [], rfl, hr, hs⟩
    · rintro ⟨x, y, h, hr, hs⟩
      obtain ⟨rfl, rfl⟩ := List.append_eq_nil.1 h.symm
      exact ⟨hr, hs⟩
  | alt r s ihr ihs => simp [nullable, Lang, ihr, ihs]
  | star r _ =>
    simp only [nullable, Lang, true_iff]
    exact ⟨[], by simp⟩

theorem lang_seq_cons (r s : Regex) (c : Char) (w : List Char) :
    (seq r s).Lang (c :: w) ↔
      (r.Lang [] ∧ s.Lang (c :: w)) ∨ ∃ x y, w = x ++ y ∧ r.Lang (c :: x) ∧ s.Lang y := by
  constructor
  · rintro ⟨x, y, h, hx, hy⟩
    cases x with
    | nil =>
      left
      simp only [List.nil_append] at h
      exact ⟨hx, h ▸ hy⟩
    | cons d x =>
      right
      simp only [List.cons_append, List.cons.injEq] at h
      obtain ⟨rfl, rfl⟩ := h
      exact ⟨x, y, rfl, hx, hy⟩
  · rintro (⟨hx, hy⟩ | ⟨x, y, rfl, hx, hy⟩)
    · exact ⟨[], c :: w, rfl, hx, hy⟩
    · exact ⟨c :: x, y, rfl, hx, hy⟩

theorem lang_star_cons (r : Regex) (c : Char) (w : List Char) :
    (star r).Lang (c :: w) ↔ ∃ x y, w = x ++ y ∧ r.Lang (c :: x) ∧ (star r).Lang y := by
  constructor
  · rintro ⟨L, h, hL⟩
    cases L with
    | nil => simp at h
    | cons l L =>
      have hl := hL l (List.mem_cons_self _ _)
      cases l with
      | nil => exact absurd rfl hl.1
      | cons d x =>
        simp only [List.flatten_cons, List.cons_append, List.cons.injEq] at h
        obtain ⟨rfl, rfl⟩ := h
        exact ⟨x, L.flatten, rfl, hl.2, L, rfl, fun y hy => hL y (List.mem_cons_of_mem _ hy)⟩
  · rintro ⟨x, y, rfl, hx, L, rfl, hL⟩
    refine ⟨(c :: x) :: L, rfl, ?_⟩
    intro z hz
    rcases List.mem_cons.1 hz with rfl | hz
    · exact ⟨by simp, hx⟩
    · exact hL z hz

theorem deriv_iff (r : Regex) (c : Char) (w : List Char) :
    (r.deriv c).Lang w ↔ r.Lang (c :: w) := by
  induction r generalizing w with
  | none => simp [deriv, Lang]
  | eps => simp [deriv, Lang]
  | cls p =>
    by_cases hp : p c = true
    · simp only [deriv, hp, if_true, Lang]
      constructor
      · rintro rfl
        exact ⟨c, hp, rfl⟩
      · rintro ⟨d, _, h⟩
        simp only [List.cons.injEq] at h
        exact h.2
    · simp only [deriv, hp, Lang, false_iff]
      rintro ⟨d, hd, h⟩
      simp only [List.cons.injEq] at h
      exact hp (h.1 ▸ hd)
  | seq r s ihr ihs =>
    rw [lang_seq_cons]
    by_cases hn : r.nullable = true
    · simp only [deriv, hn, if_true, Lang, ihr, ihs]
      have h0 := (nullable_iff r).1 hn
      constructor
      · rintro (h | h)
        · exact Or.inr h
        · exact Or.inl ⟨h0, h⟩
      · rintro (h | h)
        · exact Or.inr h.2
        · exact Or.inl h
    · simp only [deriv, hn, Lang, ihr]
      have h0 : ¬ r.Lang [] := fun h => hn ((nullable_iff r).2 h)
      constructor
      · intro h
        exact Or.inr h
      · rintro (h | h)
        · exact absurd h.1 h0
        · exact h
  | alt r s ihr ihs => simp [deriv, Lang, ihr, ihs]
  | star r ih =>
    rw [lang_star_cons]
    simp only [deriv]
    constructor
    · rintro ⟨x, y, h, hx, hy⟩
      exact ⟨x, y, h, (ih x).1 hx, hy⟩
    · rintro ⟨x, y, h, hx, hy⟩
      exact ⟨x, y, h, (ih x).2 hx, hy⟩

theorem matchChars_iff (r : Regex) (w : List Char) : r.matchChars w = true ↔ r.Lang w := by
  induction w generalizing r with
  | nil => simpa [matchChars] using nullable_iff r
  | cons c w ih => simpa [matchChars, ih] using deriv_iff r c w

theorem lang_star_cls (p : Char → Bool) (w : List Char) :
    (star (cls p)).Lang w ↔ ∀ c ∈ w, p c = true := by
  induction w with
  | nil =>
    simp only [List.not_mem_nil, false_implies, implies_true, iff_true]
    exact ⟨[], rfl, by simp⟩
  | cons c w ih =>
    rw [lang_star_cons]
    constructor
    · rintro ⟨x, y, rfl, ⟨d, hd, hx⟩, hy⟩
      simp only [List.cons.injEq] at hx
      obtain ⟨rfl, rfl⟩ := hx
      intro e he
      rcases List.mem_cons.1 he with rfl | he
      · exact hd
      · exact ih.1 hy e he
    · intro h
      exact ⟨[], w, rfl, ⟨c, h c (List.mem_cons_self _ _), rfl⟩,
        ih.2 fun e he => h e (List.mem_cons_of_mem _ he)⟩

theorem lang_plus_cls (p : Char → Bool) (w : List Char) :
    (plus (cls p)).Lang w ↔ w ≠ [] ∧ ∀ c ∈ w, p c = true := by
  constructor
  · rintro ⟨x, y, rfl, ⟨d, hd, rfl⟩, hy⟩
    refine ⟨by simp, ?_⟩
    intro e he
    rcases List.mem_cons.1 he with rfl | he
    · exact hd
    · exact (lang_star_cls p y).1 hy e he
  · rintro ⟨hne, h⟩
    cases w with
    | nil => exact absurd rfl hne
    | cons c w =>
      exact ⟨[c], w, rfl, ⟨c, h c (List.mem_cons_self _ _), rfl⟩,
        (lang_star_cls p w).2 fun e he => h e (List.mem_cons_of_mem _ he)⟩

theorem lang_cls_seq (p : Char → Bool) (r : Regex) (w : List Char) :
    (seq (cls p) r).Lang w ↔ ∃ c v, w = c :: v ∧ p c = true ∧ r.Lang v := by
  constructor
  · rintro ⟨x, y, rfl, ⟨d, hd, rfl⟩, hy⟩
    exact ⟨d, y, rfl, hd, hy⟩
  · rintro ⟨c, v, rfl, hc, hv⟩
    exact ⟨[c], v, rfl, ⟨c, hc, rfl⟩, hv⟩

theorem lang_times_cls (p : Char → Bool) (n : Nat) (w : List Char) :
    (times (cls p) n).Lang w ↔ w.length = n ∧ ∀ c ∈ w, p c = true := by
  induction n generalizing w with
  | zero =>
    simp only [times, Lang]
    constructor
    · rintro rfl
      simp
    · rintro ⟨h, _⟩
      exact List.length_eq_zero.1 h
  | succ n ih =>
    simp only [times]
    rw [lang_cls_seq]
    constructor
    · rintro ⟨c, v, rfl, hc, hv⟩
      obtain ⟨hlen, hall⟩ := (ih v).1 hv
      refine ⟨by simp [hlen], ?_⟩
      intro e he
      rcases List.mem_cons.1 he with rfl | he
      · exact hc
      · exact hall e he
    · rintro ⟨hlen, hall⟩
      cases w with
      | nil => simp at hlen
      | cons c v =>
        refine ⟨c, v, rfl, hall c (List.mem_cons_self _ _), (ih v).2 ⟨?_, ?_⟩⟩
        · simpa using hlen
        · exact fun e he => hall e (List.mem_cons_of_mem _ he)

end Regex

/-! ## The two validators in the data model's words -/

theorem notSpaceAt_iff (c : Char) : notSpaceAt c = true ↔ isJsSpace c = false ∧ c ≠ '@' := by
  simp [notSpaceAt]

theorem isDigit_iff (c : Char) :
    isDigit c = true ↔ '0'.toNat ≤ c.toNat ∧ c.toNat ≤ '9'.toNat := by
  simp [isDigit]

theorem emailRe_lang (w : List Char) :
    emailRe.Lang w ↔ ∃ a b c : List Char, a ≠ [] ∧ b ≠ [] ∧ c ≠ [] ∧
      (∀ ch ∈ a, notSpaceAt ch = true) ∧ (∀ ch ∈ b, notSpaceAt ch = true) ∧
      (∀ ch ∈ c, notSpaceAt ch = true) ∧ w = a ++ '@' :: (b ++ '.' :: c) := by
  unfold emailRe
  constructor
  · rintro ⟨a, y, rfl, ha, hy⟩
    obtain ⟨d, y1, rfl, hd, b, y2, rfl, hb, hy2⟩ := (Regex.lang_cls_seq _ _ _).1 hy
    obtain ⟨e, c, rfl, he, hc⟩ := (Regex.lang_cls_seq _ _ _).1 hy2
    obtain ⟨ha0, ha1⟩ := (Regex.lang_plus_cls _ _).1 ha
    obtain ⟨hb0, hb1⟩ := (Regex.lang_plus_cls _ _).1 hb
    obtain ⟨hc0, hc1⟩ := (Regex.lang_plus_cls _ _).1 hc
    have hd' : d = '@' := by simpa using hd
    have he' : e = '.' := by simpa using he
    subst hd' he'
    exact ⟨a, b, c, ha0, hb0, hc0, ha1, hb1, hc1, rfl⟩
  · rintro ⟨a, b, c, ha0, hb0, hc0, ha1, hb1, hc1, rfl⟩
    refine ⟨a, _, rfl, (Regex.lang_plus_cls _ _).2 ⟨ha0, ha1⟩, ?_⟩
    refine (Regex.lang_cls_seq _ _ _).2 ⟨'@', _, rfl, by simp, b, _, rfl,
      (Regex.lang_plus_cls _ _).2 ⟨hb0, hb1⟩, ?_⟩
    exact (Regex.lang_cls_seq _ _ _).2 ⟨'.', c, rfl, by simp,
      (Regex.lang_plus_cls _ _).2 ⟨hc0, hc1⟩⟩

theorem emailRe_test_iff (s : String) : emailRe.test s = true ↔ EmailForm s := by
  simp only [Regex.test, Regex.matchChars_iff, emailRe_lang, EmailForm, notSpaceAt_iff]

theorem phoneRe_test_iff (s : String) : phoneRe.test s = true ↔ TenDigits s := by
  simp only [Regex.test, Regex.matchChars_iff, phoneRe, Regex.lang_times_cls, TenDigits,
    isDigit_iff, String.length, String.toList]

theorem emailTest_str (s : String) : emailTest (.str s) = .ok (emailRe.test s) := rfl

theorem phoneTest_str (s : String) : phoneTest (.str s) = .ok (phoneRe.test s) := rfl

theorem emailTest_str_iff (s : String) : emailTest (.str s) = .ok true ↔ EmailForm s := by
  rw [emailTest_str, ← emailRe_test_iff]
  constructor
  · intro h
    exact Except.ok.inj h
  · intro h
    rw [h]

theorem phoneTest_str_iff (s : String) : phoneTest (.str s) = .ok true ↔ TenDigits s := by
  rw [phoneTest_str, ← phoneRe_test_iff]
  constructor
  · intro h
    exact Except.ok.inj h
  · intro h
    rw [h]


/-! ## The patch handler of the patients router, case by case -/

namespace Patients

theorem guard_ok_true (t : Bool) (x : Except String Bool) :
    (if t = true then x else .ok true) = .ok true ↔ (t = true → x = .ok true) := by
  cases t <;> simp

theorem presence_iff (name email phone dob address notes status : JsVal) :
    (!name.truthy && !email.truthy && !phone.truthy && !dob.truthy &&
      address == .undefined && notes == .undefined && status == .undefined) = false ↔
    (name.truthy = true ∨ email.truthy = true ∨ phone.truthy = true ∨ dob.truthy = true ∨
      address ≠ .undefined ∨ notes ≠ .undefined ∨ status ≠ .undefined) := by
  cases name.truthy <;> cases email.truthy <;> cases phone.truthy <;> cases dob.truthy <;>
    first | (simp; done) | (simp; tauto)

theorem patchValidate_none_iff (name email phone dob address notes status : JsVal) :
    patchValidate name email phone dob address notes status = .ok none ↔
      (name.truthy = true ∨ email.truthy = true ∨ phone.truthy = true ∨ dob.truthy = true ∨
        address ≠ .undefined ∨ notes ≠ .undefined ∨ status ≠ .undefined) ∧
      (email.truthy = true → emailTest email = .ok true) ∧
      (phone.truthy = true → phoneTest phone = .ok true) ∧
      (status.truthy = true → statusIncludes status = true) := by
  rw [← presence_iff, ← guard_ok_true, ← guard_ok_true]
  unfold patchValidate
  cases hP : (!name.truthy && !email.truthy && !phone.truthy && !dob.truthy &&
      address == .undefined && notes == .undefined && status == .undefined)
  · simp only [Bool.false_eq_true, if_false, true_and]
    rcases (if email.truthy = true then emailTest email else .ok true) with e1 | (_ | _)
    · simp
    · simp
    · rcases (if phone.truthy = true then phoneTest phone else .ok true) with e2 | (_ | _)
      · simp
      · simp
      · cases status.truthy <;> cases statusIncludes status <;> simp
  · simp

theorem patchValidate_not_toggle (name email phone dob address notes status : JsVal)
    (h : patchValidate name email phone dob address notes status = .ok none) :
    status ≠ JsVal.str "toggle" := by
  rintro rfl
  have h4 := ((patchValidate_none_iff _ _ _ _ _ _ _).1 h).2.2.2
  exact absurd (h4 (by decide)) (by decide)

theorem truthy_ne_undefined (v : JsVal) (h : v.truthy = true) : v ≠ JsVal.undefined := by
  rintro rfl
  simp [JsVal.truthy] at h

theorem patchValidate_provided (name email phone dob address notes status : JsVal)
    (h : patchValidate name email phone dob address notes status = .ok none) :
    name ≠ .undefined ∨ email ≠ .undefined ∨ phone ≠ .undefined ∨ dob ≠ .undefined ∨
      address ≠ .undefined ∨ notes ≠ .undefined ∨ status ≠ .undefined := by
  rcases ((patchValidate_none_iff _ _ _ _ _ _ _).1 h).1 with h | h | h | h | h | h | h
  · exact Or.inl (truthy_ne_undefined _ h)
  · exact Or.inr (Or.inl (truthy_ne_undefined _ h))
  · exact Or.inr (Or.inr (Or.inl (truthy_ne_undefined _ h)))
  · exact Or.inr (Or.inr (Or.inr (Or.inl (truthy_ne_undefined _ h))))
  · exact Or.inr (Or.inr (Or.inr (Or.inr (Or.inl h))))
  · exact Or.inr (Or.inr (Or.inr (Or.inr (Or.inr (Or.inl h)))))
  · exact Or.inr (Or.inr (Or.inr (Or.inr (Or.inr (Or.inr h)))))

theorem testValue_converts (accepts : String → Bool) (v : JsVal) (h : v.Converts) :
    ∃ b, testValue accepts v = .ok b := by
  obtain ⟨s, hs⟩ := h
  exact ⟨accepts s, by simp only [testValue, hs]⟩

theorem guard_error (t : Bool) (x : Except String Bool) (thrown : String)
    (h : (if t = true then x else .ok true) = .error thrown) : x = .error thrown := by
  cases t
  · exact absurd h (by simp)
  · exact h

theorem patchValidate_error (name email phone dob address notes status : JsVal)
    (thrown : String)
    (h : patchValidate name email phone dob address notes status = .error thrown) :
    emailTest email = .error thrown ∨ phoneTest phone = .error thrown := by
  unfold patchValidate at h
  split at h
  · exact absurd h (by simp)
  · rcases hE : (if email.truthy = true then emailTest email else .ok true) with e1 | (_ | _)
    · rw [hE] at h
      simp only [Except.error.injEq] at h
      subst h
      exact Or.inl (guard_error _ _ _ hE)
    · rw [hE] at h
      exact absurd h (by simp)
    · rw [hE] at h
      simp only at h
      rcases hP : (if phone.truthy = true then phoneTest phone else .ok true) with e2 | (_ | _)
      · rw [hP] at h
        simp only [Except.error.injEq] at h
        subst h
        exact Or.inr (guard_error _ _ _ hP)
      · rw [hP] at h
        exact absurd h (by simp)
      · rw [hP] at h
        simp only at h
        split at h <;> exact absurd h (by simp)

theorem patchValidate_converts (name email phone dob address notes status : JsVal)
    (he : email.Converts) (hp : phone.Converts) :
    ∃ r, patchValidate name email phone dob address notes status = .ok r := by
  rcases hv : patchValidate name email phone dob address notes status with thrown | r
  · obtain ⟨b1, h1⟩ := testValue_converts emailRe.test email he
    obtain ⟨b2, h2⟩ := testValue_converts phoneRe.test phone hp
    rcases patchValidate_error _ _ _ _ _ _ _ thrown hv with h | h
    · rw [emailTest, h1] at h
      exact absurd h (by simp)
    · rw [phoneTest, h2] at h
      exact absurd h (by simp)
  · exact ⟨r, rfl⟩

theorem buildUpdates_ne_nil (existing0 : Record) (name email phone dob address notes status : JsVal)
    (h : name ≠ .undefined ∨ email ≠ .undefined ∨ phone ≠ .undefined ∨ dob ≠ .undefined ∨
      address ≠ .undefined ∨ notes ≠ .undefined ∨ status ≠ .undefined) :
    (buildUpdates existing0 name email phone dob address notes status).keys.length ≠ 0 := by
  simp only [buildUpdates, assignIf, JsObject.keys]
  by_cases h1 : name = .undefined <;> by_cases h2 : email = .undefined <;>
    by_cases h3 : phone = .undefined <;> by_cases h4 : dob = .undefined <;>
    by_cases h5 : address = .undefined <;> by_cases h6 : notes = .undefined <;>
    by_cases h7 : status = .undefined <;> simp_all

theorem buildUpdates_eq (existing0 : Record) (body : JsObject) (h : body.get "status" ≠ JsVal.str "toggle") :
    buildUpdates existing0 (body.get "name") (body.get "email") (body.get "phone")
        (body.get "dob") (body.get "address") (body.get "notes") (body.get "status") =
      (patchFields.filter fun k => body.get k != .undefined).map fun k => (k, body.get k) := by
  simp only [buildUpdates, assignIf, resolveStatus, if_neg h, patchFields, List.filter_cons,
    List.filter_nil]
  by_cases h1 : body.get "name" = .undefined <;> by_cases h2 : body.get "email" = .undefined <;>
    by_cases h3 : body.get "phone" = .undefined <;> by_cases h4 : body.get "dob" = .undefined <;>
    by_cases h5 : body.get "address" = .undefined <;>
    by_cases h6 : body.get "notes" = .undefined <;>
    by_cases h7 : body.get "status" = .undefined <;> simp [h1, h2, h3, h4, h5, h6, h7]

theorem patch_of_thrown (db : Db) (id : String) (body : JsObject) (thrown : String)
    (h : patchValidate (body.get "name") (body.get "email") (body.get "phone") (body.get "dob")
      (body.get "address") (body.get "notes") (body.get "status") = .error thrown) :
    patch db id body = ⟨.unsent thrown, []⟩ := by
  simp only [patch, h]

theorem patch_of_invalid (db : Db) (id : String) (body : JsObject) (msg : String)
    (h : patchValidate (body.get "name") (body.get "email") (body.get "phone") (body.get "dob")
      (body.get "address") (body.get "notes") (body.get "status") = .ok (some msg)) :
    patch db id body = ⟨errorResp 400 msg, []⟩ := by
  simp only [patch, h]

theorem patch_of_throw (db : Db) (id : String) (body : JsObject) (msg : String)
    (h : patchValidate (body.get "name") (body.get "email") (body.get "phone") (body.get "dob")
      (body.get "address") (body.get "notes") (body.get "status") = .ok none)
    (hsel : db.query (selectQuery id).sql (selectQuery id).params = .error msg) :
    patch db id body = ⟨errorDetails 500 "Failed to update patient" msg, [selectQuery id]⟩ := by
  simp only [patch, h, hsel]

theorem patch_of_absent (db : Db) (id : String) (body : JsObject)
    (h : patchValidate (body.get "name") (body.get "email") (body.get "phone") (body.get "dob")
      (body.get "address") (body.get "notes") (body.get "status") = .ok none)
    (hsel : db.query (selectQuery id).sql (selectQuery id).params = .ok []) :
    patch db id body = ⟨errorResp 404 "Patient not found", [selectQuery id]⟩ := by
  simp only [patch, h, hsel]

/-- The response after the `UPDATE` came back. -/
theorem patch_of_existing (db : Db) (id : String) (body : JsObject)
    (existing0 : Record) (rest : List Record)
    (h : patchValidate (body.get "name") (body.get "email") (body.get "phone") (body.get "dob")
      (body.get "address") (body.get "notes") (body.get "status") = .ok none)
    (hsel : db.query (selectQuery id).sql (selectQuery id).params = .ok (existing0 :: rest)) :
    patch db id body =
      ⟨(match db.exec
            (updateQuery (buildUpdates existing0 (body.get "name") (body.get "email")
              (body.get "phone") (body.get "dob") (body.get "address") (body.get "notes")
              (body.get "status")) id).sql
            (updateQuery (buildUpdates existing0 (body.get "name") (body.get "email")
              (body.get "phone") (body.get "dob") (body.get "address") (body.get "notes")
              (body.get "status")) id).params with
        | .error msg => errorDetails 500 "Failed to update patient" msg
        | .ok result =>
          if result.affectedRows = 0 then errorResp 400 "No changes applied"
          else messageResp 200 "Patient updated successfully"),
       [selectQuery id,
        updateQuery (buildUpdates existing0 (body.get "name") (body.get "email")
          (body.get "phone") (body.get "dob") (body.get "address") (body.get "notes")
          (body.get "status")) id]⟩ := by
  have hne := buildUpdates_ne_nil existing0 _ _ _ _ _ _ _ (patchValidate_provided _ _ _ _ _ _ _ h)
  simp only [patch, h, hsel, if_neg hne]
  split
  · rfl
  · split <;> rfl

/-- Every `UPDATE` the handler issues is the one built from the first existing row. -/
theorem patch_issued_update (db : Db) (id : String) (body : JsObject) (q : Query)
    (hq : q ∈ (patch db id body).issued) (hu : q.verb = SqlVerb.update) :
    ∃ existing0 rest,
      db.query (selectQuery id).sql (selectQuery id).params = .ok (existing0 :: rest) ∧
      patchValidate (body.get "name") (body.get "email") (body.get "phone") (body.get "dob")
        (body.get "address") (body.get "notes") (body.get "status") = .ok none ∧
      q = updateQuery (buildUpdates existing0 (body.get "name") (body.get "email")
        (body.get "phone") (body.get "dob") (body.get "address") (body.get "notes")
        (body.get "status")) id := by
  rcases hv : patchValidate (body.get "name") (body.get "email") (body.get "phone")
      (body.get "dob") (body.get "address") (body.get "notes") (body.get "status") with
    thrown | (_ | msg)
  · rw [patch_of_thrown db id body thrown hv] at hq
    simp at hq
  · cases hsel : db.query (selectQuery id).sql (selectQuery id).params with
    | error msg =>
      rw [patch_of_throw db id body msg hv hsel] at hq
      simp only [List.mem_singleton] at hq
      subst hq
      simp [selectQuery] at hu
    | ok rows =>
      cases rows with
      | nil =>
        rw [patch_of_absent db id body hv hsel] at hq
        simp only [List.mem_singleton] at hq
        subst hq
        simp [selectQuery] at hu
      | cons existing0 rest =>
        rw [patch_of_existing db id body existing0 rest hv hsel] at hq
        simp only [List.mem_cons, List.mem_singleton, List.not_mem_nil, or_false] at hq
        rcases hq with rfl | rfl
        · simp [selectQuery] at hu
        · exact ⟨existing0, rest, rfl, rfl, rfl⟩
  · rw [patch_of_invalid db id body msg hv] at hq
    simp at hq

end Patients

/-! ## The toggle token -/

/-- C1 (evaluated at the failing input): a body whose only field is `status: 'toggle'` is
answered 400 by the status check of both patch handlers, whatever the store holds; no
statement is issued, so the complement of the stored status is never written. -/
theorem patch_toggle_rejected (db : Db) (id : String) :
    Patients.patch db id [("status", .str "toggle")] = ⟨errorResp 400 "Invalid status", []⟩ ∧
    Server.patch db id [("status", .str "toggle")] =
      ⟨errorResp 400 "Invalid status value", []⟩ :=
  ⟨rfl, rfl⟩

/-- C2: whenever the patch handler of the patients router issues an `UPDATE`, that statement
is the one built from the `updates` object of the first existing row, and the value that
object holds for the column `status` is not the literal string `'toggle'`. -/
theorem patch_status_never_toggle (db : Db) (id : String) (body : JsObject) (q : Query)
    (hq : q ∈ (Patients.patch db id body).issued) (hu : q.verb = SqlVerb.update) :
    ∃ existing0 rest updates,
      db.query (Patients.selectQuery id).sql (Patients.selectQuery id).params =
        .ok (existing0 :: rest) ∧
      updates = Patients.buildUpdates existing0 (body.get "name") (body.get "email")
        (body.get "phone") (body.get "dob") (body.get "address") (body.get "notes")
        (body.get "status") ∧
      q = Patients.updateQuery updates id ∧
      ∀ kv ∈ updates, kv.1 = "status" → kv.2 ≠ JsVal.str "toggle" := by
  obtain ⟨existing0, rest, hsel, hv, rfl⟩ := Patients.patch_issued_update db id body q hq hu
  refine ⟨existing0, rest, _, hsel, rfl, rfl, ?_⟩
  have hs := Patients.patchValidate_not_toggle _ _ _ _ _ _ _ hv
  rw [Patients.buildUpdates_eq existing0 body hs]
  intro kv hkv hk
  obtain ⟨k, _, rfl⟩ := List.mem_map.1 hkv
  simp only at hk
  subst hk
  exact hs

theorem patch_status_never_toggle_witness :
    (Patients.updateQuery [("status", .str "Not Attended")] "1" ∈
        (Patients.patch sampleDb "1" [("status", .str "Not Attended")]).issued ∧
      (Patients.updateQuery [("status", .str "Not Attended")] "1").verb = SqlVerb.update) ∧
    ∃ existing0 rest updates,
      sampleDb.query (Patients.selectQuery "1").sql (Patients.selectQuery "1").params =
        .ok (existing0 :: rest) ∧
      updates = Patients.buildUpdates existing0
        (JsObject.get [("status", .str "Not Attended")] "name")
        (JsObject.get [("status", .str "Not Attended")] "email")
        (JsObject.get [("status", .str "Not Attended")] "phone")
        (JsObject.get [("status", .str "Not Attended")] "dob")
        (JsObject.get [("status", .str "Not Attended")] "address")
        (JsObject.get [("status", .str "Not Attended")] "notes")
        (JsObject.get [("status", .str "Not Attended")] "status") ∧
      Patients.updateQuery [("status", .str "Not Attended")] "1" =
        Patients.updateQuery updates "1" ∧
      ∀ kv ∈ updates, kv.1 = "status" → kv.2 ≠ JsVal.str "toggle" :=
  ⟨⟨by decide, by decide⟩,
    patch_status_never_toggle sampleDb "1" [("status", .str "Not Attended")]
      (Patients.updateQuery [("status", .str "Not Attended")] "1") (by decide) (by decide)⟩

/-! ## Validation of provided fields -/

/-- C3 (evaluated at the failing input): for the body with `email: ''` and `notes: 'x'` and a
store in which the patient exists, the patch handler of the patients router does not answer
400; it issues the existence check and then an `UPDATE` that binds the empty email. -/
theorem patch_writes_empty_email (id : String) (row : Record) (rest : List Record)
    (hdr : ResultHeader) :
    Patients.patch (constDb row rest hdr) id [("email", .str ""), ("notes", .str "x")] =
      ⟨if hdr.affectedRows = 0 then errorResp 400 "No changes applied"
        else messageResp 200 "Patient updated successfully",
       [⟨.select, "SELECT * FROM patients WHERE id = ?", [.str id]⟩,
        ⟨.update, "UPDATE patients SET email = ?, notes = ?, updated_at = NOW() WHERE id = ?",
          [.str "", .str "x", .str id]⟩]⟩ := by
  rw [Patients.patch_of_existing (constDb row rest hdr) id _ row rest (by decide) rfl]
  rfl

/-! ## The set-clause -/

/-- C4: every `UPDATE` the patch handler of the patients router issues has, before the
appended `updated_at`, one `column = ?` per field of name, email, phone, dob, address, notes,
status whose body value is not `undefined`, in that order and nothing else, and binds the
body values of those fields followed by the id. -/
theorem patch_update_columns (db : Db) (id : String) (body : JsObject) (q : Query)
    (hq : q ∈ (Patients.patch db id body).issued) (hu : q.verb = SqlVerb.update) :
    q.sql = "UPDATE patients SET " ++
        ", ".intercalate
          ((Patients.patchFields.filter fun k => body.get k != .undefined).map (· ++ " = ?")) ++
        ", updated_at = NOW() WHERE id = ?" ∧
    q.params =
      (Patients.patchFields.filter fun k => body.get k != .undefined).map body.get ++
        [.str id] := by
  obtain ⟨existing0, rest, _, hv, rfl⟩ := Patients.patch_issued_update db id body q hq hu
  have hs := Patients.patchValidate_not_toggle _ _ _ _ _ _ _ hv
  rw [Patients.buildUpdates_eq existing0 body hs]
  simp [Patients.updateQuery, setClause, JsObject.keys, JsObject.values, List.map_map,
    Function.comp_def]


theorem patch_update_columns_witness :
    ((⟨.update, "UPDATE patients SET name = ?, notes = ?, updated_at = NOW() WHERE id = ?",
          [.str "Bob", .null, .str "1"]⟩ : Query) ∈
        (Patients.patch sampleDb "1"
          [("name", .str "Bob"), ("role", .str "admin"), ("notes", .null)]).issued ∧
      (⟨.update, "UPDATE patients SET name = ?, notes = ?, updated_at = NOW() WHERE id = ?",
          [.str "Bob", .null, .str "1"]⟩ : Query).verb = SqlVerb.update) ∧
    "UPDATE patients SET name = ?, notes = ?, updated_at = NOW() WHERE id = ?" =
      "UPDATE patients SET " ++
        ", ".intercalate
          ((Patients.patchFields.filter fun k =>
            JsObject.get [("name", .str "Bob"), ("role", .str "admin"), ("notes", .null)] k
              != .undefined).map (· ++ " = ?")) ++
        ", updated_at = NOW() WHERE id = ?" ∧
    [JsVal.str "Bob", .null, .str "1"] =
      (Patients.patchFields.filter fun k =>
          JsObject.get [("name", .str "Bob"), ("role", .str "admin"), ("notes", .null)] k
            != .undefined).map
        (JsObject.get [("name", .str "Bob"), ("role", .str "admin"), ("notes", .null)]) ++
        [.str "1"] :=
  ⟨⟨by decide, by decide⟩,
    patch_update_columns sampleDb "1"
      [("name", .str "Bob"), ("role", .str "admin"), ("notes", .null)]
      ⟨.update, "UPDATE patients SET name = ?, notes = ?, updated_at = NOW() WHERE id = ?",
        [.str "Bob", .null, .str "1"]⟩ (by decide) (by decide)⟩

/-! ## Bodies that change nothing -/

/-- C5: the empty body is answered 400 with an error envelope by both patch handlers, and
neither the existence check nor an `UPDATE` is issued. -/
theorem patch_empty_body (db : Db) (id : String) :
    Patients.patch db id [] = ⟨errorResp 400 "At least one field must be provided", []⟩ ∧
    Server.patch db id [] =
      ⟨errorResp 400 "At least one field must be provided to update", []⟩ :=
  ⟨rfl, rfl⟩

/-- C6 (refuted as stated): patient 1 exists with name `'Ann'` and status `'Attended'`, the
body provides exactly these two stored values and passes every check, and yet the handler
issues an `UPDATE` and answers 200 instead of reporting a no-op. -/
theorem patch_same_values_writes :
    sampleDb.query (Patients.selectQuery "1").sql (Patients.selectQuery "1").params =
      .ok [[("id", .num 1), ("name", .str "Ann"), ("email", .str "ann@hms.io"),
        ("phone", .str "0123456789"), ("status", .str "Attended")]] ∧
    (∀ k ∈ Patients.patchFields,
      JsObject.get [("name", .str "Ann"), ("status", .str "Attended")] k ≠ .undefined →
      JsObject.get [("name", .str "Ann"), ("status", .str "Attended")] k =
        (Record.get [("id", .num 1), ("name", .str "Ann"), ("email", .str "ann@hms.io"),
          ("phone", .str "0123456789"), ("status", .str "Attended")] k).toJs) ∧
    (Patients.patch sampleDb "1" [("name", .str "Ann"), ("status", .str "Attended")]).response =
      messageResp 200 "Patient updated successfully" ∧
    (Patients.patch sampleDb "1" [("name", .str "Ann"), ("status", .str "Attended")]).issued =
      [Patients.selectQuery "1",
       ⟨.update, "UPDATE patients SET name = ?, status = ?, updated_at = NOW() WHERE id = ?",
        [.str "Ann", .str "Attended", .str "1"]⟩] :=
  ⟨rfl, by decide, rfl, rfl⟩

/-- C6 (amended): for an existing patient and a body that passes the presence and format
checks, whatever the stored values are, the handler issues the `UPDATE`; when the store
executes it, the response is the no-op error 400 exactly when the store reports zero
affected rows and the success message 200 otherwise; when the store throws on it, the
response is the 500 of the `catch` block. -/
theorem patch_existing_valid_writes (db : Db) (id : String) (body : JsObject)
    (existing0 : Record) (rest : List Record)
    (hsel : db.query (Patients.selectQuery id).sql (Patients.selectQuery id).params =
      .ok (existing0 :: rest))
    (hv : Patients.patchValidate (body.get "name") (body.get "email") (body.get "phone")
      (body.get "dob") (body.get "address") (body.get "notes") (body.get "status") = .ok none) :
    (Patients.patch db id body).issuesUpdate ∧
    ∀ q ∈ (Patients.patch db id body).issued, q.verb = SqlVerb.update →
      (∀ hdr, db.exec q.sql q.params = .ok hdr →
        ((Patients.patch db id body).response = errorResp 400 "No changes applied" ↔
          hdr.affectedRows = 0) ∧
        (hdr.affectedRows ≠ 0 →
          (Patients.patch db id body).response =
            messageResp 200 "Patient updated successfully")) ∧
      (∀ msg, db.exec q.sql q.params = .error msg →
        (Patients.patch db id body).response =
          errorDetails 500 "Failed to update patient" msg) := by
  have hp := Patients.patch_of_existing db id body existing0 rest hv hsel
  constructor
  · rw [hp]
    exact ⟨_, List.mem_cons_of_mem _ (List.mem_singleton.2 rfl), rfl⟩
  · intro q hq hu
    obtain ⟨e0, r0, hsel', _, rfl⟩ := Patients.patch_issued_update db id body q hq hu
    rw [hsel] at hsel'
    simp only [Except.ok.injEq, List.cons.injEq] at hsel'
    obtain ⟨rfl, rfl⟩ := hsel'
    constructor
    · intro hdr hexec
      rw [hp, hexec]
      by_cases h0 : hdr.affectedRows = 0
      · simp [h0]
      · simp only [h0, if_false, false_iff, ne_eq, not_false_eq_true, true_implies, and_true]
        decide
    · intro msg hexec
      rw [hp, hexec]

theorem patch_existing_valid_writes_witness :
    (sampleDb.query (Patients.selectQuery "1").sql (Patients.selectQuery "1").params =
        .ok ([("id", .num 1), ("name", .str "Ann"), ("email", .str "ann@hms.io"),
          ("phone", .str "0123456789"), ("status", .str "Attended")] :: []) ∧
      Patients.patchValidate (JsObject.get [("name", .str "Ann")] "name")
        (JsObject.get [("name", .str "Ann")] "email")
        (JsObject.get [("name", .str "Ann")] "phone")
        (JsObject.get [("name", .str "Ann")] "dob")
        (JsObject.get [("name", .str "Ann")] "address")
        (JsObject.get [("name", .str "Ann")] "notes")
        (JsObject.get [("name", .str "Ann")] "status") = .ok none) ∧
    (Patients.patch sampleDb "1" [("name", .str "Ann")]).issuesUpdate ∧
    (Patients.patch sampleDb "1" [("name", .str "Ann")]).response =
      messageResp 200 "Patient updated successfully" :=
  ⟨⟨rfl, rfl⟩,
    (patch_existing_valid_writes sampleDb "1" [("name", .str "Ann")] _ [] rfl rfl).1,
    ((patch_existing_valid_writes sampleDb "1" [("name", .str "Ann")] _ [] rfl rfl).2
      (Patients.updateQuery [("name", .str "Ann")] "1") (by decide) rfl).1 ⟨1, 0⟩ rfl |>.2
      (by decide)⟩


/-! ## Absent patients -/

/-- C7 (refuted as stated): the store holds no patient `'99'`, the body is not empty, and
the handler answers 400 for the malformed email without making the existence check. -/
theorem patch_absent_bad_email :
    emptyDb.query (Patients.selectQuery "99").sql (Patients.selectQuery "99").params = .ok [] ∧
    Patients.patch emptyDb "99" [("email", .str "bad")] =
      ⟨errorResp 400 "Invalid email format", []⟩ :=
  ⟨rfl, rfl⟩

/-- C7 (amended): for a patient id absent from the store, a body that passes the presence
check and the email, phone and status checks is answered 404 'Patient not found' after the
existence check alone; a body that does not pass them issues no statement at all, and it is
answered 400 whenever its email and phone can be converted to strings, so that the checks
themselves do not throw. -/
theorem patch_absent (db : Db) (id : String) (body : JsObject)
    (hsel : db.query (Patients.selectQuery id).sql (Patients.selectQuery id).params = .ok []) :
    ((((body.get "name").truthy = true ∨ (body.get "email").truthy = true ∨
          (body.get "phone").truthy = true ∨ (body.get "dob").truthy = true ∨
          body.get "address" ≠ .undefined ∨ body.get "notes" ≠ .undefined ∨
          body.get "status" ≠ .undefined) ∧
        ((body.get "email").truthy = true → emailTest (body.get "email") = .ok true) ∧
        ((body.get "phone").truthy = true → phoneTest (body.get "phone") = .ok true) ∧
        ((body.get "status").truthy = true → statusIncludes (body.get "status") = true)) →
      Patients.patch db id body =
        ⟨errorResp 404 "Patient not found", [Patients.selectQuery id]⟩) ∧
    (¬ (((body.get "name").truthy = true ∨ (body.get "email").truthy = true ∨
          (body.get "phone").truthy = true ∨ (body.get "dob").truthy = true ∨
          body.get "address" ≠ .undefined ∨ body.get "notes" ≠ .undefined ∨
          body.get "status" ≠ .undefined) ∧
        ((body.get "email").truthy = true → emailTest (body.get "email") = .ok true) ∧
        ((body.get "phone").truthy = true → phoneTest (body.get "phone") = .ok true) ∧
        ((body.get "status").truthy = true → statusIncludes (body.get "status") = true)) →
      (Patients.patch db id body).issued = [] ∧
      ((body.get "email").Converts → (body.get "phone").Converts →
        (Patients.patch db id body).response.status = 400)) := by
  constructor
  · intro h
    exact Patients.patch_of_absent db id body ((Patients.patchValidate_none_iff _ _ _ _ _ _ _).2 h)
      hsel
  · intro h
    rcases hv : Patients.patchValidate (body.get "name") (body.get "email") (body.get "phone")
        (body.get "dob") (body.get "address") (body.get "notes") (body.get "status") with
      thrown | (_ | msg)
    · rw [Patients.patch_of_thrown db id body thrown hv]
      refine ⟨rfl, fun he hp => ?_⟩
      obtain ⟨r, hr⟩ := Patients.patchValidate_converts (body.get "name") (body.get "email")
        (body.get "phone") (body.get "dob") (body.get "address") (body.get "notes")
        (body.get "status") he hp
      rw [hr] at hv
      exact absurd hv (by simp)
    · exact absurd ((Patients.patchValidate_none_iff _ _ _ _ _ _ _).1 hv) h
    · rw [Patients.patch_of_invalid db id body msg hv]
      exact ⟨rfl, fun _ _ => rfl⟩

theorem patch_absent_witness :
    emptyDb.query (Patients.selectQuery "99").sql (Patients.selectQuery "99").params = .ok [] ∧
    Patients.patch emptyDb "99" [("name", .str "Bob")] =
      ⟨errorResp 404 "Patient not found", [Patients.selectQuery "99"]⟩ :=
  ⟨rfl, (patch_absent emptyDb "99" [("name", .str "Bob")] rfl).1 (by decide)⟩

/-! ## The toggle rule -/

/-- C8: on the two values of the status enum the complement computed for the toggle token
differs from its argument and is its own inverse. -/
theorem toggle_pairing (s : JsVal) (hs : s = .str "Attended" ∨ s = .str "Not Attended") :
    toggle s ≠ s ∧ toggle (toggle s) = s := by
  rcases hs with rfl | rfl <;> exact ⟨by decide, by decide⟩

theorem toggle_pairing_witness :
    (JsVal.str "Attended" = .str "Attended" ∨ JsVal.str "Attended" = .str "Not Attended") ∧
    toggle (.str "Attended") ≠ .str "Attended" ∧
    toggle (toggle (.str "Attended")) = .str "Attended" :=
  ⟨Or.inl rfl, toggle_pairing (.str "Attended") (Or.inl rfl)⟩

/-! ## Validation on create -/

theorem str_truthy (s : String) : (JsVal.str s).truthy = true ↔ s ≠ "" := by
  simp [JsVal.truthy]

theorem emailForm_ne_empty (s : String) (h : EmailForm s) : s ≠ "" := by
  rintro rfl
  obtain ⟨a, b, c, _, _, _, _, _, _, h⟩ := h
  simp at h

/-- The verdict of `validatePatientData` on four strings, check by check. -/
theorem validatePatientData_str (name email phone dob : String) :
    (Patients.validatePatientData (.str name) (.str email) (.str phone) (.str dob) = .ok none ↔
      name ≠ "" ∧ email ≠ "" ∧ phone ≠ "" ∧ dob ≠ "" ∧ EmailForm email ∧ TenDigits phone) ∧
    ((name = "" ∨ email = "" ∨ phone = "" ∨ dob = "") →
      Patients.validatePatientData (.str name) (.str email) (.str phone) (.str dob) =
        .ok (some "Missing required fields")) ∧
    ((name ≠ "" ∧ email ≠ "" ∧ phone ≠ "" ∧ dob ≠ "") → ¬ EmailForm email →
      Patients.validatePatientData (.str name) (.str email) (.str phone) (.str dob) =
        .ok (some "Invalid email format")) ∧
    ((name ≠ "" ∧ email ≠ "" ∧ phone ≠ "" ∧ dob ≠ "") → EmailForm email → ¬ TenDigits phone →
      Patients.validatePatientData (.str name) (.str email) (.str phone) (.str dob) =
        .ok (some "Phone number must be 10 digits")) := by
  have he := emailRe_test_iff email
  have hp := phoneRe_test_iff phone
  have hn1 := str_truthy name
  have hn2 := str_truthy email
  have hn3 := str_truthy phone
  have hn4 := str_truthy dob
  unfold Patients.validatePatientData
  rw [emailTest_str, phoneTest_str]
  cases h1 : (JsVal.str name).truthy <;> cases h2 : (JsVal.str email).truthy <;>
    cases h3 : (JsVal.str phone).truthy <;> cases h4 : (JsVal.str dob).truthy <;>
    cases h5 : emailRe.test email <;> cases h6 : phoneRe.test phone <;>
    simp only [h1, h2, h3, h4, h5, h6] at he hp hn1 hn2 hn3 hn4 <;>
    simp at he hp hn1 hn2 hn3 hn4 <;> simp [he, hp, hn1, hn2, hn3, hn4]


theorem Server.validatePatientData_eq :
    Server.validatePatientData = Patients.validatePatientData := rfl

/-- C9: a create body whose name and dob are non-empty strings, whose email matches the
email pattern and whose phone is a non-empty string that is not exactly ten digits is
answered 400 'Phone number must be 10 digits' by both create handlers, and no `INSERT` (no
statement at all) is issued. -/
theorem post_rejects_bad_phone (db : Db) (body : JsObject) (name email phone dob : String)
    (hname : body.get "name" = .str name) (hemail : body.get "email" = .str email)
    (hphone : body.get "phone" = .str phone) (hdob : body.get "dob" = .str dob)
    (h1 : name ≠ "") (h2 : dob ≠ "") (h3 : emailRe.test email = true) (h4 : phone ≠ "")
    (h5 : ¬ TenDigits phone) :
    Patients.post db body = ⟨errorResp 400 "Phone number must be 10 digits", []⟩ ∧
    Server.post db body = ⟨errorResp 400 "Phone number must be 10 digits", []⟩ := by
  have h3' : EmailForm email := (emailRe_test_iff email).1 h3
  have hv := (validatePatientData_str name email phone dob).2.2.2
    ⟨h1, emailForm_ne_empty email h3', h4, h2⟩ h3' h5
  constructor
  · simp only [Patients.post, hname, hemail, hphone, hdob, hv]
  · simp only [Server.post, Server.validatePatientData_eq, hname, hemail, hphone, hdob, hv]

theorem post_rejects_bad_phone_witness :
    Patients.post sampleDb [("name", .str "Ann"), ("email", .str "ann@hms.io"),
        ("phone", .str "12345"), ("dob", .str "1990-01-01")] =
      ⟨errorResp 400 "Phone number must be 10 digits", []⟩ ∧
    Server.post sampleDb [("name", .str "Ann"), ("email", .str "ann@hms.io"),
        ("phone", .str "12345"), ("dob", .str "1990-01-01")] =
      ⟨errorResp 400 "Phone number must be 10 digits", []⟩ :=
  post_rejects_bad_phone sampleDb
    [("name", .str "Ann"), ("email", .str "ann@hms.io"), ("phone", .str "12345"),
      ("dob", .str "1990-01-01")]
    "Ann" "ann@hms.io" "12345" "1990-01-01" rfl rfl rfl rfl (by decide) (by decide)
    (by decide) (by decide) (fun h => absurd h.1 (by decide))

/-- C10: on four strings, `validatePatientData` (of `patients.js` and, identically, of
`server.js`) returns `null` exactly when all four are non-empty, the email is a non-empty
run without white space or `@`, then `@`, such a run, `.`, such a run, and the phone is
exactly ten ASCII digits; otherwise it returns the first applicable message among 'Missing
required fields', 'Invalid email format', 'Phone number must be 10 digits'; on strings it
never throws. -/
theorem validatePatientData_spec (name email phone dob : String) :
    Server.validatePatientData (.str name) (.str email) (.str phone) (.str dob) =
      Patients.validatePatientData (.str name) (.str email) (.str phone) (.str dob) ∧
    (Patients.validatePatientData (.str name) (.str email) (.str phone) (.str dob) = .ok none ↔
      name ≠ "" ∧ email ≠ "" ∧ phone ≠ "" ∧ dob ≠ "" ∧ EmailForm email ∧ TenDigits phone) ∧
    ((name = "" ∨ email = "" ∨ phone = "" ∨ dob = "") →
      Patients.validatePatientData (.str name) (.str email) (.str phone) (.str dob) =
        .ok (some "Missing required fields")) ∧
    ((name ≠ "" ∧ email ≠ "" ∧ phone ≠ "" ∧ dob ≠ "") → ¬ EmailForm email →
      Patients.validatePatientData (.str name) (.str email) (.str phone) (.str dob) =
        .ok (some "Invalid email format")) ∧
    ((name ≠ "" ∧ email ≠ "" ∧ phone ≠ "" ∧ dob ≠ "") → EmailForm email → ¬ TenDigits phone →
      Patients.validatePatientData (.str name) (.str email) (.str phone) (.str dob) =
        .ok (some "Phone number must be 10 digits")) :=
  ⟨rfl, validatePatientData_str name email phone dob⟩


/-! ## The EMR handler, case by case -/

namespace Emr

theorem get_of_absent (db : Db) (now patientId : String)
    (hsel : db.query patientSql [.str patientId] = .ok []) :
    get db now patientId = ⟨errorResp 404 "Patient not found", [patientQuery patientId]⟩ := by
  simp only [get, patientQuery, hsel]

theorem get_of_existing (db : Db) (now patientId : String) (patient : Record)
    (rest : List Record)
    (hsel : db.query patientSql [.str patientId] = .ok (patient :: rest)) :
    get db now patientId =
      match filterAbnormal (collected db patientId labsSql) with
      | .error msg => ⟨errorResp 500 ("EMR fetch failed: " ++ msg), allQueries patientId⟩
      | .ok abnormal =>
        ⟨.sent 200 (aggregate patient (collected db patientId labsSql)
            (collected db patientId medicationsSql) (abnormal.map alertOf)),
          allQueries patientId⟩ := by
  simp only [get, patientQuery, hsel, optional, runOptional, childQuery, collected]
  cases hl : db.query labsSql [.str patientId] <;>
    cases hm : db.query medicationsSql [.str patientId] <;>
    simp only [RespObject.set, RespObject.rows, initial, List.lookup] <;>
    simp [allQueries, aggregate, patientQuery, arrayOr]

theorem isAbnormal_of_text (l : Record) (h : TextResult l) : isAbnormal l = .ok (keeps l) := by
  rcases h with h | h | ⟨s, h⟩ <;> simp [isAbnormal, keeps, h]

theorem filterAbnormal_of_text (rows : List Record) (h : ∀ l ∈ rows, TextResult l) :
    filterAbnormal rows = .ok (rows.filter keeps) := by
  induction rows with
  | nil => rfl
  | cons l ls ih =>
    have hl := isAbnormal_of_text l (h l (List.mem_cons_self _ _))
    have hls := ih fun x hx => h x (List.mem_cons_of_mem _ hx)
    simp only [filterAbnormal, hl, hls, List.filter_cons]

end Emr


/-! ## The search for `abnormal` in the claims' words -/

theorem startsWith_iff (s sub : List Char) :
    startsWith s sub = true ↔ ∃ post, s = sub ++ post := by
  induction sub generalizing s with
  | nil => cases s <;> simp [startsWith]
  | cons d sub ih =>
    cases s with
    | nil => simp [startsWith]
    | cons c s =>
      simp only [startsWith, Bool.and_eq_true, beq_iff_eq, ih, List.cons_append,
        List.cons.injEq]
      constructor
      · rintro ⟨rfl, post, rfl⟩
        exact ⟨post, rfl, rfl⟩
      · rintro ⟨post, rfl, rfl⟩
        exact ⟨rfl, post, rfl⟩

theorem includes_iff (s sub : List Char) :
    includes s sub = true ↔ ∃ pre post, s = pre ++ sub ++ post := by
  induction s with
  | nil =>
    simp only [includes, startsWith_iff]
    constructor
    · rintro ⟨post, h⟩
      exact ⟨[], post, by simpa using h⟩
    · rintro ⟨pre, post, h⟩
      have h1 : pre ++ sub ++ post = [] := h.symm
      simp only [List.append_eq_nil] at h1
      exact ⟨[], by simp [h1.1.2]⟩
  | cons c s ih =>
    simp only [includes, Bool.or_eq_true, startsWith_iff, ih]
    constructor
    · rintro (⟨post, h⟩ | ⟨pre, post, h⟩)
      · exact ⟨[], post, by simpa using h⟩
      · exact ⟨c :: pre, post, by simp [h]⟩
    · rintro ⟨pre, post, h⟩
      cases pre with
      | nil => exact Or.inl ⟨post, by simpa using h⟩
      | cons d pre =>
        simp only [List.cons_append, List.cons.injEq] at h
        exact Or.inr ⟨pre, post, by simp [h.2]⟩

theorem includes_abnormal_iff (s : String) :
    includes (toLowerCase s.toList) "abnormal".toList = true ↔ ContainsAbnormal s := by
  rw [includes_iff]
  unfold ContainsAbnormal toLowerCase
  constructor
  · rintro ⟨pre, post, h⟩
    obtain ⟨l1, l2, h12, hl1, _⟩ := List.map_eq_append_iff.1 h
    obtain ⟨a, b, hab, _, hb⟩ := List.map_eq_append_iff.1 hl1
    exact ⟨a, b, l2, by rw [h12, hab], hb⟩
  · rintro ⟨pre, mid, post, h, hmid⟩
    refine ⟨pre.map Char.toLower, post.map Char.toLower, ?_⟩
    rw [h, List.map_append, List.map_append, hmid]

theorem Emr.keeps_iff (l : Record) :
    Emr.keeps l = true ↔ ∃ s, l.get "result" = .str s ∧ ContainsAbnormal s := by
  unfold Emr.keeps
  split
  · next s h =>
    rw [includes_abnormal_iff, h]
    constructor
    · intro hs
      exact ⟨s, rfl, hs⟩
    · rintro ⟨t, ht, hs⟩
      cases ht
      exact hs
  · next h =>
    simp only [Bool.false_eq_true, false_iff]
    rintro ⟨s, hs, _⟩
    exact h s hs

/-! ## The status column -/

/-- C11 (evaluated at the failing input): for the body with `status: ''` and a store in which
the patient exists, the patch handler of the patients router issues an `UPDATE` that binds
the empty string to the status column, a value outside the two-value enum. -/
theorem patch_writes_empty_status (id : String) (row : Record) (rest : List Record)
    (hdr : ResultHeader) :
    Patients.patch (constDb row rest hdr) id [("status", .str "")] =
      ⟨if hdr.affectedRows = 0 then errorResp 400 "No changes applied"
        else messageResp 200 "Patient updated successfully",
       [⟨.select, "SELECT * FROM patients WHERE id = ?", [.str id]⟩,
        ⟨.update, "UPDATE patients SET status = ?, updated_at = NOW() WHERE id = ?",
          [.str "", .str id]⟩]⟩ := by
  rw [Patients.patch_of_existing (constDb row rest hdr) id _ row rest (by decide) rfl]
  rfl

/-! ## The EMR aggregate -/

/-- C12: when the patient query returns no row, the EMR handler answers 404 'Patient not
found' and the patient query is the only statement it issued: no child query runs. -/
theorem emr_absent (db : Db) (now patientId : String)
    (hsel : db.query Emr.patientSql [.str patientId] = .ok []) :
    (Emr.get db now patientId).response = errorResp 404 "Patient not found" ∧
    (Emr.get db now patientId).issued = [⟨.select, Emr.patientSql, [.str patientId]⟩] ∧
    (Emr.get db now patientId).issued.length = 1 := by
  rw [Emr.get_of_absent db now patientId hsel]
  exact ⟨rfl, rfl, rfl⟩

theorem emr_absent_witness :
    emptyDb.query Emr.patientSql [.str "99"] = .ok [] ∧
    (Emr.get emptyDb "2025-03-02T00:00:00.000Z" "99").response =
      errorResp 404 "Patient not found" ∧
    (Emr.get emptyDb "2025-03-02T00:00:00.000Z" "99").issued =
      [⟨.select, Emr.patientSql, [.str "99"]⟩] ∧
    (Emr.get emptyDb "2025-03-02T00:00:00.000Z" "99").issued.length = 1 :=
  ⟨rfl, emr_absent emptyDb "2025-03-02T00:00:00.000Z" "99" rfl⟩


/-- C13 (refuted as stated): patient 1 exists and neither child query throws, but the one
lab row holds the number 7 as its result; the alert filter calls `toLowerCase` on it, the
outer `catch` takes over and the handler answers 500 instead of the aggregate. -/
theorem emr_numeric_result_fails :
    emrNumericDb.query Emr.patientSql [.str "1"] = .ok [emrPatient] ∧
    emrNumericDb.query Emr.labsSql [.str "1"] =
      .ok [[("test_type", .str "Glucose"), ("test_date", .str "2025-03-01"),
            ("result", .num 7)]] ∧
    emrNumericDb.query Emr.medicationsSql [.str "1"] = .ok [] ∧
    Emr.get emrNumericDb "2025-03-02T00:00:00.000Z" "1" =
      ⟨errorResp 500 "EMR fetch failed: l.result?.toLowerCase is not a function",
        Emr.allQueries "1"⟩ :=
  ⟨rfl, rfl, rfl, rfl⟩

/-- C13 (amended): for an existing patient whose lab rows have a string, `null` or absent
result, whichever of the two child queries throw, the EMR handler answers 200 with the
aggregate; `labs` and `medications` are both present, a collection whose query threw is
empty, a collection whose query succeeded is exactly its rows, and all three statements
are issued, so a failure of the first child query does not stop the second. -/
theorem emr_child_failures_tolerated (db : Db) (now patientId : String) (patient : Record)
    (rest : List Record)
    (hsel : db.query Emr.patientSql [.str patientId] = .ok (patient :: rest))
    (htext : ∀ rows, db.query Emr.labsSql [.str patientId] = .ok rows →
      ∀ l ∈ rows, TextResult l) :
    (Emr.get db now patientId).response.status = 200 ∧
    (∀ rows, db.query Emr.labsSql [.str patientId] = .ok rows →
      (Emr.get db now patientId).response.body.lookup "labs" = some (.arr rows)) ∧
    (∀ msg, db.query Emr.labsSql [.str patientId] = .error msg →
      (Emr.get db now patientId).response.body.lookup "labs" = some (.arr [])) ∧
    (∀ rows, db.query Emr.medicationsSql [.str patientId] = .ok rows →
      (Emr.get db now patientId).response.body.lookup "medications" = some (.arr rows)) ∧
    (∀ msg, db.query Emr.medicationsSql [.str patientId] = .error msg →
      (Emr.get db now patientId).response.body.lookup "medications" = some (.arr [])) ∧
    (Emr.get db now patientId).issued =
      [⟨.select, Emr.patientSql, [.str patientId]⟩, ⟨.select, Emr.labsSql, [.str patientId]⟩,
       ⟨.select, Emr.medicationsSql, [.str patientId]⟩] := by
  have ht : ∀ l ∈ Emr.collected db patientId Emr.labsSql, TextResult l := by
    intro l hl
    unfold Emr.collected at hl
    cases hq : db.query Emr.labsSql [.str patientId] with
    | error msg => simp [hq] at hl
    | ok rows =>
      rw [hq] at hl
      exact htext rows hq l hl
  rw [Emr.get_of_existing db now patientId patient rest hsel,
    Emr.filterAbnormal_of_text _ ht]
  refine ⟨rfl, ?_, ?_, ?_, ?_, rfl⟩
  · intro rows h
    simp [Emr.aggregate, Emr.collected, h, List.lookup]
  · intro msg h
    simp [Emr.aggregate, Emr.collected, h, List.lookup]
  · intro rows h
    simp [Emr.aggregate, Emr.collected, h, List.lookup]
  · intro msg h
    simp [Emr.aggregate, Emr.collected, h, List.lookup]


theorem emrDb_text (rows : List Record)
    (h : emrDb.query Emr.labsSql [.str "1"] = .ok rows) : ∀ l ∈ rows, TextResult l := by
  have h2 : (Except.ok
      [[("test_type", .str "CBC"), ("test_date", .str "2025-03-01"),
        ("result", .str "Abnormal WBC")],
       [("test_type", .str "X-ray"), ("test_date", .str "2025-02-01"),
        ("result", .null)]] : Except String (List Record)) = .ok rows := h
  cases h2
  intro l hl
  simp only [List.mem_cons, List.mem_singleton, List.not_mem_nil, or_false] at hl
  rcases hl with rfl | rfl
  · exact Or.inr (Or.inr ⟨"Abnormal WBC", rfl⟩)
  · exact Or.inr (Or.inl rfl)

theorem emr_child_failures_tolerated_witness :
    (emrDb.query Emr.patientSql [.str "1"] = .ok [emrPatient] ∧
      emrDb.query Emr.medicationsSql [.str "1"] = .error "no such table") ∧
    (Emr.get emrDb "2025-03-02T00:00:00.000Z" "1").response.status = 200 ∧
    (Emr.get emrDb "2025-03-02T00:00:00.000Z" "1").response.body.lookup "medications" =
      some (.arr []) ∧
    (Emr.get emrDb "2025-03-02T00:00:00.000Z" "1").issued =
      [⟨.select, Emr.patientSql, [.str "1"]⟩, ⟨.select, Emr.labsSql, [.str "1"]⟩,
       ⟨.select, Emr.medicationsSql, [.str "1"]⟩] :=
  ⟨⟨rfl, rfl⟩,
    (emr_child_failures_tolerated emrDb "2025-03-02T00:00:00.000Z" "1" emrPatient [] rfl
      emrDb_text).1,
    (emr_child_failures_tolerated emrDb "2025-03-02T00:00:00.000Z" "1" emrPatient [] rfl
      emrDb_text).2.2.2.2.1 "no such table" rfl,
    (emr_child_failures_tolerated emrDb "2025-03-02T00:00:00.000Z" "1" emrPatient [] rfl
      emrDb_text).2.2.2.2.2⟩

/-- C14 (refuted as stated): patient 1 exists and the handler answers 200, but the
aggregate has no key `notes`, `diagnoses`, `prescriptions` or `allergies`. -/
theorem emr_lacks_client_keys :
    emrDb.query Emr.patientSql [.str "1"] = .ok [emrPatient] ∧
    (Emr.get emrDb "2025-03-02T00:00:00.000Z" "1").response.status = 200 ∧
    (Emr.get emrDb "2025-03-02T00:00:00.000Z" "1").response.body.lookup "notes" = none ∧
    (Emr.get emrDb "2025-03-02T00:00:00.000Z" "1").response.body.lookup "diagnoses" = none ∧
    (Emr.get emrDb "2025-03-02T00:00:00.000Z" "1").response.body.lookup "prescriptions" =
      none ∧
    (Emr.get emrDb "2025-03-02T00:00:00.000Z" "1").response.body.lookup "allergies" = none :=
  ⟨rfl, by decide, by decide, by decide, by decide, by decide⟩

/-- C14 (amended): for an existing patient whose lab rows have a string, `null` or absent
result, the aggregate has exactly the keys patient, overview, family_history, history,
visits, progress_notes, soap_notes, labs, medications, alerts, each of the last seven
holding a sequence; it has no key notes, diagnoses, prescriptions or allergies. -/
theorem emr_aggregate_keys (db : Db) (now patientId : String) (patient : Record)
    (rest : List Record)
    (hsel : db.query Emr.patientSql [.str patientId] = .ok (patient :: rest))
    (htext : ∀ rows, db.query Emr.labsSql [.str patientId] = .ok rows →
      ∀ l ∈ rows, TextResult l) :
    (Emr.get db now patientId).response.status = 200 ∧
    (Emr.get db now patientId).response.body.map Prod.fst =
      ["patient", "overview", "family_history", "history", "visits", "progress_notes",
       "soap_notes", "labs", "medications", "alerts"] ∧
    (∀ k ∈ ["history", "visits", "progress_notes", "soap_notes", "labs", "medications",
        "alerts"],
      ∃ rows, (Emr.get db now patientId).response.body.lookup k = some (.arr rows)) ∧
    (∀ k ∈ ["notes", "diagnoses", "prescriptions", "allergies"],
      (Emr.get db now patientId).response.body.lookup k = none) := by
  have ht : ∀ l ∈ Emr.collected db patientId Emr.labsSql, TextResult l := by
    intro l hl
    unfold Emr.collected at hl
    cases hq : db.query Emr.labsSql [.str patientId] with
    | error msg => simp [hq] at hl
    | ok rows =>
      rw [hq] at hl
      exact htext rows hq l hl
  rw [Emr.get_of_existing db now patientId patient rest hsel,
    Emr.filterAbnormal_of_text _ ht]
  refine ⟨rfl, rfl, ?_, ?_⟩
  · intro k hk
    simp only [List.mem_cons, List.mem_singleton, List.not_mem_nil, or_false] at hk
    rcases hk with rfl | rfl | rfl | rfl | rfl | rfl | rfl <;>
      simp [Emr.aggregate, List.lookup]
  · intro k hk
    simp only [List.mem_cons, List.mem_singleton, List.not_mem_nil, or_false] at hk
    rcases hk with rfl | rfl | rfl | rfl <;> simp [Emr.aggregate, List.lookup]

theorem emr_aggregate_keys_witness :
    emrDb.query Emr.patientSql [.str "1"] = .ok [emrPatient] ∧
    (Emr.get emrDb "2025-03-02T00:00:00.000Z" "1").response.body.map Prod.fst =
      ["patient", "overview", "family_history", "history", "visits", "progress_notes",
       "soap_notes", "labs", "medications", "alerts"] :=
  ⟨rfl,
    (emr_aggregate_keys emrDb "2025-03-02T00:00:00.000Z" "1" emrPatient [] rfl
      emrDb_text).2.1⟩

/-- C15: for an existing patient whose lab rows have a string or `null` result, the alerts
of the aggregate are, in the order of the lab rows, the record with message
`'Abnormal lab: ' + test_type` and timestamp `test_date` of exactly those rows whose
result contains `abnormal` with letter case disregarded. -/
theorem emr_alerts (db : Db) (now patientId : String) (patient : Record)
    (rest : List Record)
    (hsel : db.query Emr.patientSql [.str patientId] = .ok (patient :: rest))
    (htext : ∀ l ∈ Emr.collected db patientId Emr.labsSql,
      l.get "result" = .null ∨ ∃ s, l.get "result" = .str s) :
    ∃ keep : Record → Bool,
      (∀ l, keep l = true ↔ ∃ s, l.get "result" = .str s ∧ ContainsAbnormal s) ∧
      (Emr.get db now patientId).response.status = 200 ∧
      (Emr.get db now patientId).response.body.lookup "labs" =
        some (.arr (Emr.collected db patientId Emr.labsSql)) ∧
      (Emr.get db now patientId).response.body.lookup "alerts" =
        some (.arr (((Emr.collected db patientId Emr.labsSql).filter keep).map fun l =>
          [("message", .str ("Abnormal lab: " ++ (l.get "test_type").toJsString)),
           ("timestamp", l.get "test_date")])) := by
  have ht : ∀ l ∈ Emr.collected db patientId Emr.labsSql, TextResult l :=
    fun l hl => Or.inr (htext l hl)
  refine ⟨Emr.keeps, Emr.keeps_iff, ?_⟩
  rw [Emr.get_of_existing db now patientId patient rest hsel,
    Emr.filterAbnormal_of_text _ ht]
  refine ⟨rfl, ?_, ?_⟩
  · simp [Emr.aggregate, List.lookup]
  · simp [Emr.aggregate, List.lookup, Emr.alertOf]


theorem emrDb_string_or_null :
    ∀ l ∈ Emr.collected emrDb "1" Emr.labsSql,
      l.get "result" = .null ∨ ∃ s, l.get "result" = .str s := by
  intro l hl
  have h2 : Emr.collected emrDb "1" Emr.labsSql =
      [[("test_type", .str "CBC"), ("test_date", .str "2025-03-01"),
        ("result", .str "Abnormal WBC")],
       [("test_type", .str "X-ray"), ("test_date", .str "2025-02-01"),
        ("result", .null)]] := rfl
  rw [h2] at hl
  simp only [List.mem_cons, List.mem_singleton, List.not_mem_nil, or_false] at hl
  rcases hl with rfl | rfl
  · exact Or.inr ⟨"Abnormal WBC", rfl⟩
  · exact Or.inl rfl

theorem emr_alerts_witness :
    emrDb.query Emr.patientSql [.str "1"] = .ok [emrPatient] ∧
    ∃ keep : Record → Bool,
      (∀ l, keep l = true ↔ ∃ s, l.get "result" = .str s ∧ ContainsAbnormal s) ∧
      (Emr.get emrDb "2025-03-02T00:00:00.000Z" "1").response.status = 200 ∧
      (Emr.get emrDb "2025-03-02T00:00:00.000Z" "1").response.body.lookup "labs" =
        some (.arr (Emr.collected emrDb "1" Emr.labsSql)) ∧
      (Emr.get emrDb "2025-03-02T00:00:00.000Z" "1").response.body.lookup "alerts" =
        some (.arr (((Emr.collected emrDb "1" Emr.labsSql).filter keep).map fun l =>
          [("message", .str ("Abnormal lab: " ++ (l.get "test_type").toJsString)),
           ("timestamp", l.get "test_date")])) :=
  ⟨rfl, emr_alerts emrDb "2025-03-02T00:00:00.000Z" "1" emrPatient [] rfl
    emrDb_string_or_null⟩

/-- C16 (evaluated at the failing input): patient 1 exists and has no lab rows, and the
alerts of the aggregate are the empty array, not the placeholder 'No alerts': the array
on the left of `||` is truthy even when empty. -/
theorem emr_no_placeholder (now : String) :
    (Emr.get emrNoLabsDb now "1").response.status = 200 ∧
    (Emr.get emrNoLabsDb now "1").response.body.lookup "labs" = some (.arr []) ∧
    (Emr.get emrNoLabsDb now "1").response.body.lookup "alerts" = some (.arr []) :=
  ⟨rfl, rfl, rfl⟩


/-! ## Dates and times of appointments in the claims' words -/

theorem digitRun_iff (n : Nat) (w : List Char) :
    (w.length = n ∧ ∀ c ∈ w, isDigit c = true) ↔ DigitRun n w := by
  simp only [DigitRun, isDigit_iff]

theorem Regex.lang_digits_seq (n : Nat) (r : Regex) (w : List Char) :
    (Regex.seq (Regex.times (Regex.cls isDigit) n) r).Lang w ↔
      ∃ x y, w = x ++ y ∧ DigitRun n x ∧ r.Lang y := by
  simp only [Regex.Lang, Regex.lang_times_cls, digitRun_iff]

theorem Regex.lang_char_seq (d : Char) (r : Regex) (w : List Char) :
    (Regex.seq (Regex.cls (· == d)) r).Lang w ↔ ∃ v, w = d :: v ∧ r.Lang v := by
  rw [Regex.lang_cls_seq]
  constructor
  · rintro ⟨c, v, rfl, hc, hv⟩
    have hcd : c = d := by simpa using hc
    exact ⟨v, by rw [hcd], hv⟩
  · rintro ⟨v, rfl, hv⟩
    exact ⟨d, v, rfl, by simp, hv⟩

theorem Appointments.dateRe_lang (w : List Char) :
    Appointments.dateRe.Lang w ↔ ∃ y m d : List Char, DigitRun 4 y ∧ DigitRun 2 m ∧
      DigitRun 2 d ∧ w = y ++ '-' :: (m ++ '-' :: d) := by
  unfold Appointments.dateRe
  constructor
  · intro h
    obtain ⟨y, w1, rfl, hy, h1⟩ := (Regex.lang_digits_seq _ _ _).1 h
    obtain ⟨w2, rfl, h2⟩ := (Regex.lang_char_seq _ _ _).1 h1
    obtain ⟨m, w3, rfl, hm, h3⟩ := (Regex.lang_digits_seq _ _ _).1 h2
    obtain ⟨d, rfl, h4⟩ := (Regex.lang_char_seq _ _ _).1 h3
    exact ⟨y, m, d, hy, hm, (digitRun_iff _ _).1 ((Regex.lang_times_cls _ _ _).1 h4), rfl⟩
  · rintro ⟨y, m, d, hy, hm, hd, rfl⟩
    refine (Regex.lang_digits_seq _ _ _).2 ⟨y, _, rfl, hy, ?_⟩
    refine (Regex.lang_char_seq _ _ _).2 ⟨_, rfl, ?_⟩
    refine (Regex.lang_digits_seq _ _ _).2 ⟨m, _, rfl, hm, ?_⟩
    refine (Regex.lang_char_seq _ _ _).2 ⟨_, rfl, ?_⟩
    exact (Regex.lang_times_cls _ _ _).2 ((digitRun_iff _ _).2 hd)

theorem Appointments.timeRe_lang (w : List Char) :
    Appointments.timeRe.Lang w ↔
      (∃ h m : List Char, DigitRun 2 h ∧ DigitRun 2 m ∧ w = h ++ ':' :: m) ∨
      (∃ h m c : List Char, DigitRun 2 h ∧ DigitRun 2 m ∧ DigitRun 2 c ∧
        w = h ++ ':' :: (m ++ ':' :: c)) := by
  unfold Appointments.timeRe
  constructor
  · intro h0
    obtain ⟨h, w1, rfl, hh, h1⟩ := (Regex.lang_digits_seq _ _ _).1 h0
    obtain ⟨w2, rfl, h2⟩ := (Regex.lang_char_seq _ _ _).1 h1
    obtain ⟨m, w3, rfl, hm, h3⟩ := (Regex.lang_digits_seq _ _ _).1 h2
    rcases h3 with h3 | h3
    · obtain ⟨c, rfl, h4⟩ := (Regex.lang_char_seq _ _ _).1 h3
      exact Or.inr ⟨h, m, c, hh, hm,
        (digitRun_iff _ _).1 ((Regex.lang_times_cls _ _ _).1 h4), rfl⟩
    · have h5 : w3 = [] := h3
      subst h5
      exact Or.inl ⟨h, m, hh, hm, by simp⟩
  · rintro (⟨h, m, hh, hm, rfl⟩ | ⟨h, m, c, hh, hm, hc, rfl⟩)
    · refine (Regex.lang_digits_seq _ _ _).2 ⟨h, _, rfl, hh, ?_⟩
      refine (Regex.lang_char_seq _ _ _).2 ⟨_, rfl, ?_⟩
      refine (Regex.lang_digits_seq _ _ _).2 ⟨m, [], by simp, hm, ?_⟩
      exact Or.inr rfl
    · refine (Regex.lang_digits_seq _ _ _).2 ⟨h, _, rfl, hh, ?_⟩
      refine (Regex.lang_char_seq _ _ _).2 ⟨_, rfl, ?_⟩
      refine (Regex.lang_digits_seq _ _ _).2 ⟨m, _, rfl, hm, ?_⟩
      exact Or.inl ((Regex.lang_char_seq _ _ _).2 ⟨_, rfl,
        (Regex.lang_times_cls _ _ _).2 ((digitRun_iff _ _).2 hc)⟩)

theorem Appointments.dateRe_test_iff (s : String) :
    Appointments.dateRe.test s = true ↔ DateForm s := by
  simp only [Regex.test, Regex.matchChars_iff, Appointments.dateRe_lang, DateForm]

theorem Appointments.timeRe_test_iff (s : String) :
    Appointments.timeRe.test s = true ↔ TimeShort s ∨ TimeLong s := by
  simp only [Regex.test, Regex.matchChars_iff, Appointments.timeRe_lang, TimeShort, TimeLong]

theorem Appointments.dateTest_str (s : String) :
    Appointments.dateTest (.str s) = .ok (Appointments.dateRe.test s) := rfl

theorem Appointments.timeTest_str (s : String) :
    Appointments.timeTest (.str s) = .ok (Appointments.timeRe.test s) := rfl

theorem Appointments.dateTest_str_iff (s : String) :
    Appointments.dateTest (.str s) = .ok true ↔ DateForm s := by
  rw [Appointments.dateTest_str, ← Appointments.dateRe_test_iff]
  constructor
  · intro h
    exact Except.ok.inj h
  · intro h
    rw [h]

theorem Appointments.timeTest_str_iff (s : String) :
    Appointments.timeTest (.str s) = .ok true ↔ TimeShort s ∨ TimeLong s := by
  rw [Appointments.timeTest_str, ← Appointments.timeRe_test_iff]
  constructor
  · intro h
    exact Except.ok.inj h
  · intro h
    rw [h]


/-! ## Normalisation of the time -/

theorem splitChars_length (sep : Char) (w : List Char) :
    (splitChars sep w).length = w.count sep + 1 := by
  induction w with
  | nil => rfl
  | cons c cs ih =>
    by_cases h : c = sep
    · subst h
      simp [splitChars, ih]
    · have hne : (c == sep) = false := by simpa using h
      simp only [splitChars, h, if_false, List.count_cons, hne]
      cases hs : splitChars sep cs with
      | nil => simp [hs] at ih
      | cons part parts => simpa [hs] using ih

theorem digitRun_no_colon (n : Nat) (w : List Char) (h : DigitRun n w) : w.count ':' = 0 := by
  rw [List.count_eq_zero]
  intro hmem
  have := (h.2 ':' hmem).2
  exact absurd this (by decide)

theorem timeShort_parts (t : String) (h : TimeShort t) :
    (splitChars ':' t.toList).length = 2 := by
  obtain ⟨hh, m, h1, h2, ht⟩ := h
  rw [splitChars_length, ht]
  simp [List.count_cons, digitRun_no_colon 2 hh h1, digitRun_no_colon 2 m h2]

theorem timeLong_parts (t : String) (h : TimeLong t) :
    (splitChars ':' t.toList).length = 3 := by
  obtain ⟨hh, m, c, h1, h2, h3, ht⟩ := h
  rw [splitChars_length, ht]
  simp [List.count_cons, digitRun_no_colon 2 hh h1, digitRun_no_colon 2 m h2,
    digitRun_no_colon 2 c h3]

theorem timeShort_append_seconds (t : String) (h : TimeShort t) : TimeLong (t ++ ":00") := by
  obtain ⟨hh, m, h1, h2, ht⟩ := h
  refine ⟨hh, m, ['0', '0'], h1, h2, ⟨rfl, by decide⟩, ?_⟩
  have : (t ++ ":00").toList = t.toList ++ [':', '0', '0'] := by
    simp [String.toList]
  rw [this, ht]
  simp

theorem Appointments.fullTime_short (t : String) (h : TimeShort t) :
    Appointments.fullTime (.str t) = .ok (.str (t ++ ":00")) := by
  unfold Appointments.fullTime
  simp only [timeShort_parts t h, if_true]

theorem Appointments.fullTime_long (t : String) (h : TimeLong t) :
    Appointments.fullTime (.str t) = .ok (.str t) := by
  unfold Appointments.fullTime
  simp only [timeLong_parts t h]
  rw [if_neg (by decide)]

/-! ## Creating an appointment -/

theorem stringField_truthy (v : JsVal) (h : StringField v) : v.truthy = false ↔ Blank v := by
  rcases h with rfl | ⟨s, rfl⟩
  · simp [JsVal.truthy, Blank]
  · simp [JsVal.truthy, Blank]

theorem Appointments.post_of_checks (db : Db) (body : JsObject) (t : String)
    (htime : body.get "time" = .str t)
    (hv : (body.get "patientName").truthy = true ∧ (body.get "doctorName").truthy = true ∧
      (body.get "date").truthy = true ∧ (body.get "time").truthy = true ∧
      (body.get "reason").truthy = true)
    (hd : Appointments.dateTest (body.get "date") = .ok true)
    (ht : Appointments.timeTest (body.get "time") = .ok true) :
    Appointments.post db body =
      match db.exec Appointments.insertSql
          [body.get "patientName", body.get "doctorName", body.get "date",
            .str (if (splitChars ':' t.toList).length = 2 then t ++ ":00" else t),
            body.get "reason", (body.get "status").orElse (.str "scheduled")] with
      | .error msg =>
        ⟨errorResp 500 msg, [⟨.insert, Appointments.insertSql,
          [body.get "patientName", body.get "doctorName", body.get "date",
            .str (if (splitChars ':' t.toList).length = 2 then t ++ ":00" else t),
            body.get "reason", (body.get "status").orElse (.str "scheduled")]⟩]⟩
      | .ok result =>
        ⟨.sent 201 [("id", .val (.num result.insertId)),
                ("message", .val (.str "Appointment created successfully"))],
          [⟨.insert, Appointments.insertSql,
            [body.get "patientName", body.get "doctorName", body.get "date",
              .str (if (splitChars ':' t.toList).length = 2 then t ++ ":00" else t),
              body.get "reason", (body.get "status").orElse (.str "scheduled")]⟩]⟩ := by
  obtain ⟨h1, h2, h3, h4, h5⟩ := hv
  simp only [Appointments.post, h1, h2, h3, h4, h5, hd, ht, Bool.not_true, Bool.or_self,
    Bool.false_eq_true, if_false]
  rw [htime]
  simp only [Appointments.fullTime]


theorem blank_or_nonempty (v : JsVal) (h : StringField v) (hb : ¬ Blank v) :
    v.truthy = true ∧ ∃ s, v = .str s := by
  rcases h with rfl | ⟨s, rfl⟩
  · exact absurd (Or.inl rfl) hb
  · refine ⟨?_, s, rfl⟩
    cases ht : (JsVal.str s).truthy with
    | true => rfl
    | false => exact absurd ((stringField_truthy _ (Or.inr ⟨s, rfl⟩)).1 ht) hb

/-- C17 (refuted as stated): the body passes all three checks, the store throws on the
`INSERT`, and the handler answers 500 with the store's message instead of 201. -/
theorem post_appointment_store_throws :
    Appointments.post throwingDb validAppointment =
      ⟨errorResp 500 "connection lost",
        [⟨.insert, Appointments.insertSql,
          [.str "Ann", .str "Dr. Grey", .str "2025-10-12", .str "09:30:00", .str "checkup",
            .str "scheduled"]⟩]⟩ := by
  decide

/-- C17 (amended): for a create body whose five fields are missing or strings, the handler
answers 400 without issuing a statement when a field is missing or empty, else when the
date is not four digits, `-`, two digits, `-`, two digits, else when the time is not two
digits, `:`, two digits with an optional `:` and two digits, each with its own message; in
every other case it issues exactly one `INSERT`, and answers 201 with the generated id when
the store executes it and 500 with the store's message when the store throws. -/
theorem post_appointment_cases (db : Db) (body : JsObject)
    (h1 : StringField (body.get "patientName")) (h2 : StringField (body.get "doctorName"))
    (h3 : StringField (body.get "date")) (h4 : StringField (body.get "time"))
    (h5 : StringField (body.get "reason")) :
    ((Blank (body.get "patientName") ∨ Blank (body.get "doctorName") ∨
        Blank (body.get "date") ∨ Blank (body.get "time") ∨ Blank (body.get "reason")) →
      Appointments.post db body =
        ⟨errorResp 400 "Missing required fields: patientName, doctorName, date, time, reason",
          []⟩) ∧
    (¬ (Blank (body.get "patientName") ∨ Blank (body.get "doctorName") ∨
        Blank (body.get "date") ∨ Blank (body.get "time") ∨ Blank (body.get "reason")) →
      (∀ s, body.get "date" = .str s → ¬ DateForm s) →
      Appointments.post db body =
        ⟨errorResp 400 "Invalid date format (use YYYY-MM-DD)", []⟩) ∧
    (¬ (Blank (body.get "patientName") ∨ Blank (body.get "doctorName") ∨
        Blank (body.get "date") ∨ Blank (body.get "time") ∨ Blank (body.get "reason")) →
      (∃ s, body.get "date" = .str s ∧ DateForm s) →
      (∀ t, body.get "time" = .str t → ¬ (TimeShort t ∨ TimeLong t)) →
      Appointments.post db body =
        ⟨errorResp 400 "Invalid time format (use HH:MM or HH:MM:SS)", []⟩) ∧
    (¬ (Blank (body.get "patientName") ∨ Blank (body.get "doctorName") ∨
        Blank (body.get "date") ∨ Blank (body.get "time") ∨ Blank (body.get "reason")) →
      (∃ s, body.get "date" = .str s ∧ DateForm s) →
      (∃ t, body.get "time" = .str t ∧ (TimeShort t ∨ TimeLong t)) →
      ∃ q, (Appointments.post db body).issued = [q] ∧ q.verb = SqlVerb.insert ∧
        q.sql = Appointments.insertSql ∧
        (∀ hdr, db.exec q.sql q.params = .ok hdr →
          (Appointments.post db body).response =
            .sent 201 [("id", .val (.num hdr.insertId)),
                   ("message", .val (.str "Appointment created successfully"))]) ∧
        (∀ msg, db.exec q.sql q.params = .error msg →
          (Appointments.post db body).response = errorResp 500 msg)) := by
  refine ⟨?_, ?_, ?_, ?_⟩
  · intro hb
    have hf : (body.get "patientName").truthy = false ∨ (body.get "doctorName").truthy = false ∨
        (body.get "date").truthy = false ∨ (body.get "time").truthy = false ∨
        (body.get "reason").truthy = false := by
      rcases hb with h | h | h | h | h
      · exact Or.inl ((stringField_truthy _ h1).2 h)
      · exact Or.inr (Or.inl ((stringField_truthy _ h2).2 h))
      · exact Or.inr (Or.inr (Or.inl ((stringField_truthy _ h3).2 h)))
      · exact Or.inr (Or.inr (Or.inr (Or.inl ((stringField_truthy _ h4).2 h))))
      · exact Or.inr (Or.inr (Or.inr (Or.inr ((stringField_truthy _ h5).2 h))))
    unfold Appointments.post
    rcases hf with h | h | h | h | h <;> simp [h]
  · intro hb hdate
    simp only [not_or] at hb
    obtain ⟨b1, b2, b3, b4, b5⟩ := hb
    have t1 := (blank_or_nonempty _ h1 b1).1
    have t2 := (blank_or_nonempty _ h2 b2).1
    obtain ⟨t3, s, hs⟩ := blank_or_nonempty _ h3 b3
    have t4 := (blank_or_nonempty _ h4 b4).1
    have t5 := (blank_or_nonempty _ h5 b5).1
    have hd : Appointments.dateTest (body.get "date") = .ok false := by
      rw [hs, Appointments.dateTest_str]
      cases hc : Appointments.dateRe.test s with
      | false => rfl
      | true => exact absurd ((Appointments.dateRe_test_iff s).1 hc) (hdate s hs)
    simp [Appointments.post, t1, t2, t3, t4, t5, hd]
  · intro hb hdate htime
    simp only [not_or] at hb
    obtain ⟨b1, b2, b3, b4, b5⟩ := hb
    have t1 := (blank_or_nonempty _ h1 b1).1
    have t2 := (blank_or_nonempty _ h2 b2).1
    have t3 := (blank_or_nonempty _ h3 b3).1
    obtain ⟨t4, t, ht⟩ := blank_or_nonempty _ h4 b4
    have t5 := (blank_or_nonempty _ h5 b5).1
    obtain ⟨s, hs, hsd⟩ := hdate
    have hd : Appointments.dateTest (body.get "date") = .ok true := by
      rw [hs]
      exact (Appointments.dateTest_str_iff s).2 hsd
    have hti : Appointments.timeTest (body.get "time") = .ok false := by
      rw [ht, Appointments.timeTest_str]
      cases hc : Appointments.timeRe.test t with
      | false => rfl
      | true => exact absurd ((Appointments.timeRe_test_iff t).1 hc) (htime t ht)
    simp [Appointments.post, t1, t2, t3, t4, t5, hd, hti]
  · intro hb hdate htime
    simp only [not_or] at hb
    obtain ⟨b1, b2, b3, b4, b5⟩ := hb
    have t1 := (blank_or_nonempty _ h1 b1).1
    have t2 := (blank_or_nonempty _ h2 b2).1
    have t3 := (blank_or_nonempty _ h3 b3).1
    have t4 := (blank_or_nonempty _ h4 b4).1
    have t5 := (blank_or_nonempty _ h5 b5).1
    obtain ⟨s, hs, hsd⟩ := hdate
    obtain ⟨t, ht, htf⟩ := htime
    have hd : Appointments.dateTest (body.get "date") = .ok true := by
      rw [hs]
      exact (Appointments.dateTest_str_iff s).2 hsd
    have hti : Appointments.timeTest (body.get "time") = .ok true := by
      rw [ht]
      exact (Appointments.timeTest_str_iff t).2 htf
    have hp := Appointments.post_of_checks db body t ht ⟨t1, t2, t3, t4, t5⟩ hd hti
    refine ⟨⟨.insert, Appointments.insertSql,
      [body.get "patientName", body.get "doctorName", body.get "date",
        .str (if (splitChars ':' t.toList).length = 2 then t ++ ":00" else t),
        body.get "reason", (body.get "status").orElse (.str "scheduled")]⟩, ?_, rfl, rfl, ?_, ?_⟩
    · rw [hp]
      split <;> rfl
    · intro hdr hex
      rw [hp]
      simp only at hex
      rw [hex]
    · intro msg hex
      rw [hp]
      simp only at hex
      rw [hex]


theorem post_appointment_cases_witness :
    ∃ q, (Appointments.post sampleDb validAppointment).issued = [q] ∧
      q.verb = SqlVerb.insert ∧ q.sql = Appointments.insertSql ∧
      (∀ hdr, sampleDb.exec q.sql q.params = .ok hdr →
        (Appointments.post sampleDb validAppointment).response =
          .sent 201 [("id", .val (.num hdr.insertId)),
                 ("message", .val (.str "Appointment created successfully"))]) ∧
      (∀ msg, sampleDb.exec q.sql q.params = .error msg →
        (Appointments.post sampleDb validAppointment).response = errorResp 500 msg) :=
  (post_appointment_cases sampleDb validAppointment (Or.inr ⟨"Ann", rfl⟩)
    (Or.inr ⟨"Dr. Grey", rfl⟩) (Or.inr ⟨"2025-10-12", rfl⟩) (Or.inr ⟨"09:30", rfl⟩)
    (Or.inr ⟨"checkup", rfl⟩)).2.2.2
    (by
      rintro (h | h | h | h | h) <;> rcases h with h | h <;> exact absurd h (by decide))
    ⟨"2025-10-12", rfl, ['2', '0', '2', '5'], ['1', '0'], ['1', '2'], ⟨rfl, by decide⟩,
      ⟨rfl, by decide⟩, ⟨rfl, by decide⟩, rfl⟩
    ⟨"09:30", rfl, Or.inl ⟨['0', '9'], ['3', '0'], ⟨rfl, by decide⟩, ⟨rfl, by decide⟩, rfl⟩⟩

theorem Appointments.post_of_other_time (db : Db) (body : JsObject)
    (htime : ∀ t, body.get "time" ≠ .str t)
    (hv : (body.get "patientName").truthy = true ∧ (body.get "doctorName").truthy = true ∧
      (body.get "date").truthy = true ∧ (body.get "time").truthy = true ∧
      (body.get "reason").truthy = true)
    (hd : Appointments.dateTest (body.get "date") = .ok true)
    (ht : Appointments.timeTest (body.get "time") = .ok true) :
    Appointments.post db body = ⟨errorResp 500 Appointments.notAFunction, []⟩ := by
  obtain ⟨h1, h2, h3, h4, h5⟩ := hv
  simp only [Appointments.post, h1, h2, h3, h4, h5, hd, ht, Bool.not_true, Bool.or_self,
    Bool.false_eq_true, if_false]
  cases hc : body.get "time" with
  | str t => exact absurd hc (htime t)
  | _ => rfl

/-- C18 (refuted as stated): the body passes the three checks of the create handler, since
the array `['09:30']` converts to the string `09:30` for the pattern test; but an array has
no `split`, the `catch` block answers 500 and no `INSERT` is issued, so no time is stored
at all. -/
theorem post_array_time_fails :
    (JsVal.arr (.cons (.str "09:30") .nil)).truthy = true ∧
    Appointments.dateTest (.str "2025-10-12") = .ok true ∧
    Appointments.timeTest (.arr (.cons (.str "09:30") .nil)) = .ok true ∧
    Appointments.post sampleDb
        [("patientName", .str "Ann"), ("doctorName", .str "Dr. Grey"),
         ("date", .str "2025-10-12"), ("time", .arr (.cons (.str "09:30") .nil)),
         ("reason", .str "checkup")] =
      ⟨errorResp 500 "time.split is not a function", []⟩ := by
  decide

/-- C18 (amended): for a create body that passes the three checks of the handler: when its
time is a string, that string has the form HH:MM or HH:MM:SS, exactly one `INSERT` is
issued, and the time it binds has the form HH:MM:SS, the input followed by `:00` for HH:MM
and the input itself for HH:MM:SS; when its time is not a string, the handler answers 500
and issues no `INSERT`. -/
theorem post_time_has_seconds (db : Db) (body : JsObject)
    (hv : (body.get "patientName").truthy = true ∧ (body.get "doctorName").truthy = true ∧
      (body.get "date").truthy = true ∧ (body.get "time").truthy = true ∧
      (body.get "reason").truthy = true)
    (hd : Appointments.dateTest (body.get "date") = .ok true)
    (ht : Appointments.timeTest (body.get "time") = .ok true) :
    (∀ t, body.get "time" = .str t →
      ∃ full, (TimeShort t ∨ TimeLong t) ∧
        (Appointments.post db body).issued =
          [⟨.insert, Appointments.insertSql,
            [body.get "patientName", body.get "doctorName", body.get "date", .str full,
              body.get "reason", (body.get "status").orElse (.str "scheduled")]⟩] ∧
        TimeLong full ∧ (TimeShort t → full = t ++ ":00") ∧ (TimeLong t → full = t)) ∧
    ((∀ t, body.get "time" ≠ .str t) →
      Appointments.post db body = ⟨errorResp 500 "time.split is not a function", []⟩) := by
  refine ⟨?_, fun hne => Appointments.post_of_other_time db body hne hv hd ht⟩
  intro t htime
  have hform : TimeShort t ∨ TimeLong t := by
    rw [htime] at ht
    exact (Appointments.timeTest_str_iff t).1 ht
  have hp := Appointments.post_of_checks db body t htime hv hd ht
  refine ⟨if (splitChars ':' t.toList).length = 2 then t ++ ":00" else t, hform,
    ?_, ?_, ?_, ?_⟩
  · rw [hp]
    split <;> rfl
  · rcases hform with h | h
    · rw [if_pos (timeShort_parts t h)]
      exact timeShort_append_seconds t h
    · rw [timeLong_parts t h, if_neg (by decide)]
      exact h
  · intro h
    rw [if_pos (timeShort_parts t h)]
  · intro h
    rw [timeLong_parts t h, if_neg (by decide)]

theorem post_time_has_seconds_witness :
    ∃ full, (TimeShort "09:30" ∨ TimeLong "09:30") ∧
      (Appointments.post sampleDb validAppointment).issued =
        [⟨.insert, Appointments.insertSql,
          [JsObject.get validAppointment "patientName",
            JsObject.get validAppointment "doctorName", JsObject.get validAppointment "date",
            .str full, JsObject.get validAppointment "reason",
            (JsObject.get validAppointment "status").orElse (.str "scheduled")]⟩] ∧
      TimeLong full ∧ (TimeShort "09:30" → full = "09:30" ++ ":00") ∧
      (TimeLong "09:30" → full = "09:30") :=
  (post_time_has_seconds sampleDb validAppointment (by decide) (by decide) (by decide)).1
    "09:30" rfl

/-! ## Updating an appointment -/

theorem timeLong_has_colon (t : String) (h : TimeLong t) : ':' ∈ t.toList := by
  obtain ⟨hh, m, c, _, _, _, ht⟩ := h
  rw [ht]
  simp

/-- C19 (evaluated at the failing input): the body supplies the non-empty time `'12'`, which
splits on `:` into one part, and the `UPDATE` binds `'12'` itself, without seconds, although
the handler comments the step with 'Ensure time has seconds' and the create handler rejects
such a time; likewise `'noon'` is bound as it is. Neither has the form HH:MM:SS. -/
theorem put_time_unvalidated :
    (Appointments.put sampleDb "3" [("time", .str "12")]).issued =
      [⟨.update, "UPDATE appointments SET time = ? WHERE id = ?", [.str "12", .str "3"]⟩] ∧
    ¬ TimeLong "12" ∧
    (Appointments.put sampleDb "3" [("time", .str "noon")]).issued =
      [⟨.update, "UPDATE appointments SET time = ? WHERE id = ?", [.str "noon", .str "3"]⟩] ∧
    ¬ TimeLong "noon" ∧
    (Appointments.post sampleDb [("patientName", .str "Ann"), ("doctorName", .str "Dr. Grey"),
        ("date", .str "2025-10-12"), ("time", .str "12"), ("reason", .str "checkup")]) =
      ⟨errorResp 400 "Invalid time format (use HH:MM or HH:MM:SS)", []⟩ :=
  ⟨by decide, fun h => absurd (timeLong_has_colon "12" h) (by decide), by decide,
    fun h => absurd (timeLong_has_colon "noon" h) (by decide), by decide⟩

/-- What the update handler binds for a time that is a non-empty string: exactly one
`UPDATE` is issued and the time it binds, just before the id, is the supplied time followed
by `:00` when splitting it on `:` gives exactly two parts and the supplied time otherwise;
the bound time has the form HH:MM:SS whenever the supplied one has the form HH:MM or
HH:MM:SS. -/
theorem put_time_normalised (db : Db) (id : String) (body : JsObject) (t : String)
    (htime : body.get "time" = .str t) (hne : t ≠ "") :
    ∃ q full, (Appointments.put db id body).issued = [q] ∧ q.verb = SqlVerb.update ∧
      q.params = (if body.get "status" != .undefined then [body.get "status"] else []) ++
        (if body.get "reason" != .undefined then [body.get "reason"] else []) ++
        (if (body.get "date").truthy then [body.get "date"] else []) ++
        [.str full, .str id] ∧
      full = (if (splitChars ':' t.toList).length = 2 then t ++ ":00" else t) ∧
      (TimeShort t → full = t ++ ":00") ∧ (TimeLong t → full = t) ∧
      (TimeShort t ∨ TimeLong t → TimeLong full) := by
  have htr : (JsVal.str t).truthy = true := by simp [JsVal.truthy, hne]
  refine ⟨⟨.update,
      sliceEnd ((Appointments.putFields (body.get "status") (body.get "reason")
        (body.get "date")).1 ++ "time = ?, ") 2 ++ " WHERE id = ?",
      (Appointments.putFields (body.get "status") (body.get "reason")
        (body.get "date")).2.1 ++
        [.str (if (splitChars ':' t.toList).length = 2 then t ++ ":00" else t)] ++ [.str id]⟩,
    if (splitChars ':' t.toList).length = 2 then t ++ ":00" else t, ?_, rfl, ?_, rfl, ?_, ?_, ?_⟩
  · simp only [Appointments.put, htime, Appointments.putTime, htr, if_true,
      Appointments.fullTime, Appointments.pushField]
    rw [if_neg (Nat.succ_ne_zero _)]
    split <;> [rfl; (split <;> rfl)]
  · simp only [Appointments.putFields, Appointments.pushField]
    by_cases c1 : body.get "status" = .undefined <;>
      by_cases c2 : body.get "reason" = .undefined <;>
      cases c3 : (body.get "date").truthy <;> simp [c1, c2]
  · intro h
    rw [if_pos (timeShort_parts t h)]
  · intro h
    rw [timeLong_parts t h, if_neg (by decide)]
  · rintro (h | h)
    · rw [if_pos (timeShort_parts t h)]
      exact timeShort_append_seconds t h
    · rw [timeLong_parts t h, if_neg (by decide)]
      exact h

theorem put_time_normalised_witness :
    ∃ q full, (Appointments.put sampleDb "3" [("time", .str "09:30")]).issued = [q] ∧
      q.verb = SqlVerb.update ∧
      q.params =
        (if JsObject.get [("time", .str "09:30")] "status" != .undefined then
          [JsObject.get [("time", .str "09:30")] "status"] else []) ++
        (if JsObject.get [("time", .str "09:30")] "reason" != .undefined then
          [JsObject.get [("time", .str "09:30")] "reason"] else []) ++
        (if (JsObject.get [("time", .str "09:30")] "date").truthy then
          [JsObject.get [("time", .str "09:30")] "date"] else []) ++
        [.str full, .str "3"] ∧
      full = (if (splitChars ':' "09:30".toList).length = 2 then "09:30" ++ ":00"
        else "09:30") ∧
      (TimeShort "09:30" → full = "09:30" ++ ":00") ∧ (TimeLong "09:30" → full = "09:30") ∧
      (TimeShort "09:30" ∨ TimeLong "09:30" → TimeLong full) :=
  put_time_normalised sampleDb "3" [("time", .str "09:30")] "09:30" rfl (by decide)


/-! ## Listing appointments -/

theorem Appointments.list_issued (db : Db) (query : Record) :
    (Appointments.list db query).issued = [Appointments.listQuery query] := by
  cases h : db.query (Appointments.listQuery query).sql
      (Appointments.listQuery query).params <;>
    simp only [Appointments.list, h]

theorem Appointments.list_of_rows (db : Db) (query : Record) (rows : List Record)
    (h : db.query (Appointments.listQuery query).sql (Appointments.listQuery query).params =
      .ok rows) :
    Appointments.list db query = ⟨200, .array rows, [Appointments.listQuery query]⟩ := by
  simp only [Appointments.list, h]

/-- C20: the list handler issues one `SELECT` whose conditions are those of the supplied
non-empty filters among patientName, date, status, in that order and joined by `AND`, with
`'%' + patientName + '%'`, the date and the status as parameters; there is no `WHERE` when
no filter is supplied; the text always ends with the ordering by date then time; the rows
the store returns for it are the response. With only the date `'2025-10-12'` the statement
selects on `DATE(date) = ?` alone. -/
theorem list_query_shape (db : Db) (query : Record) :
    (Appointments.list db query).issued =
      [⟨.select,
        (if ((Appointments.supplied query).map fun f => f.2.1).length > 0 then
            Appointments.listSql ++ (" WHERE " ++
              " AND ".intercalate ((Appointments.supplied query).map fun f => f.2.1))
          else Appointments.listSql) ++ " ORDER BY date ASC, time ASC",
        (Appointments.supplied query).map fun f => f.2.2 (query.get f.1)⟩] ∧
    (∀ q rows, (Appointments.list db query).issued = [q] → db.query q.sql q.params = .ok rows →
      (Appointments.list db query).status = 200 ∧
      (Appointments.list db query).payload = .array rows) ∧
    (Appointments.list db [("date", .str "2025-10-12")]).issued =
      [⟨.select,
        "SELECT id, patientName, doctorName, DATE(date) AS date, time, reason, status, createdAt, updatedAt FROM appointments WHERE DATE(date) = ? ORDER BY date ASC, time ASC",
        [.str "2025-10-12"]⟩] := by
  refine ⟨?_, ?_, ?_⟩
  · rw [Appointments.list_issued]
    simp only [Appointments.listQuery, Appointments.listFilters,
      Appointments.pushFilter, Appointments.supplied, Appointments.filterTable]
    cases c1 : (query.get "patientName").truthy <;> cases c2 : (query.get "date").truthy <;>
      cases c3 : (query.get "status").truthy <;> simp [List.filter, c1, c2, c3]
  · intro q rows hq hrows
    rw [Appointments.list_issued] at hq
    simp only [List.cons.injEq, and_true] at hq
    subst hq
    rw [Appointments.list_of_rows db query rows hrows]
    exact ⟨rfl, rfl⟩
  · rw [Appointments.list_issued]
    rfl


/-! ## The update handler of appointments, case by case -/

namespace Appointments

theorem fullTime_str (t : String) : fullTime (.str t) = .ok (.str (norm t)) := rfl

theorem putTime_falsy (time : JsVal) (acc : String × List JsVal × Nat)
    (h : time.truthy = false) : putTime time acc = .ok acc := by
  simp [putTime, h]

theorem putTime_str (t : String) (acc : String × List JsVal × Nat) (h : t ≠ "") :
    putTime (.str t) acc =
      .ok (acc.1 ++ "time = ?, ", acc.2.1 ++ [.str (norm t)], acc.2.2 + 1) := by
  have htr : (JsVal.str t).truthy = true := by simp [JsVal.truthy, h]
  simp only [putTime, htr, if_true, fullTime_str, pushField]

theorem putTime_other (time : JsVal) (acc : String × List JsVal × Nat)
    (h : time.truthy = true) (hns : ∀ t, time ≠ .str t) :
    putTime time acc = .error notAFunction := by
  cases time with
  | str t => exact absurd rfl (hns t)
  | undefined => simp [JsVal.truthy] at h
  | null => simp [JsVal.truthy] at h
  | bool b => simp [putTime, h, fullTime]
  | num n => simp [putTime, h, fullTime]
  | arr items => simp [putTime, h, fullTime]
  | obj fields => simp [putTime, h, fullTime]

theorem put_of_acc (db : Db) (id : String) (body : JsObject) (acc : String × List JsVal × Nat)
    (h : putTime (body.get "time")
      (putFields (body.get "status") (body.get "reason") (body.get "date")) = .ok acc) :
    put db id body =
      if acc.2.2 = 0 then ⟨errorResp 400 "No fields to update", []⟩
      else
        match db.exec (sliceEnd acc.1 2 ++ " WHERE id = ?") (acc.2.1 ++ [.str id]) with
        | .error msg =>
          ⟨errorResp 500 msg,
            [⟨.update, sliceEnd acc.1 2 ++ " WHERE id = ?", acc.2.1 ++ [.str id]⟩]⟩
        | .ok result =>
          if result.affectedRows = 0 then
            ⟨errorResp 404 "Appointment not found",
              [⟨.update, sliceEnd acc.1 2 ++ " WHERE id = ?", acc.2.1 ++ [.str id]⟩]⟩
          else
            ⟨messageResp 200 "Appointment updated",
              [⟨.update, sliceEnd acc.1 2 ++ " WHERE id = ?", acc.2.1 ++ [.str id]⟩]⟩ := by
  simp only [put, h]

theorem put_of_throw (db : Db) (id : String) (body : JsObject) (msg : String)
    (h : putTime (body.get "time")
      (putFields (body.get "status") (body.get "reason") (body.get "date")) = .error msg) :
    put db id body = ⟨errorResp 500 msg, []⟩ := by
  simp only [put, h]

/-- The statement text for the flags of the four tests, at least one of which holds. -/
theorem put_sql_of_flags (s r d t : Bool) (h : (s || r || d || t) = true) :
    sliceEnd ((((("UPDATE appointments SET " ++ (if s then "status = ?, " else "")) ++
        (if r then "reason = ?, " else "")) ++ (if d then "date = ?, " else "")) ++
        (if t then "time = ?, " else ""))) 2 ++ " WHERE id = ?" =
      "UPDATE appointments SET " ++
        ", ".intercalate
          (((if s then ["status"] else []) ++ (if r then ["reason"] else []) ++
            (if d then ["date"] else []) ++ (if t then ["time"] else [])).map (· ++ " = ?")) ++
        " WHERE id = ?" := by
  cases s <;> cases r <;> cases d <;> cases t <;> first | rfl | exact absurd h (by decide)

theorem placeholders_of_flags (s r d t : Bool) :
    placeholders ("UPDATE appointments SET " ++
        ", ".intercalate
          (((if s then ["status"] else []) ++ (if r then ["reason"] else []) ++
            (if d then ["date"] else []) ++ (if t then ["time"] else [])).map (· ++ " = ?")) ++
        " WHERE id = ?") =
      ((if s then ["status"] else []) ++ (if r then ["reason"] else []) ++
        (if d then ["date"] else []) ++ (if t then ["time"] else [])).length + 1 := by
  cases s <;> cases r <;> cases d <;> cases t <;> rfl

theorem putFields_shape (status reason date : JsVal) :
    putFields status reason date =
      ((("UPDATE appointments SET " ++ (if status != .undefined then "status = ?, " else "")) ++
          (if reason != .undefined then "reason = ?, " else "")) ++
          (if date.truthy then "date = ?, " else ""),
        (if status != .undefined then [status] else []) ++
          (if reason != .undefined then [reason] else []) ++
          (if date.truthy then [date] else []),
        ((if status != .undefined then ["status"] else []) ++
          (if reason != .undefined then ["reason"] else []) ++
          (if date.truthy then ["date"] else [])).length) := by
  simp only [putFields, pushField]
  cases (status != .undefined) <;> cases (reason != .undefined) <;> cases date.truthy <;> rfl

theorem put_acc_shape (body : JsObject) (acc : String × List JsVal × Nat)
    (h : putTime (body.get "time")
      (putFields (body.get "status") (body.get "reason") (body.get "date")) = .ok acc) :
    acc.1 =
      ((("UPDATE appointments SET " ++
          (if body.get "status" != .undefined then "status = ?, " else "")) ++
          (if body.get "reason" != .undefined then "reason = ?, " else "")) ++
          (if (body.get "date").truthy then "date = ?, " else "")) ++
          (if (body.get "time").truthy then "time = ?, " else "") ∧
    acc.2.1.length = (putColumns body).length ∧ acc.2.2 = (putColumns body).length := by
  rw [putFields_shape] at h
  cases ht : (body.get "time").truthy with
  | false =>
    rw [putTime_falsy _ _ ht] at h
    cases h
    simp only [putColumns, ht]
    cases (body.get "status" != .undefined) <;> cases (body.get "reason" != .undefined) <;>
      cases (body.get "date").truthy <;> exact ⟨rfl, rfl, rfl⟩
  | true =>
    by_cases hs : ∃ t, body.get "time" = .str t
    · obtain ⟨t, hts⟩ := hs
      have hne : t ≠ "" := by
        rintro rfl
        rw [hts] at ht
        exact absurd ht (by decide)
      rw [hts, putTime_str t _ hne] at h
      cases h
      simp only [putColumns, ht]
      cases (body.get "status" != .undefined) <;> cases (body.get "reason" != .undefined) <;>
        cases (body.get "date").truthy <;> exact ⟨rfl, rfl, rfl⟩
    · rw [putTime_other _ _ ht fun t e => hs ⟨t, e⟩] at h
      cases h

/-- Every statement the update handler issues, in terms of the columns of the body. -/
theorem put_issued (db : Db) (id : String) (body : JsObject) (q : Query)
    (hq : q ∈ (put db id body).issued) :
    q.verb = SqlVerb.update ∧
    q.sql = "UPDATE appointments SET " ++
      ", ".intercalate ((putColumns body).map (· ++ " = ?")) ++ " WHERE id = ?" ∧
    q.params.length = (putColumns body).length + 1 ∧
    q.params.getLast? = some (.str id) ∧ putColumns body ≠ [] := by
  cases hp : putTime (body.get "time")
      (putFields (body.get "status") (body.get "reason") (body.get "date")) with
  | error msg =>
    rw [put_of_throw db id body msg hp] at hq
    simp at hq
  | ok acc =>
    obtain ⟨h1, h2, h3⟩ := put_acc_shape body acc hp
    rw [put_of_acc db id body acc hp] at hq
    by_cases h0 : acc.2.2 = 0
    · rw [if_pos h0] at hq
      simp at hq
    · rw [if_neg h0] at hq
      have hne : putColumns body ≠ [] := by
        intro he
        rw [he] at h3
        exact h0 h3
      have hflags : ((body.get "status" != .undefined) || (body.get "reason" != .undefined) ||
          (body.get "date").truthy || (body.get "time").truthy) = true := by
        unfold putColumns at hne
        cases hs : (body.get "status" != .undefined) <;>
          cases hr : (body.get "reason" != .undefined) <;>
          cases hd : (body.get "date").truthy <;> cases ht : (body.get "time").truthy <;>
          simp [hs, hr, hd, ht] at hne ⊢
      have hq2 : q = ⟨.update, sliceEnd acc.1 2 ++ " WHERE id = ?", acc.2.1 ++ [.str id]⟩ := by
        split at hq
        · simpa using hq
        · split at hq <;> simpa using hq
      subst hq2
      refine ⟨rfl, ?_, ?_, ?_, hne⟩
      · show sliceEnd acc.1 2 ++ " WHERE id = ?" = _
        rw [h1, put_sql_of_flags _ _ _ _ hflags]
        rfl
      · simp [h2]
      · simp

end Appointments


theorem Appointments.put_ok_of_time (body : JsObject)
    (htime : (body.get "time").truthy = false ∨ ∃ t, body.get "time" = .str t) :
    ∃ acc, Appointments.putTime (body.get "time")
      (Appointments.putFields (body.get "status") (body.get "reason") (body.get "date")) =
        .ok acc := by
  cases ht : (body.get "time").truthy with
  | false => exact ⟨_, Appointments.putTime_falsy _ _ ht⟩
  | true =>
    rcases htime with h | ⟨t, h⟩
    · rw [h] at ht
      exact absurd ht (by decide)
    · have hne : t ≠ "" := by
        rintro rfl
        rw [h] at ht
        exact absurd ht (by decide)
      rw [h]
      exact ⟨_, Appointments.putTime_str t _ hne⟩

theorem Appointments.put_issued_length (db : Db) (id : String) (body : JsObject)
    (acc : String × List JsVal × Nat)
    (h : Appointments.putTime (body.get "time")
      (Appointments.putFields (body.get "status") (body.get "reason") (body.get "date")) =
        .ok acc)
    (h0 : acc.2.2 ≠ 0) :
    (Appointments.put db id body).issued =
      [⟨.update, sliceEnd acc.1 2 ++ " WHERE id = ?", acc.2.1 ++ [.str id]⟩] := by
  rw [Appointments.put_of_acc db id body acc h, if_neg h0]
  split
  · rfl
  · split <;> rfl

theorem Appointments.flags_of_all (s r d t : Bool)
    (h : ((if s then ["status"] else []) ++ (if r then ["reason"] else []) ++
        (if d then ["date"] else []) ++ (if t then ["time"] else []) : List String) =
      ["status", "reason", "date", "time"]) :
    s = true ∧ r = true ∧ d = true ∧ t = true := by
  cases s <;> cases r <;> cases d <;> cases t <;>
    first | exact ⟨rfl, rfl, rfl, rfl⟩ | exact absurd h (by decide)

/-- C21 (refuted as stated): the body supplies status, reason, date and the time 930, a
number; `time.split` is not a function, the `catch` block answers 500 and no `UPDATE` is
issued, so the four columns are not replaced. -/
theorem put_numeric_time_fails :
    Appointments.putColumns [("status", .str "done"), ("reason", .str "review"),
        ("date", .str "2025-10-12"), ("time", .num 930)] =
      ["status", "reason", "date", "time"] ∧
    Appointments.put sampleDb "3" [("status", .str "done"), ("reason", .str "review"),
        ("date", .str "2025-10-12"), ("time", .num 930)] =
      ⟨errorResp 500 "time.split is not a function", []⟩ :=
  ⟨by decide, by decide⟩

/-- C21 (amended): for an update body whose time is missing, empty or a string, every
`UPDATE` issued sets exactly the columns status and reason whose value is not `undefined`
and date and time whose value is non-empty, in this order, and binds one parameter per
column followed by the id; a body supplying all four issues the one `UPDATE` of all four;
and the handler answers 400 'No fields to update' without a write exactly when that column
set is empty, issuing one `UPDATE` otherwise. -/
theorem put_columns (db : Db) (id : String) (body : JsObject)
    (htime : (body.get "time").truthy = false ∨ ∃ t, body.get "time" = .str t) :
    (∀ q ∈ (Appointments.put db id body).issued,
      q.verb = SqlVerb.update ∧
      q.sql = "UPDATE appointments SET " ++
        ", ".intercalate ((Appointments.putColumns body).map (· ++ " = ?")) ++
        " WHERE id = ?" ∧
      q.params.length = (Appointments.putColumns body).length + 1 ∧
      q.params.getLast? = some (.str id)) ∧
    (Appointments.putColumns body = ["status", "reason", "date", "time"] →
      ∃ full, (Appointments.put db id body).issued =
        [⟨.update,
          "UPDATE appointments SET status = ?, reason = ?, date = ?, time = ? WHERE id = ?",
          [body.get "status", body.get "reason", body.get "date", full, .str id]⟩]) ∧
    (((Appointments.put db id body).response = errorResp 400 "No fields to update" ∧
        (Appointments.put db id body).issued = []) ↔ Appointments.putColumns body = []) ∧
    (Appointments.putColumns body ≠ [] → (Appointments.put db id body).issued.length = 1) := by
  obtain ⟨acc, hacc⟩ := Appointments.put_ok_of_time body htime
  obtain ⟨h1, h2, h3⟩ := Appointments.put_acc_shape body acc hacc
  have hlen : Appointments.putColumns body ≠ [] → (Appointments.put db id body).issued =
      [⟨.update, sliceEnd acc.1 2 ++ " WHERE id = ?", acc.2.1 ++ [.str id]⟩] := by
    intro hne
    refine Appointments.put_issued_length db id body acc hacc ?_
    rw [h3]
    exact fun h => hne (List.length_eq_zero.1 h)
  refine ⟨?_, ?_, ?_, ?_⟩
  · intro q hq
    obtain ⟨a, b, c, d, _⟩ := Appointments.put_issued db id body q hq
    exact ⟨a, b, c, d⟩
  · intro hall
    obtain ⟨hs, hr, hd, ht⟩ := Appointments.flags_of_all _ _ _ _ hall
    rcases htime with hf | ⟨t, hts⟩
    · rw [hf] at ht
      exact absurd ht (by decide)
    · have hne : t ≠ "" := by
        rintro rfl
        rw [hts] at ht
        exact absurd ht (by decide)
      have hacc2 := hacc
      rw [hts, Appointments.putTime_str t _ hne, Appointments.putFields_shape] at hacc2
      simp only [hs, hr, hd, if_true] at hacc2
      cases hacc2
      refine ⟨.str (Appointments.norm t), ?_⟩
      rw [hlen (by rw [hall]; simp)]
      rfl
  · constructor
    · rintro ⟨_, hi⟩
      by_contra hne
      rw [hlen hne] at hi
      simp at hi
    · intro he
      have h0 : acc.2.2 = 0 := by rw [h3, he]; rfl
      rw [Appointments.put_of_acc db id body acc hacc, if_pos h0]
      exact ⟨rfl, rfl⟩
  · intro hne
    rw [hlen hne]
    rfl

theorem put_columns_witness :
    ∃ full, (Appointments.put sampleDb "3" [("status", .str "done"), ("reason", .str "review"),
        ("date", .str "2025-10-12"), ("time", .str "09:30")]).issued =
      [⟨.update,
        "UPDATE appointments SET status = ?, reason = ?, date = ?, time = ? WHERE id = ?",
        [JsObject.get [("status", .str "done"), ("reason", .str "review"),
            ("date", .str "2025-10-12"), ("time", .str "09:30")] "status",
          JsObject.get [("status", .str "done"), ("reason", .str "review"),
            ("date", .str "2025-10-12"), ("time", .str "09:30")] "reason",
          JsObject.get [("status", .str "done"), ("reason", .str "review"),
            ("date", .str "2025-10-12"), ("time", .str "09:30")] "date",
          full, .str "3"]⟩] :=
  (put_columns sampleDb "3" [("status", .str "done"), ("reason", .str "review"),
      ("date", .str "2025-10-12"), ("time", .str "09:30")]
    (Or.inr ⟨"09:30", rfl⟩)).2.1 (by decide)


/-! ## Deleting by id -/

theorem deleteById_cases (db : Db) (sql id notFound success : String)
    (caught : String → Response) :
    (deleteById db sql id notFound success caught).issued = [⟨.delete, sql, [.str id]⟩] ∧
    (∀ hdr, db.exec sql [.str id] = .ok hdr → hdr.affectedRows = 0 →
      (deleteById db sql id notFound success caught).response = errorResp 404 notFound) ∧
    (∀ hdr, db.exec sql [.str id] = .ok hdr → hdr.affectedRows ≠ 0 →
      (deleteById db sql id notFound success caught).response = messageResp 200 success) ∧
    (∀ msg, db.exec sql [.str id] = .error msg →
      (deleteById db sql id notFound success caught).response = caught msg) := by
  unfold deleteById
  refine ⟨?_, ?_, ?_, ?_⟩
  · split
    · rfl
    · split <;> rfl
  · intro hdr h h0
    simp [h, h0]
  · intro hdr h h0
    simp [h, h0]
  · intro msg h
    simp [h]

/-- C22 (refuted as stated): the store throws on the `DELETE`, which therefore affects no
row, and the patients router answers neither 404 nor a success message but the 500 of its
`catch` block. -/
theorem delete_store_throws :
    Patients.delete throwingDb "1" =
      ⟨errorDetails 500 "Failed to delete patient" "connection lost",
        [⟨.delete, "DELETE FROM patients WHERE id = ?", [.str "1"]⟩]⟩ := by
  decide

/-- C22 (amended): the delete handlers of patients (router and top-level), appointments,
lab records and telemedicine appointments each issue exactly one `DELETE` by id; when the
store executes it they answer 404 with an error envelope if and only if it affected zero
rows and a success message with status 200 otherwise; when the store throws they answer
500 with an error envelope. -/
theorem delete_cases (db : Db) (id : String) (handler : Db → String → Outcome)
    (hh : handler ∈ [Patients.delete, Server.delete, Appointments.delete, Lab.delete,
      Telemedicine.delete]) :
    ∃ sql, (handler db id).issued = [⟨.delete, sql, [.str id]⟩] ∧
      (∀ hdr, db.exec sql [.str id] = .ok hdr →
        (((handler db id).response.status = 404 ∧
            ∃ e, (handler db id).response.body = [("error", .val (.str e))]) ↔
          hdr.affectedRows = 0) ∧
        (hdr.affectedRows ≠ 0 →
          (handler db id).response.status = 200 ∧
          ∃ m, (handler db id).response.body = [("message", .val (.str m))])) ∧
      (∀ msg, db.exec sql [.str id] = .error msg →
        (handler db id).response.status = 500 ∧
        ∃ e, (handler db id).response.body.lookup "error" = some (.val (.str e))) := by
  have key : ∀ (sql notFound success : String) (caught : String → Response),
      (∀ msg, (caught msg).status = 500 ∧
        ∃ e, (caught msg).body.lookup "error" = some (.val (.str e))) →
      ∃ sql', (deleteById db sql id notFound success caught).issued =
          [⟨.delete, sql', [.str id]⟩] ∧
        (∀ hdr, db.exec sql' [.str id] = .ok hdr →
          (((deleteById db sql id notFound success caught).response.status = 404 ∧
              ∃ e, (deleteById db sql id notFound success caught).response.body =
                [("error", .val (.str e))]) ↔
            hdr.affectedRows = 0) ∧
          (hdr.affectedRows ≠ 0 →
            (deleteById db sql id notFound success caught).response.status = 200 ∧
            ∃ m, (deleteById db sql id notFound success caught).response.body =
              [("message", .val (.str m))])) ∧
        (∀ msg, db.exec sql' [.str id] = .error msg →
          (deleteById db sql id notFound success caught).response.status = 500 ∧
          ∃ e, (deleteById db sql id notFound success caught).response.body.lookup "error" =
            some (.val (.str e))) := by
    intro sql notFound success caught hc
    obtain ⟨h1, h2, h3, h4⟩ := deleteById_cases db sql id notFound success caught
    refine ⟨sql, h1, ?_, ?_⟩
    · intro hdr hex
      constructor
      · constructor
        · rintro ⟨hs, _⟩
          by_contra h0
          rw [h3 hdr hex h0] at hs
          have hs2 : (200 : Nat) = 404 := hs
          exact absurd hs2 (by decide)
        · intro h0
          rw [h2 hdr hex h0]
          exact ⟨rfl, notFound, rfl⟩
      · intro h0
        rw [h3 hdr hex h0]
        exact ⟨rfl, success, rfl⟩
    · intro msg hex
      rw [h4 msg hex]
      exact hc msg
  simp only [List.mem_cons, List.mem_singleton, List.not_mem_nil, or_false] at hh
  rcases hh with rfl | rfl | rfl | rfl | rfl
  · exact key _ _ _ _ fun msg => ⟨rfl, "Failed to delete patient", rfl⟩
  · exact key _ _ _ _ fun _ => ⟨rfl, "Database error deleting patient", rfl⟩
  · exact key _ _ _ _ fun msg => ⟨rfl, msg, rfl⟩
  · exact key _ _ _ _ fun _ => ⟨rfl, "Failed to delete lab record", rfl⟩
  · exact key _ _ _ _ fun _ => ⟨rfl, "Failed to cancel", rfl⟩

theorem delete_cases_witness :
    ∃ sql, (Lab.delete emptyDb "7").issued = [⟨.delete, sql, [.str "7"]⟩] ∧
      (∀ hdr, emptyDb.exec sql [.str "7"] = .ok hdr →
        (((Lab.delete emptyDb "7").response.status = 404 ∧
            ∃ e, (Lab.delete emptyDb "7").response.body = [("error", .val (.str e))]) ↔
          hdr.affectedRows = 0) ∧
        (hdr.affectedRows ≠ 0 →
          (Lab.delete emptyDb "7").response.status = 200 ∧
          ∃ m, (Lab.delete emptyDb "7").response.body = [("message", .val (.str m))])) ∧
      (∀ msg, emptyDb.exec sql [.str "7"] = .error msg →
        (Lab.delete emptyDb "7").response.status = 500 ∧
        ∃ e, (Lab.delete emptyDb "7").response.body.lookup "error" = some (.val (.str e))) :=
  delete_cases emptyDb "7" Lab.delete (by simp)


/-! ## The envelopes of the patch handler -/

/-- C23 (refuted as stated): the email of the body is the object `{"toString": 0}`; the
email check, which runs before `try`, throws while converting it to a string, the exception
escapes the handler, and the handler sends neither a success nor an error envelope and asks
the store nothing, although patient 1 exists. -/
theorem patch_object_email_escapes :
    Patients.patch sampleDb "1" [("email", .obj (.cons "toString" (.num 0) .nil))] =
      ⟨.unsent "Cannot convert object to primitive value", []⟩ ∧
    (Patients.patch sampleDb "1"
      [("email", .obj (.cons "toString" (.num 0) .nil))]).response.body.lookup "message" =
        none ∧
    (Patients.patch sampleDb "1"
      [("email", .obj (.cons "toString" (.num 0) .nil))]).response.body.lookup "error" =
        none :=
  ⟨rfl, rfl, rfl⟩

/-- C23 (amended): for a body whose email and phone can be converted to strings, whatever
the id and the answers of the store, the response of the patch handler of the patients
router is either status 200 with a string `message` and no `error`, or status 400, 404 or
500 with a string `error` and no `message`; when the patient exists and the `UPDATE`
reports zero affected rows, it is the 400 envelope 'No changes applied'. -/
theorem patch_envelope (db : Db) (id : String) (body : JsObject)
    (he : (body.get "email").Converts) (hp : (body.get "phone").Converts) :
    (((Patients.patch db id body).response.status = 200 ∧
        (∃ m, (Patients.patch db id body).response.body.lookup "message" =
          some (.val (.str m))) ∧
        (Patients.patch db id body).response.body.lookup "error" = none) ∨
      (((Patients.patch db id body).response.status = 400 ∨
          (Patients.patch db id body).response.status = 404 ∨
          (Patients.patch db id body).response.status = 500) ∧
        (∃ e, (Patients.patch db id body).response.body.lookup "error" =
          some (.val (.str e))) ∧
        (Patients.patch db id body).response.body.lookup "message" = none)) ∧
    (∀ q hdr, q ∈ (Patients.patch db id body).issued → q.verb = SqlVerb.update →
      db.exec q.sql q.params = .ok hdr → hdr.affectedRows = 0 →
      (Patients.patch db id body).response = errorResp 400 "No changes applied") := by
  obtain ⟨r, hv⟩ := Patients.patchValidate_converts (body.get "name") (body.get "email")
    (body.get "phone") (body.get "dob") (body.get "address") (body.get "notes")
    (body.get "status") he hp
  cases r with
  | some msg =>
    rw [Patients.patch_of_invalid db id body msg hv]
    refine ⟨Or.inr ⟨Or.inl rfl, ⟨msg, rfl⟩, rfl⟩, ?_⟩
    intro q hdr hq
    simp at hq
  | none =>
    cases hsel : db.query (Patients.selectQuery id).sql (Patients.selectQuery id).params with
    | error msg =>
      rw [Patients.patch_of_throw db id body msg hv hsel]
      refine ⟨Or.inr ⟨Or.inr (Or.inr rfl), ⟨"Failed to update patient", rfl⟩, rfl⟩, ?_⟩
      intro q hdr hq hu
      simp only [List.mem_singleton] at hq
      subst hq
      simp [Patients.selectQuery] at hu
    | ok rows =>
      cases rows with
      | nil =>
        rw [Patients.patch_of_absent db id body hv hsel]
        refine ⟨Or.inr ⟨Or.inr (Or.inl rfl), ⟨"Patient not found", rfl⟩, rfl⟩, ?_⟩
        intro q hdr hq hu
        simp only [List.mem_singleton] at hq
        subst hq
        simp [Patients.selectQuery] at hu
      | cons existing0 rest =>
        rw [Patients.patch_of_existing db id body existing0 rest hv hsel]
        constructor
        · cases hex : db.exec
              (Patients.updateQuery (Patients.buildUpdates existing0 (body.get "name")
                (body.get "email") (body.get "phone") (body.get "dob") (body.get "address")
                (body.get "notes") (body.get "status")) id).sql
              (Patients.updateQuery (Patients.buildUpdates existing0 (body.get "name")
                (body.get "email") (body.get "phone") (body.get "dob") (body.get "address")
                (body.get "notes") (body.get "status")) id).params with
          | error msg =>
            exact Or.inr ⟨Or.inr (Or.inr rfl), ⟨"Failed to update patient", rfl⟩, rfl⟩
          | ok hdr =>
            by_cases h0 : hdr.affectedRows = 0
            · simp only [h0, if_true]
              exact Or.inr ⟨Or.inl rfl, ⟨"No changes applied", rfl⟩, rfl⟩
            · simp only [h0, if_false]
              exact Or.inl ⟨rfl, ⟨"Patient updated successfully", rfl⟩, rfl⟩
        · intro q hdr hq hu hex h0
          simp only [List.mem_cons, List.mem_singleton, List.not_mem_nil, or_false] at hq
          rcases hq with rfl | rfl
          · simp [Patients.selectQuery] at hu
          · simp only [hex, h0, if_true]


theorem patch_envelope_witness :
    ((JsObject.get [("name", .str "Bob")] "email").Converts ∧
      (JsObject.get [("name", .str "Bob")] "phone").Converts) ∧
    (Patients.patch sampleDb "1" [("name", .str "Bob")]).response.status = 200 ∧
    (Patients.patch sampleDb "1" [("name", .str "Bob")]).response.body.lookup "message" =
      some (.val (.str "Patient updated successfully")) ∧
    ((Patients.patch sampleDb "1" [("name", .str "Bob")]).response.status = 200 ∧
        (∃ m, (Patients.patch sampleDb "1" [("name", .str "Bob")]).response.body.lookup
          "message" = some (.val (.str m))) ∧
        (Patients.patch sampleDb "1" [("name", .str "Bob")]).response.body.lookup "error" =
          none ∨
      ((Patients.patch sampleDb "1" [("name", .str "Bob")]).response.status = 400 ∨
          (Patients.patch sampleDb "1" [("name", .str "Bob")]).response.status = 404 ∨
          (Patients.patch sampleDb "1" [("name", .str "Bob")]).response.status = 500) ∧
        (∃ e, (Patients.patch sampleDb "1" [("name", .str "Bob")]).response.body.lookup
          "error" = some (.val (.str e))) ∧
        (Patients.patch sampleDb "1" [("name", .str "Bob")]).response.body.lookup "message" =
          none) :=
  ⟨⟨⟨"undefined", rfl⟩, ⟨"undefined", rfl⟩⟩, rfl, rfl,
    (patch_envelope sampleDb "1" [("name", .str "Bob")] ⟨"undefined", rfl⟩
      ⟨"undefined", rfl⟩).1⟩


/-! ## The order of registration in `server.js` -/

theorem Server.dispatch_appointments (method : String) (rest : List String)
    (h : Server.isPreflight method = false) :
    Server.dispatch ⟨method, "api" :: "appointments" :: rest, true⟩ = some Server.catchAll := by
  have e1 : Server.sameSegment "api" "api" = true := by decide
  have e2 : Server.sameSegment "telemedicine" "appointments" = false := by decide
  have e3 : Server.sameSegment "emr" "appointments" = false := by decide
  have e4 : Server.sameSegment "lab" "appointments" = false := by decide
  have e5 : Server.sameSegment "patients" "appointments" = false := by decide
  have e6 : Server.sameSegment "register" "api" = false := by decide
  have e7 : Server.sameSegment "login" "api" = false := by decide
  have e8 : Server.sameSegment "forgot" "api" = false := by decide
  have e9 : Server.sameSegment "reset" "api" = false := by decide
  have e10 : Server.sameSegment "reset.html" "api" = false := by decide
  have e11 : Server.sameSegment "metrics" "api" = false := by decide
  have e12 : Server.sameSegment "favicon.ico" "api" = false := by decide
  have e13 : Server.sameSegment "debug" "api" = false := by decide
  simp [Server.dispatch, Server.registered, List.find?, Server.Matcher.answers,
    Server.underMount, Server.routeMatches, Server.Route.handles, Server.catchAll, h, e1, e2,
    e3, e4, e5, e6, e7, e8, e9, e10, e11, e12, e13]

/-- C24 (evaluated at the failing input): under first-match dispatch over the handlers in
the order `server.js` registers them, a request to any path under `/api/appointments`
whose method is not `OPTIONS` and whose body the parsers accept, such as
`GET /api/appointments` or `PUT /api/appointments/3`, is answered by the catch-all 404
handler, which is registered before the appointments router; an `OPTIONS` request is
answered by `cors`; the last registered handler is the appointments router, not the
catch-all. -/
theorem appointments_unreachable (rest : List String) :
    (∀ method, Server.isPreflight method = false →
      Server.dispatch ⟨method, "api" :: "appointments" :: rest, true⟩ =
        some ⟨"catch-all 404", .all⟩) ∧
    Server.dispatch ⟨"GET", ["api", "appointments"], true⟩ = some ⟨"catch-all 404", .all⟩ ∧
    Server.dispatch ⟨"PUT", ["api", "appointments", "3"], true⟩ =
      some ⟨"catch-all 404", .all⟩ ∧
    Server.dispatch ⟨"OPTIONS", "api" :: "appointments" :: rest, true⟩ =
      some ⟨"cors", .cors⟩ ∧
    Server.registered.getLast? = some Server.appointmentsMount ∧
    Server.registered.indexOf Server.catchAll <
      Server.registered.indexOf Server.appointmentsMount :=
  ⟨fun method h => Server.dispatch_appointments method rest h,
    Server.dispatch_appointments "GET" [] (by decide),
    Server.dispatch_appointments "PUT" ["3"] (by decide), rfl, by decide, by decide⟩


/-! ## The normalisation of the time is idempotent -/

theorem parts_append_seconds (t : String) :
    (splitChars ':' (t ++ ":00").toList).length = (splitChars ':' t.toList).length + 1 := by
  have h : (t ++ ":00").toList = t.toList ++ [':', '0', '0'] := by
    simp [String.toList]
  rw [h, splitChars_length, splitChars_length, List.count_append]
  rfl

/-- C25: the normalisation used by create and update, `t + ':00'` when splitting `t` on `:`
gives exactly two parts and `t` otherwise, is idempotent on every string; it is what the
handlers compute on a string; and a value that already has a `:` and to which the browser
client has appended `:00` is left as it is. -/
theorem norm_idempotent (t : String) :
    Appointments.norm (Appointments.norm t) = Appointments.norm t ∧
    Appointments.fullTime (.str t) = .ok (.str (Appointments.norm t)) ∧
    (2 ≤ (splitChars ':' t.toList).length →
      Appointments.norm (clientTime t) = clientTime t) := by
  refine ⟨?_, rfl, ?_⟩
  · unfold Appointments.norm
    by_cases h : (splitChars ':' t.toList).length = 2
    · rw [if_pos h]
      have h3 := parts_append_seconds t
      rw [h] at h3
      rw [if_neg (by rw [h3]; decide)]
    · rw [if_neg h, if_neg h]
  · intro h
    unfold Appointments.norm clientTime
    have h3 := parts_append_seconds t
    rw [if_neg (by omega)]


/-! ## Placeholders and parameters -/

set_option maxRecDepth 8192 in
theorem Appointments.list_placeholders (query : Record) :
    placeholders (Appointments.listQuery query).sql =
      (Appointments.listQuery query).params.length := by
  simp only [Appointments.listQuery, Appointments.listFilters, Appointments.pushFilter]
  cases (query.get "patientName").truthy <;> cases (query.get "date").truthy <;>
    cases (query.get "status").truthy <;> rfl

/-- C26: every statement the list handler issues and every statement the update handler
issues has as many `?` placeholders as bound parameters, and the update statement reads
`UPDATE appointments SET`, then the non-empty list of `column = ?` joined by `, ` with
nothing after the last one, then ` WHERE id = ?`. -/
theorem placeholders_match (db : Db) (query : Record) (id : String) (body : JsObject) :
    (∀ q ∈ (Appointments.list db query).issued, placeholders q.sql = q.params.length) ∧
    (∀ q ∈ (Appointments.put db id body).issued,
      placeholders q.sql = q.params.length ∧
      Appointments.putColumns body ≠ [] ∧
      q.sql = "UPDATE appointments SET " ++
        ", ".intercalate ((Appointments.putColumns body).map (· ++ " = ?")) ++
        " WHERE id = ?") := by
  constructor
  · intro q hq
    rw [Appointments.list_issued] at hq
    simp only [List.mem_singleton] at hq
    subst hq
    exact Appointments.list_placeholders query
  · intro q hq
    obtain ⟨_, hsql, hlen, _, hne⟩ := Appointments.put_issued db id body q hq
    refine ⟨?_, hne, hsql⟩
    rw [hsql, hlen]
    exact Appointments.placeholders_of_flags _ _ _ _


/-! ## The statement text of the patch handler does not depend on values -/

theorem Patients.update_sql (db : Db) (id : String) (body : JsObject) (q : Query)
    (hq : q ∈ (Patients.patch db id body).issued) (hu : q.verb = SqlVerb.update) :
    q.sql = "UPDATE patients SET " ++
      ", ".intercalate
        ((Patients.patchFields.filter fun k => body.get k != .undefined).map (· ++ " = ?")) ++
      ", updated_at = NOW() WHERE id = ?" := by
  obtain ⟨existing0, rest, _, hv, rfl⟩ := Patients.patch_issued_update db id body q hq hu
  have hs := Patients.patchValidate_not_toggle _ _ _ _ _ _ _ hv
  rw [Patients.buildUpdates_eq existing0 body hs]
  simp [Patients.updateQuery, setClause, JsObject.keys, List.map_map, Function.comp_def]

/-- C27: two requests to the patch handler of the patients router whose bodies give a value
other than `undefined` to the same fields among name, email, phone, dob, address, notes,
status, and which both issue an `UPDATE`, issue the same statement text, whatever the
values, the ids, the other keys of the bodies and the stores. -/
theorem patch_sql_same_fields (db1 db2 : Db) (id1 id2 : String) (body1 body2 : JsObject)
    (q1 q2 : Query)
    (h1 : q1 ∈ (Patients.patch db1 id1 body1).issued) (hu1 : q1.verb = SqlVerb.update)
    (h2 : q2 ∈ (Patients.patch db2 id2 body2).issued) (hu2 : q2.verb = SqlVerb.update)
    (hsame : ∀ k ∈ Patients.patchFields,
      body1.get k = .undefined ↔ body2.get k = .undefined) :
    q1.sql = q2.sql := by
  rw [Patients.update_sql db1 id1 body1 q1 h1 hu1, Patients.update_sql db2 id2 body2 q2 h2 hu2]
  have hf : (Patients.patchFields.filter fun k => body1.get k != .undefined) =
      Patients.patchFields.filter fun k => body2.get k != .undefined := by
    apply List.filter_congr
    intro k hk
    have := hsame k hk
    by_cases c1 : body1.get k = .undefined
    · rw [c1, this.1 c1]
    · have c2 : body2.get k ≠ .undefined := fun h => c1 (this.2 h)
      have e1 : (body1.get k != .undefined) = true := by simpa using c1
      have e2 : (body2.get k != .undefined) = true := by simpa using c2
      rw [e1, e2]
  rw [hf]

theorem patch_sql_same_fields_witness :
    (⟨.update, "UPDATE patients SET name = ?, updated_at = NOW() WHERE id = ?",
        [.str "Bob", .str "1"]⟩ : Query).sql =
      (⟨.update, "UPDATE patients SET name = ?, updated_at = NOW() WHERE id = ?",
        [.str "Eve", .str "2"]⟩ : Query).sql :=
  patch_sql_same_fields sampleDb sampleDb "1" "2"
    [("name", .str "Bob"), ("role", .str "admin")] [("name", .str "Eve")]
    ⟨.update, "UPDATE patients SET name = ?, updated_at = NOW() WHERE id = ?",
      [.str "Bob", .str "1"]⟩
    ⟨.update, "UPDATE patients SET name = ?, updated_at = NOW() WHERE id = ?",
      [.str "Eve", .str "2"]⟩
    (by decide) rfl (by decide) rfl (by decide)


/-! ## Listing patients without an Accept header -/

/-- C28: a request to the top-level list handler whose headers have no `accept` entry is
answered 500 'Server error fetching patients' in every case, also when the query was
issued and the store returned rows; with an `accept` string and a successful query the
handler answers 200 with the rows, as JSON or, when `accept` contains `text/html`,
as the `pre` page of the same rows. -/
theorem list_without_accept (db : Db) (query : Record) :
    (∀ headers : Record, headers.get "accept" = .undefined →
      (Server.list db query headers).status = 500 ∧
      (Server.list db query headers).payload =
        .object [("error", .val (.str "Server error fetching patients"))]) ∧
    (∀ (headers : Record) search rows, headers.get "accept" = .undefined →
      Server.searchOf (query.get "search") = .ok search →
      db.query (Server.listQuery search).sql (Server.listQuery search).params = .ok rows →
      Server.list db query headers = Server.listFailed [Server.listQuery search]) ∧
    (∀ (headers : Record) accept search rows, headers.get "accept" = .str accept →
      Server.searchOf (query.get "search") = .ok search →
      db.query (Server.listQuery search).sql (Server.listQuery search).params = .ok rows →
      (Server.list db query headers).status = 200 ∧
      (Server.list db query headers).issued = [Server.listQuery search] ∧
      (Server.list db query headers).payload =
        if includes accept.toList "text/html".toList then .html rows else .array rows) := by
  refine ⟨?_, ?_, ?_⟩
  · intro headers hacc
    unfold Server.list
    cases Server.searchOf (query.get "search") with
    | error e => exact ⟨rfl, rfl⟩
    | ok search =>
      simp only
      cases db.query (Server.listQuery search).sql (Server.listQuery search).params with
      | error e => exact ⟨rfl, rfl⟩
      | ok rows =>
        simp only [hacc]
        exact ⟨rfl, rfl⟩
  · intro headers search rows hacc hs hq
    simp only [Server.list, hs, hq, hacc]
  · intro headers accept search rows hacc hs hq
    simp only [Server.list, hs, hq, hacc]
    split <;> exact ⟨rfl, rfl, rfl⟩


/-! ## The two patch handlers agree on plain bodies -/

theorem absentOrText_truthy (v : JsVal) (h : AbsentOrText v) :
    v.truthy = (v != .undefined) := by
  rcases h with rfl | ⟨s, rfl, hs⟩
  · rfl
  · have h1 : (JsVal.str s).truthy = true := by simp [JsVal.truthy, hs]
    have h2 : (JsVal.str s != JsVal.undefined) = true := by simp
    rw [h1, h2]

namespace Server

theorem topPresence_iff (name email phone dob notes status : JsVal) :
    (!name.truthy && !email.truthy && !phone.truthy && !dob.truthy &&
      notes == .undefined && !status.truthy) = false ↔
    (name.truthy = true ∨ email.truthy = true ∨ phone.truthy = true ∨ dob.truthy = true ∨
      notes ≠ .undefined ∨ status.truthy = true) := by
  cases name.truthy <;> cases email.truthy <;> cases phone.truthy <;> cases dob.truthy <;>
    cases status.truthy <;> simp

theorem topValidate_none_iff (name email phone dob notes status : JsVal) :
    patchValidate name email phone dob notes status = .ok none ↔
      (name.truthy = true ∨ email.truthy = true ∨ phone.truthy = true ∨ dob.truthy = true ∨
        notes ≠ .undefined ∨ status.truthy = true) ∧
      (email.truthy = true → emailTest email = .ok true) ∧
      (phone.truthy = true → phoneTest phone = .ok true) ∧
      (status.truthy = true → statusIncludes status = true) := by
  rw [← topPresence_iff, ← Patients.guard_ok_true, ← Patients.guard_ok_true]
  unfold patchValidate
  cases hP : (!name.truthy && !email.truthy && !phone.truthy && !dob.truthy &&
      notes == .undefined && !status.truthy)
  · simp only [Bool.false_eq_true, if_false, true_and]
    rcases (if email.truthy = true then emailTest email else .ok true) with e1 | (_ | _)
    · simp
    · simp
    · rcases (if phone.truthy = true then phoneTest phone else .ok true) with e2 | (_ | _)
      · simp
      · simp
      · cases status.truthy <;> cases statusIncludes status <;> simp
  · simp

theorem topValidate_error (name email phone dob notes status : JsVal) (thrown : String)
    (h : patchValidate name email phone dob notes status = .error thrown) :
    emailTest email = .error thrown ∨ phoneTest phone = .error thrown := by
  unfold patchValidate at h
  split at h
  · exact absurd h (by simp)
  · rcases hE : (if email.truthy = true then emailTest email else .ok true) with e1 | (_ | _)
    · rw [hE] at h
      simp only [Except.error.injEq] at h
      subst h
      exact Or.inl (Patients.guard_error _ _ _ hE)
    · rw [hE] at h
      exact absurd h (by simp)
    · rw [hE] at h
      simp only at h
      rcases hP : (if phone.truthy = true then phoneTest phone else .ok true) with e2 | (_ | _)
      · rw [hP] at h
        simp only [Except.error.injEq] at h
        subst h
        exact Or.inr (Patients.guard_error _ _ _ hP)
      · rw [hP] at h
        exact absurd h (by simp)
      · rw [hP] at h
        simp only at h
        split at h <;> exact absurd h (by simp)

theorem topValidate_converts (name email phone dob notes status : JsVal)
    (he : email.Converts) (hp : phone.Converts) :
    ∃ r, patchValidate name email phone dob notes status = .ok r := by
  rcases hv : patchValidate name email phone dob notes status with thrown | r
  · obtain ⟨b1, h1⟩ := Patients.testValue_converts emailRe.test email he
    obtain ⟨b2, h2⟩ := Patients.testValue_converts phoneRe.test phone hp
    rcases topValidate_error _ _ _ _ _ _ thrown hv with h | h
    · rw [emailTest, h1] at h
      exact absurd h (by simp)
    · rw [phoneTest, h2] at h
      exact absurd h (by simp)
  · exact ⟨r, rfl⟩

theorem topPatch_of_invalid (db : Db) (id : String) (body : JsObject) (msg : String)
    (h : patchValidate (body.get "name") (body.get "email") (body.get "phone") (body.get "dob")
      (body.get "notes") (body.get "status") = .ok (some msg)) :
    patch db id body = ⟨errorResp 400 msg, []⟩ := by
  simp only [patch, h]

theorem topPatch_of_throw (db : Db) (id : String) (body : JsObject) (msg : String)
    (h : patchValidate (body.get "name") (body.get "email") (body.get "phone") (body.get "dob")
      (body.get "notes") (body.get "status") = .ok none)
    (hsel : db.query (selectQuery id).sql (selectQuery id).params = .error msg) :
    patch db id body = ⟨errorDetails 500 "Server error" msg, [selectQuery id]⟩ := by
  simp only [patch, h, hsel]

theorem topPatch_of_absent (db : Db) (id : String) (body : JsObject)
    (h : patchValidate (body.get "name") (body.get "email") (body.get "phone") (body.get "dob")
      (body.get "notes") (body.get "status") = .ok none)
    (hsel : db.query (selectQuery id).sql (selectQuery id).params = .ok []) :
    patch db id body = ⟨errorResp 404 "Patient not found", [selectQuery id]⟩ := by
  simp only [patch, h, hsel]

theorem topPatch_of_existing (db : Db) (id : String) (body : JsObject)
    (existing0 : Record) (rest : List Record)
    (h : patchValidate (body.get "name") (body.get "email") (body.get "phone") (body.get "dob")
      (body.get "notes") (body.get "status") = .ok none)
    (hsel : db.query (selectQuery id).sql (selectQuery id).params = .ok (existing0 :: rest))
    (hne : (buildUpdates existing0 (body.get "name") (body.get "email") (body.get "phone")
      (body.get "dob") (body.get "notes") (body.get "status")).keys.length ≠ 0) :
    patch db id body =
      ⟨(match db.exec
            (updateQuery (buildUpdates existing0 (body.get "name") (body.get "email")
              (body.get "phone") (body.get "dob") (body.get "notes")
              (body.get "status")) id).sql
            (updateQuery (buildUpdates existing0 (body.get "name") (body.get "email")
              (body.get "phone") (body.get "dob") (body.get "notes")
              (body.get "status")) id).params with
        | .error msg => errorDetails 500 "Server error" msg
        | .ok result =>
          if result.affectedRows = 0 then errorResp 400 "No changes applied to patient"
          else .sent 200 [("message", .val (.str "Patient updated successfully")),
            ("updatedFields", .echo (buildUpdates existing0 (body.get "name")
              (body.get "email") (body.get "phone") (body.get "dob") (body.get "notes")
              (body.get "status")))]),
       [selectQuery id,
        updateQuery (buildUpdates existing0 (body.get "name") (body.get "email")
          (body.get "phone") (body.get "dob") (body.get "notes") (body.get "status")) id]⟩ := by
  simp only [patch, h, hsel, if_neg hne]
  split
  · rfl
  · split <;> rfl

end Server

theorem absentOrText_converts (v : JsVal) (h : AbsentOrText v) : v.Converts := by
  rcases h with rfl | ⟨s, rfl, _⟩
  · exact ⟨"undefined", rfl⟩
  · exact ⟨s, rfl⟩

theorem patchValidate_agree (name email phone dob notes status : JsVal)
    (hs : status.truthy = (status != .undefined)) :
    (Server.patchValidate name email phone dob notes status = .ok none ↔
      Patients.patchValidate name email phone dob .undefined notes status = .ok none) := by
  rw [Server.topValidate_none_iff, Patients.patchValidate_none_iff]
  have hst : status.truthy = true ↔ status ≠ .undefined := by
    rw [hs]
    simp
  have hu : ¬ (JsVal.undefined ≠ JsVal.undefined) := fun h => h rfl
  constructor
  · rintro ⟨h1, h2⟩
    refine ⟨?_, h2⟩
    rw [hst] at h1
    tauto
  · rintro ⟨h1, h2⟩
    refine ⟨?_, h2⟩
    rw [hst]
    tauto

theorem buildUpdates_agree (row1 row2 : Record) (name email phone dob notes status : JsVal)
    (hn : name.truthy = (name != .undefined)) (he : email.truthy = (email != .undefined))
    (hp : phone.truthy = (phone != .undefined)) (hd : dob.truthy = (dob != .undefined))
    (hs : status.truthy = (status != .undefined)) (ht : status ≠ .str "toggle") :
    Server.buildUpdates row1 name email phone dob notes status =
      Patients.buildUpdates row2 name email phone dob .undefined notes status := by
  simp only [Server.buildUpdates, Patients.buildUpdates, hn, he, hp, hd, hs, resolveStatus,
    if_neg ht]
  rfl


/-- C29: on a body whose name, email, phone, dob and status are each absent or a non-empty
string and whose address is absent, and on a store that answers the two existence checks
and the two writes alike (both throw, both find no row or both find one; both throw, both
affect no row or both affect some), the patch handler of `patients.js` and the one of
`server.js` answer with the same status, and each `UPDATE` one of them issues is built
from the very `updates` object, columns in order with their values, from which the other
builds the `UPDATE` it issues. -/
theorem patch_handlers_agree (db : Db) (id : String) (body : JsObject)
    (hn : AbsentOrText (body.get "name")) (he : AbsentOrText (body.get "email"))
    (hp : AbsentOrText (body.get "phone")) (hd : AbsentOrText (body.get "dob"))
    (hs : AbsentOrText (body.get "status")) (ha : body.get "address" = .undefined)
    (hsel : selectKind (db.query (Patients.selectQuery id).sql (Patients.selectQuery id).params) =
      selectKind (db.query (Server.selectQuery id).sql (Server.selectQuery id).params))
    (hexec : ∀ updates,
      execKind (db.exec (Patients.updateQuery updates id).sql
          (Patients.updateQuery updates id).params) =
        execKind (db.exec (Server.updateQuery updates id).sql
          (Server.updateQuery updates id).params)) :
    (Patients.patch db id body).response.status = (Server.patch db id body).response.status ∧
    (∀ q ∈ (Patients.patch db id body).issued, q.verb = SqlVerb.update →
      ∃ updates, q = Patients.updateQuery updates id ∧
        Server.updateQuery updates id ∈ (Server.patch db id body).issued) ∧
    (∀ q ∈ (Server.patch db id body).issued, q.verb = SqlVerb.update →
      ∃ updates, q = Server.updateQuery updates id ∧
        Patients.updateQuery updates id ∈ (Patients.patch db id body).issued) := by
  have tn := absentOrText_truthy _ hn
  have te := absentOrText_truthy _ he
  have tp := absentOrText_truthy _ hp
  have td := absentOrText_truthy _ hd
  have ts := absentOrText_truthy _ hs
  have hva := patchValidate_agree (body.get "name") (body.get "email") (body.get "phone")
    (body.get "dob") (body.get "notes") (body.get "status") ts
  rw [← ha] at hva
  obtain ⟨rp, hpv⟩ := Patients.patchValidate_converts (body.get "name") (body.get "email")
    (body.get "phone") (body.get "dob") (body.get "address") (body.get "notes")
    (body.get "status") (absentOrText_converts _ he) (absentOrText_converts _ hp)
  obtain ⟨rs, hsv⟩ := Server.topValidate_converts (body.get "name") (body.get "email")
    (body.get "phone") (body.get "dob") (body.get "notes") (body.get "status")
    (absentOrText_converts _ he) (absentOrText_converts _ hp)
  cases rp with
  | some m =>
    cases rs with
    | none => rw [hva.1 hsv] at hpv; cases hpv
    | some m2 =>
      rw [Patients.patch_of_invalid db id body m hpv, Server.topPatch_of_invalid db id body m2 hsv]
      refine ⟨rfl, ?_, ?_⟩ <;> intro q hq <;> simp at hq
  | none =>
    clear hsv
    have hsv := hva.2 hpv
    have hnt := Patients.patchValidate_not_toggle _ _ _ _ _ _ _ hpv
    cases h1 : db.query (Patients.selectQuery id).sql (Patients.selectQuery id).params with
    | error m1 =>
      cases h2 : db.query (Server.selectQuery id).sql (Server.selectQuery id).params with
      | error m2 =>
        rw [Patients.patch_of_throw db id body m1 hpv h1,
          Server.topPatch_of_throw db id body m2 hsv h2]
        refine ⟨rfl, ?_, ?_⟩ <;> intro q hq hu <;>
          simp only [List.mem_singleton] at hq <;> subst hq <;>
          simp [Patients.selectQuery, Server.selectQuery] at hu
      | ok rows2 =>
        rw [h1, h2] at hsel
        cases rows2 <;> simp [selectKind] at hsel
    | ok rows1 =>
      cases h2 : db.query (Server.selectQuery id).sql (Server.selectQuery id).params with
      | error m2 =>
        rw [h1, h2] at hsel
        cases rows1 <;> simp [selectKind] at hsel
      | ok rows2 =>
        cases rows1 with
        | nil =>
          cases rows2 with
          | cons r2 rest2 =>
            rw [h1, h2] at hsel
            simp [selectKind] at hsel
          | nil =>
            rw [Patients.patch_of_absent db id body hpv h1,
              Server.topPatch_of_absent db id body hsv h2]
            refine ⟨rfl, ?_, ?_⟩ <;> intro q hq hu <;>
              simp only [List.mem_singleton] at hq <;> subst hq <;>
              simp [Patients.selectQuery, Server.selectQuery] at hu
        | cons r1 rest1 =>
          cases rows2 with
          | nil =>
            rw [h1, h2] at hsel
            simp [selectKind] at hsel
          | cons r2 rest2 =>
            have hb := buildUpdates_agree r2 r1 (body.get "name") (body.get "email")
              (body.get "phone") (body.get "dob") (body.get "notes") (body.get "status")
              tn te tp td ts hnt
            rw [← ha] at hb
            have hne := Patients.buildUpdates_ne_nil r1 _ _ _ _ _ _ _
              (Patients.patchValidate_provided _ _ _ _ _ _ _ hpv)
            have hne2 := hne
            rw [← hb] at hne2
            have hP := Patients.patch_of_existing db id body r1 rest1 hpv h1
            have hS := Server.topPatch_of_existing db id body r2 rest2 hsv h2 hne2
            rw [hb] at hS
            have hk := hexec (Patients.buildUpdates r1 (body.get "name") (body.get "email")
              (body.get "phone") (body.get "dob") (body.get "address") (body.get "notes")
              (body.get "status"))
            rw [hP, hS]
            refine ⟨?_, ?_, ?_⟩
            · revert hk
              cases db.exec (Patients.updateQuery _ id).sql (Patients.updateQuery _ id).params with
              | error e1 =>
                cases db.exec (Server.updateQuery _ id).sql (Server.updateQuery _ id).params with
                | error e2 => intro _; rfl
                | ok r => intro hk; by_cases h0 : r.affectedRows = 0 <;> simp [execKind, h0] at hk
              | ok r1 =>
                cases db.exec (Server.updateQuery _ id).sql (Server.updateQuery _ id).params with
                | error e2 =>
                  intro hk
                  by_cases h0 : r1.affectedRows = 0 <;> simp [execKind, h0] at hk
                | ok r2 =>
                  intro hk
                  by_cases h0 : r1.affectedRows = 0 <;> by_cases h3 : r2.affectedRows = 0 <;>
                    simp [execKind, h0, h3] at hk ⊢ <;> rfl
            · intro q hq hu
              simp only [List.mem_cons, List.mem_singleton, List.not_mem_nil, or_false] at hq
              rcases hq with rfl | rfl
              · simp [Patients.selectQuery] at hu
              · exact ⟨_, rfl, by simp⟩
            · intro q hq hu
              simp only [List.mem_cons, List.mem_singleton, List.not_mem_nil, or_false] at hq
              rcases hq with rfl | rfl
              · simp [Server.selectQuery] at hu
              · exact ⟨_, rfl, by simp⟩


theorem patch_handlers_agree_witness :
    (Patients.patch sampleDb "1" [("name", .str "Bob")]).response.status =
      (Server.patch sampleDb "1" [("name", .str "Bob")]).response.status :=
  (patch_handlers_agree sampleDb "1" [("name", .str "Bob")] (Or.inr ⟨"Bob", rfl, by decide⟩)
    (Or.inl rfl) (Or.inl rfl) (Or.inl rfl) (Or.inl rfl) rfl rfl (fun _ => rfl)).1

/-! ## The occupancy in double precision -/

theorem bitsFuel_zero (fuel : Nat) : bitsFuel fuel 0 = 0 := by
  cases fuel <;> simp [bitsFuel]

theorem bitsFuel_spec (fuel n : Nat) (h : n ≤ fuel) :
    n < 2 ^ bitsFuel fuel n ∧ (n ≠ 0 → 2 ^ (bitsFuel fuel n - 1) ≤ n) := by
  induction fuel generalizing n with
  | zero =>
    have : n = 0 := by omega
    subst this
    simp [bitsFuel]
  | succ fuel ih =>
    by_cases hn : n = 0
    · subst hn
      simp [bitsFuel]
    · have hhalf : n / 2 ≤ fuel := by omega
      obtain ⟨hlt, hge⟩ := ih (n / 2) hhalf
      simp only [bitsFuel, hn, if_false, Nat.add_sub_cancel]
      constructor
      · rw [Nat.pow_succ]
        omega
      · intro _
        by_cases h2 : n / 2 = 0
        · rw [h2, bitsFuel_zero]
          simp
          omega
        · have hk := hge h2
          have hpos : bitsFuel fuel (n / 2) ≠ 0 := by
            intro h0
            rw [h0] at hlt
            simp at hlt
            exact h2 hlt
          have : 2 ^ bitsFuel fuel (n / 2) = 2 * 2 ^ (bitsFuel fuel (n / 2) - 1) := by
            conv_lhs => rw [← Nat.sub_add_cancel (Nat.pos_of_ne_zero hpos)]
            rw [Nat.pow_succ, Nat.mul_comm]
          rw [this]
          omega

theorem lt_pow_bitLength (n : Nat) : n < 2 ^ bitLength n :=
  (bitsFuel_spec n n (Nat.le_refl n)).1

theorem pow_bitLength_le (n : Nat) (h : n ≠ 0) : 2 ^ (bitLength n - 1) ≤ n :=
  (bitsFuel_spec n n (Nat.le_refl n)).2 h

theorem bitLength_le (n d k : Nat) (hn : n ≠ 0) (h : n < 2 ^ k * d) :
    bitLength n ≤ k + bitLength d := by
  have h1 := pow_bitLength_le n hn
  have h2 := lt_pow_bitLength d
  have h3 : 2 ^ (bitLength n - 1) < 2 ^ (k + bitLength d) := by
    calc 2 ^ (bitLength n - 1) ≤ n := h1
      _ < 2 ^ k * d := h
      _ ≤ 2 ^ k * 2 ^ bitLength d := Nat.mul_le_mul_left _ (Nat.le_of_lt h2)
      _ = 2 ^ (k + bitLength d) := (Nat.pow_add 2 k (bitLength d)).symm
  have h4 := (Nat.pow_lt_pow_iff_right (by decide : 1 < 2)).1 h3
  omega

theorem binExponent_le (n d k : Nat) (hn : n ≠ 0) (h : n < 2 ^ k * d) :
    binExponent n d ≤ (k : Int) := by
  have hb := bitLength_le n d k hn h
  unfold binExponent
  split <;> omega

theorem roundHalfEven_le (n d c : Nat) (hd : 0 < d) (h : n ≤ c * d) :
    roundHalfEven n d ≤ c := by
  have hq : n / d ≤ c := Nat.div_le_of_le_mul (by rw [Nat.mul_comm]; exact h)
  unfold roundHalfEven
  by_cases hlt : n / d < c
  · split
    · omega
    · split
      · omega
      · split <;> omega
  · have hqc : n / d = c := by omega
    have hmod : n % d = 0 := by
      have := Nat.div_add_mod n d
      rw [hqc] at this
      have h5 : d * c = c * d := Nat.mul_comm d c
      omega
    rw [hmod, hqc]
    simp [hd]


theorem roundToDouble_le (neg : Bool) (n d c : Nat) (hd : 0 < d)
    (he : binExponent n d ≤ 52) (hle : n ≤ c * d) :
    (roundToDouble neg n d).neg = neg ∧ 0 ≤ (roundToDouble neg n d).scale ∧
    (roundToDouble neg n d).mant ≤ c * 2 ^ (roundToDouble neg n d).scale.toNat := by
  unfold roundToDouble
  refine ⟨rfl, by simp only; omega, ?_⟩
  simp only
  have h0 : (binExponent n d - 52).toNat = 0 := by omega
  rw [h0, Nat.pow_zero, Nat.mul_one]
  apply roundHalfEven_le _ _ _ hd
  calc n * 2 ^ (52 - binExponent n d).toNat
      ≤ c * d * 2 ^ (52 - binExponent n d).toNat := Nat.mul_le_mul_right _ hle
    _ = c * 2 ^ (52 - binExponent n d).toNat * d := by
      rw [Nat.mul_assoc, Nat.mul_comm d, Nat.mul_assoc]

theorem divide_le_one (a b : Int) (ha : 0 < a) (hab : a ≤ b) :
    (divide a b).neg = false ∧ 0 ≤ (divide a b).scale ∧
    (divide a b).mant ≤ 1 * 2 ^ (divide a b).scale.toNat := by
  have hne : a ≠ 0 := by omega
  have hsign : (decide (a < 0) != decide (b < 0)) = false := by
    have h1 : decide (a < 0) = false := by simp; omega
    have h2 : decide (b < 0) = false := by simp; omega
    rw [h1, h2]
    rfl
  unfold divide
  rw [if_neg hne, hsign]
  have hn : a.natAbs ≠ 0 := by omega
  have hd : 0 < b.natAbs := by omega
  have hle : a.natAbs ≤ 1 * b.natAbs := by omega
  have he : binExponent a.natAbs b.natAbs ≤ 52 := by
    have := binExponent_le a.natAbs b.natAbs 1 hn (by omega)
    omega
  exact roundToDouble_le false _ _ 1 hd he hle

theorem times100_le (x : Double) (hneg : x.neg = false) (hs : 0 ≤ x.scale)
    (hm : x.mant ≤ 1 * 2 ^ x.scale.toNat) :
    (times100 x).neg = false ∧ 0 ≤ (times100 x).scale ∧
    (times100 x).mant ≤ 100 * 2 ^ (times100 x).scale.toNat := by
  unfold times100
  by_cases h0 : x.mant = 0
  · rw [if_pos h0]
    exact ⟨hneg, hs, by rw [h0]; exact Nat.zero_le _⟩
  · rw [if_neg h0]
    have hz : (-x.scale).toNat = 0 := by omega
    rw [hz, Nat.pow_zero, Nat.mul_one]
    have hpos : 0 < 2 ^ x.scale.toNat := Nat.pow_pos (by decide)
    have hle : x.mant * 100 ≤ 100 * 2 ^ x.scale.toNat := by omega
    have hn : x.mant * 100 ≠ 0 := by omega
    have he : binExponent (x.mant * 100) (2 ^ x.scale.toNat) ≤ 52 := by
      have := binExponent_le (x.mant * 100) (2 ^ x.scale.toNat) 7 hn (by
        have : (2 : Nat) ^ 7 = 128 := by decide
        omega)
      omega
    obtain ⟨h1, h2, h3⟩ := roundToDouble_le x.neg _ _ 100 hpos he hle
    exact ⟨by rw [h1, hneg], h2, h3⟩

theorem mathRound_le (x : Double) (c : Nat) (hneg : x.neg = false) (hs : 0 ≤ x.scale)
    (hm : x.mant ≤ c * 2 ^ x.scale.toNat) :
    0 ≤ mathRound x ∧ mathRound x ≤ (c : Int) := by
  unfold mathRound
  have hz : (-x.scale).toNat = 0 := by omega
  rw [hz, hneg]
  simp only [Bool.false_eq_true, if_false, pow_zero, mul_one]
  have hD : (0 : Int) < 2 ^ x.scale.toNat := by positivity
  have hmi : (x.mant : Int) ≤ (c : Int) * 2 ^ x.scale.toNat := by exact_mod_cast hm
  have hM : (0 : Int) ≤ (x.mant : Int) := Int.ofNat_nonneg _
  constructor
  · apply Int.ediv_nonneg <;> nlinarith
  · have : (2 * (x.mant : Int) + 2 ^ x.scale.toNat) / (2 * 2 ^ x.scale.toNat) < (c : Int) + 1 := by
      apply Int.ediv_lt_of_lt_mul
      · nlinarith
      · nlinarith
    omega


theorem roundHalfEven_err (n d : Nat) (hd : 0 < d) :
    2 * (roundHalfEven n d * d) ≤ 2 * n + d ∧ 2 * n ≤ 2 * (roundHalfEven n d * d) + d := by
  have hdm := Nat.div_add_mod n d
  have hlt := Nat.mod_lt n hd
  have hc : n / d * d = d * (n / d) := Nat.mul_comm _ _
  have hs : (n / d + 1) * d = d * (n / d) + d := by rw [Nat.add_mul, Nat.one_mul, hc]
  unfold roundHalfEven
  split
  · rw [hc]; omega
  · split
    · rw [hs]; omega
    · split
      · rw [hc]; omega
      · rw [hs]; omega

theorem roundToDouble_err (neg : Bool) (n d : Nat) (hd : 0 < d)
    (he : binExponent n d ≤ 52) :
    2 * ((roundToDouble neg n d).mant * d) ≤
        2 * (n * 2 ^ (roundToDouble neg n d).scale.toNat) + d ∧
    2 * (n * 2 ^ (roundToDouble neg n d).scale.toNat) ≤
        2 * ((roundToDouble neg n d).mant * d) + d := by
  unfold roundToDouble
  simp only
  have h0 : (binExponent n d - 52).toNat = 0 := by omega
  rw [h0, Nat.pow_zero, Nat.mul_one]
  exact roundHalfEven_err _ d hd

theorem round_close (n1 d1 n2 d2 : Int) (hd1 : 0 < d1) (hd2 : 0 < d2)
    (h : n1 * d2 ≤ n2 * d1 + d1 * d2) :
    (2 * n1 + d1) / (2 * d1) ≤ (2 * n2 + d2) / (2 * d2) + 1 := by
  have hk := Int.lt_ediv_add_one_mul_self (2 * n2 + d2) (show (0 : Int) < 2 * d2 by omega)
  have hgoal : (2 * n1 + d1) / (2 * d1) < (2 * n2 + d2) / (2 * d2) + 1 + 1 := by
    rw [Int.ediv_lt_iff_lt_mul (show (0 : Int) < 2 * d1 by omega)]
    have hk2 := mul_lt_mul_of_pos_right hk hd1
    have key : (2 * n1 + d1) * d2 <
        (((2 * n2 + d2) / (2 * d2) + 1 + 1) * (2 * d1)) * d2 := by
      nlinarith
    exact lt_of_mul_lt_mul_right key hd2.le
  omega


theorem divide_err (a b : Int) (ha : 0 < a) (hab : a ≤ b) :
    7 ≤ (divide a b).scale ∧
    2 * (((divide a b).mant : Int) * b) ≤ 2 * (a * 2 ^ (divide a b).scale.toNat) + b ∧
    2 * (a * 2 ^ (divide a b).scale.toNat) ≤ 2 * (((divide a b).mant : Int) * b) + b := by
  have hne : a ≠ 0 := by omega
  have hn : a.natAbs ≠ 0 := by omega
  have hd : 0 < b.natAbs := by omega
  have he1 : binExponent a.natAbs b.natAbs ≤ 1 := by
    have := binExponent_le a.natAbs b.natAbs 1 hn (by omega)
    omega
  unfold divide
  rw [if_neg hne]
  obtain ⟨h1, h2⟩ := roundToDouble_err (decide (a < 0) != decide (b < 0))
    a.natAbs b.natAbs hd (by omega)
  refine ⟨?_, ?_, ?_⟩
  · unfold roundToDouble
    simp only
    omega
  · have := (Int.ofNat_le.mpr h1)
    push_cast at this
    rw [abs_of_pos ha, abs_of_pos (show (0 : Int) < b by omega)] at this
    exact this
  · have := (Int.ofNat_le.mpr h2)
    push_cast at this
    rw [abs_of_pos ha, abs_of_pos (show (0 : Int) < b by omega)] at this
    exact this

theorem times100_err (x : Double) (hs : 0 ≤ x.scale)
    (hm : x.mant ≤ 1 * 2 ^ x.scale.toNat) :
    2 * ((times100 x).mant * 2 ^ x.scale.toNat) ≤
        2 * (x.mant * 100 * 2 ^ (times100 x).scale.toNat) + 2 ^ x.scale.toNat ∧
    2 * (x.mant * 100 * 2 ^ (times100 x).scale.toNat) ≤
        2 * ((times100 x).mant * 2 ^ x.scale.toNat) + 2 ^ x.scale.toNat := by
  unfold times100
  by_cases h0 : x.mant = 0
  · rw [if_pos h0, h0]
    simp
  · rw [if_neg h0]
    have hz : (-x.scale).toNat = 0 := by omega
    rw [hz, Nat.pow_zero, Nat.mul_one]
    have hpos : 0 < 2 ^ x.scale.toNat := Nat.pow_pos (by decide)
    have hn : x.mant * 100 ≠ 0 := by omega
    have he : binExponent (x.mant * 100) (2 ^ x.scale.toNat) ≤ 52 := by
      have := binExponent_le (x.mant * 100) (2 ^ x.scale.toNat) 7 hn (by
        have : (2 : Nat) ^ 7 = 128 := by decide
        omega)
      omega
    exact roundToDouble_err x.neg _ _ hpos he


theorem mathRound_eq (x : Double) (hneg : x.neg = false) (hs : 0 ≤ x.scale) :
    mathRound x =
      (2 * (x.mant : Int) + 2 ^ x.scale.toNat) / (2 * 2 ^ x.scale.toNat) := by
  unfold mathRound
  have hz : (-x.scale).toNat = 0 := by omega
  rw [hz, hneg]
  simp only [Bool.false_eq_true, if_false, pow_zero, mul_one]

theorem occupancy_close_pos (a b : Int) (ha : 0 < a) (hab : a ≤ b) :
    exactOccupancy a b ≤ Server.occupancy a b + 1 ∧
    Server.occupancy a b ≤ exactOccupancy a b + 1 := by
  have hb : 0 < b := by omega
  obtain ⟨hn1, hs1, hm1⟩ := divide_le_one a b ha hab
  obtain ⟨h7, e1a, e1b⟩ := divide_err a b ha hab
  obtain ⟨hn2, hs2, -⟩ := times100_le _ hn1 hs1 hm1
  obtain ⟨e2a, e2b⟩ := times100_err _ hs1 hm1
  have hocc : Server.occupancy a b = mathRound (times100 (divide a b)) := by
    unfold Server.occupancy
    rw [if_pos hb]
  rw [hocc, mathRound_eq _ hn2 hs2]
  unfold exactOccupancy
  have hP : (2 : Nat) ^ 7 ≤ 2 ^ (divide a b).scale.toNat :=
    Nat.pow_le_pow_right (by decide) (by omega)
  have hT : 0 < 2 ^ (times100 (divide a b)).scale.toNat := Nat.pow_pos (by decide)
  have hPi : (128 : Int) ≤ 2 ^ (divide a b).scale.toNat := by
    have := Int.ofNat_le.mpr hP
    push_cast at this
    omega
  have hTi : (1 : Int) ≤ 2 ^ (times100 (divide a b)).scale.toNat := by
    have := Int.ofNat_le.mpr hT
    push_cast at this
    omega
  have f2a := Int.ofNat_le.mpr e2a
  have f2b := Int.ofNat_le.mpr e2b
  push_cast at f2a f2b
  have hm1 : (0 : Int) ≤ ((divide a b).mant : Int) := Int.ofNat_nonneg _
  have hm2 : (0 : Int) ≤ ((times100 (divide a b)).mant : Int) := Int.ofNat_nonneg _
  generalize ((times100 (divide a b)).mant : Int) = m2 at *
  generalize (2 : Int) ^ (times100 (divide a b)).scale.toNat = t at *
  generalize ((divide a b).mant : Int) = m1 at *
  generalize (2 : Int) ^ (divide a b).scale.toNat = p at *
  have hpos2p : (0 : Int) < 2 * p := by omega
  have c1 : (p - 100) * (t * b) ≥ 0 :=
    mul_nonneg (by omega) (mul_nonneg (by omega) hb.le)
  have c2 : (t - 1) * (p * b) ≥ 0 :=
    mul_nonneg (by omega) (mul_nonneg (by omega) hb.le)
  have g1 : m2 * b ≤ a * 100 * t + t * b := by
    have key : (m2 * b) * (2 * p) ≤ (a * 100 * t + t * b) * (2 * p) := by
      nlinarith [mul_le_mul_of_nonneg_left f2a hb.le,
        mul_le_mul_of_nonneg_left e1a (show (0 : Int) ≤ 100 * t by omega)]
    exact le_of_mul_le_mul_right key hpos2p
  have g2 : a * 100 * t ≤ m2 * b + b * t := by
    have key : (a * 100 * t) * (2 * p) ≤ (m2 * b + b * t) * (2 * p) := by
      nlinarith [mul_le_mul_of_nonneg_left f2b hb.le,
        mul_le_mul_of_nonneg_left e1b (show (0 : Int) ≤ 100 * t by omega)]
    exact le_of_mul_le_mul_right key hpos2p
  exact ⟨round_close (a * 100) b m2 t hb (by omega) g2,
    round_close m2 t (a * 100) b (by omega) hb g1⟩


theorem occupancy_zero_beds (b : Int) (hb : 0 < b) :
    Server.occupancy 0 b = 0 ∧ exactOccupancy 0 b = 0 := by
  constructor
  · unfold Server.occupancy
    rw [if_pos hb]
    have hd : divide 0 b = ⟨false, 0, 0⟩ := by
      unfold divide
      rw [if_pos rfl]
    rw [hd]
    decide
  · unfold exactOccupancy
    exact Int.ediv_eq_zero_of_lt (by omega) (by omega)

theorem occupancy_range_pos (a b : Int) (ha : 0 < a) (hab : a ≤ b) :
    0 ≤ Server.occupancy a b ∧ Server.occupancy a b ≤ 100 := by
  have hb : 0 < b := by omega
  obtain ⟨hn1, hs1, hm1⟩ := divide_le_one a b ha hab
  obtain ⟨hn2, hs2, hm2⟩ := times100_le _ hn1 hs1 hm1
  unfold Server.occupancy
  rw [if_pos hb]
  exact mathRound_le _ 100 hn2 hs2 hm2

/-! ## C30: the occupancy of `/metrics/beds` -/

/-- C30 (refuted as stated): with 23 of 40 beds occupied the handler reports 57, although
`23 * 100 / 40` is 57.5 and rounds, a half going up, to 58: the quotient `23 / 40` is first
rounded to a double below 0.575, and so is its product with 100; 29 of 200 gives 14 where
the exact rounding gives 15. -/
theorem occupancy_not_exact :
    Server.occupancy 23 40 = 57 ∧ exactOccupancy 23 40 = 58 ∧
    Server.occupancy 29 200 = 14 ∧ exactOccupancy 29 200 = 15 := by
  decide

/-- C30 (amended): the occupancy is 0 when `total_beds <= 0`, so no division by zero is
performed; otherwise it is `Math.round` of the double product `(occupied_beds / total_beds)
* 100`; and when `0 <= occupied_beds <= total_beds` with `total_beds > 0` it lies between 0
and 100 inclusive and differs by at most one from `occupied_beds * 100 / total_beds`
rounded to the nearest integer with a half going up. -/
theorem occupancy_bounds (occupied_beds total_beds : Int) :
    (total_beds ≤ 0 → Server.occupancy occupied_beds total_beds = 0) ∧
    (0 < total_beds → Server.occupancy occupied_beds total_beds =
      mathRound (times100 (divide occupied_beds total_beds))) ∧
    (0 ≤ occupied_beds → occupied_beds ≤ total_beds → 0 < total_beds →
      0 ≤ Server.occupancy occupied_beds total_beds ∧
      Server.occupancy occupied_beds total_beds ≤ 100 ∧
      exactOccupancy occupied_beds total_beds - 1 ≤
        Server.occupancy occupied_beds total_beds ∧
      Server.occupancy occupied_beds total_beds ≤
        exactOccupancy occupied_beds total_beds + 1) := by
  refine ⟨?_, ?_, ?_⟩
  · intro h
    unfold Server.occupancy
    rw [if_neg (by omega)]
  · intro h
    unfold Server.occupancy
    rw [if_pos h]
  · intro h0 hle hb
    by_cases hz : occupied_beds = 0
    · subst hz
      obtain ⟨h1, h2⟩ := occupancy_zero_beds total_beds hb
      rw [h1, h2]
      decide
    · have ha : 0 < occupied_beds := by omega
      obtain ⟨r1, r2⟩ := occupancy_range_pos occupied_beds total_beds ha hle
      obtain ⟨k1, k2⟩ := occupancy_close_pos occupied_beds total_beds ha hle
      exact ⟨r1, r2, by omega, k2⟩

end HMS
